import Mathlib

/-!
crowdFunding: donations, comments, moderation and authentication.

A shallow embedding of `backend/routes/donations.js` (POST /verify-payment,
POST /create-order, GET /campaign/:campaignId), `backend/routes/comments.js`
(posting, editing, liking, reporting and deleting a comment),
`backend/routes/admin.js` (verification of users and campaigns, complaints),
`backend/routes/notifications.js` (POST /milestone), the route tables of the five
routers and `backend/middleware/auth.js` (`protect`, `authorize`), together with
the parts of `backend/models/Comment.js`, `backend/models/Complaint.js` and
`backend/services/emailService.js` they call.

Conventions of the embedding:

* a handler is a pure function from the database before the request to the
  response and the database after it; requests are handled one at a time;
* amounts are held as rationals and the store adds them exactly; where the
  handlers themselves compute with them, the percentages of the milestone
  check and the amount of an order in paise, the operations are those of
  JavaScript numbers: every operand is taken to the nearest double and every
  result is rounded to the nearest double (`JsNumber`, `toDouble`), and
  `Math.round` is applied to that (`JsRounded`, `mathRound`); zero carries no
  sign;
* the Campaign, User, Comment and Complaint collections are keyed by `_id`, so
  two documents never share an id, as in the document store; the Donation
  collection is the list of its documents in insertion order;
* the HMAC function, the clock, the id generator, token verification and the
  outcome of each call to the email service are inputs (`Env`, `AuthEnv`,
  `EmailService`);
* a field of a request body that is validated with `isBoolean()` is absent,
  a JSON boolean, a JSON string, a JSON number or another value
  (`BoolField`); an optional string field is `none` when absent.
-/

namespace CrowdFunding

/-- Document ids, as the strings that travel in requests. -/
abbrev ObjectId := String

/-! ## Data model -/

/-- Modelled from the spec: `models/Donation.js` is not part of the sources; the
fields are the ones `Donation.create` writes in `routes/donations.js`. -/
structure Donation where
  _id : ObjectId
  donor : ObjectId
  campaign : ObjectId
  amount : ℚ
  message : String
  isAnonymous : Bool
  paymentIntentId : String
  paymentStatus : String
  razorpayOrderId : String
  razorpaySignature : String
deriving DecidableEq

/-- One element of `campaign.donors`, as pushed by verify-payment. -/
structure DonorEntry where
  user : ObjectId
  amount : ℚ
  isAnonymous : Bool
  donatedAt : Nat
deriving DecidableEq

/-- Modelled from the spec: `models/Campaign.js` is not part of the sources; the
fields are the ones the route handlers read and write. -/
structure Campaign where
  title : String := ""
  goalAmount : ℚ
  currentAmount : ℚ := 0
  status : String := "pending"
  deadline : Nat := 0
  donors : List DonorEntry := []
  isVerified : Bool := false
  verifiedBy : Option ObjectId := none
  verifiedAt : Option Nat := none
  rejectionReason : Option String := none
deriving DecidableEq

/-- Modelled from the spec: `models/User.js` is not part of the sources; the
fields are the ones the route handlers read and write. -/
structure User where
  name : String := ""
  username : String := ""
  email : String := ""
  profilePicture : String := ""
  role : String := "donor"
  donations : List ObjectId := []
  isVerified : Bool := false
  verifiedBy : Option ObjectId := none
  verifiedAt : Option Nat := none
  rejectionReason : Option String := none
deriving DecidableEq

/-- An element of `comment.likes` (`models/Comment.js`, lines 43-52). -/
structure Like where
  user : ObjectId
  likedAt : Nat
deriving DecidableEq

/-- An element of `comment.reportedBy` (`models/Comment.js`, lines 57-70). -/
structure Report where
  user : ObjectId
  reason : String
  reportedAt : Nat
deriving DecidableEq

/-- The comment schema of `models/Comment.js`, with its defaults. -/
structure Comment where
  campaign : ObjectId
  author : ObjectId
  content : String
  parentComment : Option ObjectId := none
  replies : List ObjectId := []
  isEdited : Bool := false
  editedAt : Option Nat := none
  isDeleted : Bool := false
  deletedAt : Option Nat := none
  likes : List Like := []
  isReported : Bool := false
  reportedBy : List Report := []
  isModerated : Bool := false
  moderatedBy : Option ObjectId := none
  moderatedAt : Option Nat := none
  createdAt : Nat := 0
  updatedAt : Nat := 0
deriving DecidableEq

/-- The complaint schema of `models/Complaint.js`, with its defaults. -/
structure Complaint where
  user : ObjectId
  campaign : ObjectId
  subject : String
  description : String
  status : String := "pending"
  adminNotes : Option String := none
  resolvedBy : Option ObjectId := none
  createdAt : Nat := 0
  updatedAt : Nat := 0
deriving DecidableEq

/-- The collections of the document store. Donations keep their insertion
order; the other collections are looked up by id only. -/
structure Db where
  donations : List Donation := []
  campaigns : ObjectId → Option Campaign := fun _ => none
  users : ObjectId → Option User := fun _ => none
  comments : ObjectId → Option Comment := fun _ => none
  complaints : ObjectId → Option Complaint := fun _ => none

/-- What the process environment and the libraries supply to one request. -/
structure Env where
  -- the variable process.env.RAZORPAY_KEY_SECRET, when set
  RAZORPAY_KEY_SECRET : Option String
  -- crypto.createHmac("sha256", key).update(data).digest("hex"), as a function of key and data
  hmacSha256Hex : String → String → String
  -- the value of new Date()
  now : Nat
  -- the _id given to the document this request creates
  freshId : ObjectId
  -- whether the ODM drops a key whose value is undefined from an update
  -- (otherwise the field is set to null)
  omitUndefined : Bool := true

/-- The model method `Model.findByIdAndUpdate(id, update)`: the document with
that id, if any, is changed; every other document is left alone. -/
def findByIdAndUpdate {α : Type} (coll : ObjectId → Option α) (id : ObjectId)
    (update : α → α) : ObjectId → Option α :=
  fun k => if k = id then (coll k).map update else coll k

/-- The document method `doc.save()` for a document loaded by id: stores `doc`
under `id`. -/
def saveDoc {α : Type} (coll : ObjectId → Option α) (id : ObjectId) (doc : α) :
    ObjectId → Option α :=
  fun k => if k = id then some doc else coll k

/-! ## Request validation (express-validator) -/

/-- A field of a JSON body that is validated with `isBoolean()`: missing, a
JSON boolean, a JSON string, a JSON number, or a value of no such kind (null, an
object), which the validator rejects. -/
inductive BoolField where
  | absent
  | notBoolean
  | value (b : Bool)
  | text (s : String)
  | number (n : ℚ)
deriving DecidableEq

/-- The validator `isBoolean()` of express-validator on a value that is present:
the value is turned into a string, which has to be one of "true", "false", "1"
and "0". -/
def BoolField.isBoolean (f : BoolField) : Bool :=
  match f with
  | BoolField.absent => false
  | BoolField.notBoolean => false
  | BoolField.value _ => true
  | BoolField.text s => ["true", "false", "1", "0"].contains s
  | BoolField.number n => decide (n = 1 ∨ n = 0)

/-- The truthiness of the value, as `if (field)` and `field ? x : y` test it: a
string is truthy unless it is empty, a number unless it is zero. Of the values
that pass `isBoolean()` only `false` and 0 are falsy. -/
def BoolField.truthy (f : BoolField) : Bool :=
  match f with
  | BoolField.absent => false
  | BoolField.notBoolean => false
  | BoolField.value v => v
  | BoolField.text s => decide (s ≠ "")
  | BoolField.number n => decide (n ≠ 0)

/-- The destructuring default `field = d` applied to a validated field, and the
boolean the value is cast to when it is stored in a field of type Boolean (the
model files that declare the fields are not part of the sources): `true`,
"true", "1" and 1 are stored as true, the other values that pass `isBoolean()`
as false. -/
def BoolField.withDefault (f : BoolField) (d : Bool) : Bool :=
  match f with
  | BoolField.value v => v
  | BoolField.text s => decide (s = "true" ∨ s = "1")
  | BoolField.number n => decide (n = 1)
  | _ => d

/-- The method `toString()` on a validated field with the default `false`. -/
def BoolField.jsToString (f : BoolField) : String :=
  match f with
  | BoolField.value v => toString v
  | BoolField.text s => s
  | BoolField.number n => if n = 1 then "1" else "0"
  | _ => "false"

/-- The validator `isMongoId()`: 24 hexadecimal digits. -/
def isMongoId (s : String) : Bool :=
  s.length == 24 && s.toList.all fun c => c.isDigit || ('a' ≤ c && c ≤ 'f') || ('A' ≤ c && c ≤ 'F')

/-- The body of POST /verify-payment. A missing string field is the empty
string; `amount` is `none` when the field is missing or not a numeric literal. -/
structure VerifyPaymentBody where
  razorpay_order_id : String
  razorpay_payment_id : String
  razorpay_signature : String
  campaignId : String
  amount : Option ℚ
  message : Option String := none
  isAnonymous : BoolField := BoolField.absent

/-- The validation chain of POST /verify-payment (`routes/donations.js`,
lines 152-159): the messages of the validators that fail, in order. -/
def verifyPaymentErrors (b : VerifyPaymentBody) : List String :=
  (if b.razorpay_order_id = "" then ["Order ID is required"] else []) ++
  (if b.razorpay_payment_id = "" then ["Payment ID is required"] else []) ++
  (if b.razorpay_signature = "" then ["Payment signature is required"] else []) ++
  (if isMongoId b.campaignId then [] else ["Valid campaign ID is required"]) ++
  (match b.amount with
    | some a => if 1 ≤ a then [] else ["Amount must be at least ₹1"]
    | none => ["Amount must be at least ₹1"]) ++
  (match b.message with
    | some m => if m.length ≤ 500 then [] else ["Message cannot exceed 500 characters"]
    | none => []) ++
  (match b.isAnonymous with
    | BoolField.absent => []
    | field => if field.isBoolean then [] else ["Invalid value"])

/-! ## Responses and the email service -/

/-- The HTTP response of a handler: status, the `message` of the JSON body and
the document returned with it, if any. -/
structure Response where
  status : Nat
  message : String
  donation : Option Donation := none
  comment : Option Comment := none
  likeCount : Option Nat := none
  isLiked : Option Bool := none
  user : Option User := none
  campaign : Option Campaign := none
  complaint : Option Complaint := none
  sent : Option Nat := none
  failed : Option Nat := none
  error : Option String := none
deriving DecidableEq

/-- A call to `emailService` made by a handler. -/
inductive EmailCall where
  | donationConfirmation (donorEmail donorName campaignTitle : String) (amount : ℚ)
      (campaignId : ObjectId)
  | milestoneNotification (campaignId : ObjectId) (milestone : Nat)
deriving DecidableEq

/-- The value a function of the email service resolves with. -/
structure SendResult where
  success : Bool
  sent : Option Nat := none
  failed : Option Nat := none
  messageId : Option String := none
  error : Option String := none
deriving DecidableEq

/-- How a call to the email service ends: its promise resolves with a result
or rejects. -/
inductive EmailOutcome where
  | resolved (result : SendResult)
  | threw
deriving DecidableEq

/-- The email service as a handler sees it: the outcome of a call, given the
database at the time of the call. -/
abbrev EmailService := Db → EmailCall → EmailOutcome

/-! ## Percentages -/

/-- The function `Math.round` on a rational: to the nearest integer, halves up. -/
def mathRound (x : ℚ) : ℤ := ⌊x + 1 / 2⌋

/-- A JavaScript number: a finite double, given by its value, or one of the
three numbers that are not finite. Zero carries no sign. -/
inductive JsNumber where
  | NaN
  | negInfinity
  | posInfinity
  | finite (x : ℚ)
deriving DecidableEq

/-- Rounding to the nearest integer, a half going to the even neighbour. -/
def roundHalfEven (y : ℚ) : ℤ :=
  if y - ⌊y⌋ < 1 / 2 then ⌊y⌋
  else if 1 / 2 < y - ⌊y⌋ then ⌊y⌋ + 1
  else if ⌊y⌋ % 2 = 0 then ⌊y⌋ else ⌊y⌋ + 1

/-- The double nearest to a rational (IEEE 754 binary64, round to nearest, ties
to even): 53 significant bits, the exponent of the last bit no lower than
-1074, and an infinity when the rounded magnitude reaches 2^1024. A rational
that is a double is its own nearest double. -/
def toDouble (x : ℚ) : JsNumber :=
  if x = 0 then JsNumber.finite 0
  else
    let e : ℤ := max (Int.log 2 |x|) (-1022) - 52
    let d : ℚ := roundHalfEven (|x| / 2 ^ e) * 2 ^ e
    if (2 : ℚ) ^ (1024 : ℤ) ≤ d then
      if 0 < x then JsNumber.posInfinity else JsNumber.negInfinity
    else JsNumber.finite (if 0 < x then d else -d)

/-- The operator `-` of JavaScript on two numbers. -/
def JsNumber.sub (x y : JsNumber) : JsNumber :=
  match x, y with
  | JsNumber.finite a, JsNumber.finite b => toDouble (a - b)
  | JsNumber.NaN, _ => JsNumber.NaN
  | _, JsNumber.NaN => JsNumber.NaN
  | JsNumber.posInfinity, JsNumber.posInfinity => JsNumber.NaN
  | JsNumber.negInfinity, JsNumber.negInfinity => JsNumber.NaN
  | JsNumber.posInfinity, _ => JsNumber.posInfinity
  | JsNumber.negInfinity, _ => JsNumber.negInfinity
  | JsNumber.finite _, JsNumber.posInfinity => JsNumber.negInfinity
  | JsNumber.finite _, JsNumber.negInfinity => JsNumber.posInfinity

/-- The operator `/` of JavaScript on two numbers. -/
def JsNumber.div (x y : JsNumber) : JsNumber :=
  match x, y with
  | JsNumber.finite a, JsNumber.finite b =>
    if b = 0 then
      if a = 0 then JsNumber.NaN
      else if 0 < a then JsNumber.posInfinity
      else JsNumber.negInfinity
    else toDouble (a / b)
  | JsNumber.NaN, _ => JsNumber.NaN
  | _, JsNumber.NaN => JsNumber.NaN
  | JsNumber.finite _, _ => JsNumber.finite 0
  | JsNumber.posInfinity, JsNumber.finite b =>
    if 0 ≤ b then JsNumber.posInfinity else JsNumber.negInfinity
  | JsNumber.negInfinity, JsNumber.finite b =>
    if 0 ≤ b then JsNumber.negInfinity else JsNumber.posInfinity
  | _, _ => JsNumber.NaN

/-- The operator `*` of JavaScript on two numbers. -/
def JsNumber.mul (x y : JsNumber) : JsNumber :=
  match x, y with
  | JsNumber.finite a, JsNumber.finite b => toDouble (a * b)
  | JsNumber.NaN, _ => JsNumber.NaN
  | _, JsNumber.NaN => JsNumber.NaN
  | JsNumber.finite a, JsNumber.posInfinity =>
    if a = 0 then JsNumber.NaN
    else if 0 < a then JsNumber.posInfinity else JsNumber.negInfinity
  | JsNumber.finite a, JsNumber.negInfinity =>
    if a = 0 then JsNumber.NaN
    else if 0 < a then JsNumber.negInfinity else JsNumber.posInfinity
  | JsNumber.posInfinity, JsNumber.finite b =>
    if b = 0 then JsNumber.NaN
    else if 0 < b then JsNumber.posInfinity else JsNumber.negInfinity
  | JsNumber.negInfinity, JsNumber.finite b =>
    if b = 0 then JsNumber.NaN
    else if 0 < b then JsNumber.negInfinity else JsNumber.posInfinity
  | JsNumber.posInfinity, JsNumber.posInfinity => JsNumber.posInfinity
  | JsNumber.negInfinity, JsNumber.negInfinity => JsNumber.posInfinity
  | _, _ => JsNumber.negInfinity

/-- The value of `Math.round(x)`: an integer, or `x` itself when it is not
finite. -/
inductive JsRounded where
  | NaN
  | negInfinity
  | posInfinity
  | finite (n : ℤ)
deriving DecidableEq

/-- The function `Math.round` on a JavaScript number. -/
def JsNumber.round (x : JsNumber) : JsRounded :=
  match x with
  | JsNumber.NaN => JsRounded.NaN
  | JsNumber.negInfinity => JsRounded.negInfinity
  | JsNumber.posInfinity => JsRounded.posInfinity
  | JsNumber.finite v => JsRounded.finite (mathRound v)

/-- The expression `Math.round((amount / goalAmount) * 100)` of lines 270 and
278, for the number `amount` and the stored `goalAmount`. -/
def roundedPercentage (amount : JsNumber) (goalAmount : ℚ) : JsRounded :=
  ((amount.div (toDouble goalAmount)).mul (JsNumber.finite 100)).round

/-- The expression `updatedCampaign.currentAmount - parseFloat(amount)` of line
277. -/
def previousAmount (currentAmount amount : ℚ) : JsNumber :=
  (toDouble currentAmount).sub (toDouble amount)

/-- The comparison `p >= milestone` of JavaScript. -/
def JsRounded.ge (p : JsRounded) (milestone : Nat) : Bool :=
  match p with
  | JsRounded.NaN => false
  | JsRounded.negInfinity => false
  | JsRounded.posInfinity => true
  | JsRounded.finite n => decide ((milestone : ℤ) ≤ n)

/-- The comparison `p < milestone` of JavaScript. -/
def JsRounded.lt (p : JsRounded) (milestone : Nat) : Bool :=
  match p with
  | JsRounded.NaN => false
  | JsRounded.negInfinity => true
  | JsRounded.posInfinity => false
  | JsRounded.finite n => decide (n < (milestone : ℤ))

/-! ## The email service (`services/emailService.js`) -/

set_option linter.unusedVariables false

/-- The message handed to the mail transport: recipient and subject. The HTML
body is left out; `recipient` is the field `to`. -/
structure MailOptions where
  recipient : String
  subject : String
deriving DecidableEq

/-- The mail transport: `sendMail` returns a message id or throws. -/
structure Transport where
  sendMail : MailOptions → Except String String

/-- The module `nodemailer` as `emailService.js` uses it: what its property
`createTransporter` holds, if the module has a property of that name. -/
structure Nodemailer where
  createTransporter : Option Transport

/-- The function `createTransporter` (lines 4-14): it calls
`nodemailer.createTransporter`. Calling a property that the module does not have
throws a TypeError. -/
def createTransporter (nodemailer : Nodemailer) : Except String Transport :=
  match nodemailer.createTransporter with
  | some transporter => Except.ok transporter
  | none => Except.error "nodemailer.createTransporter is not a function"

/-- The nodemailer library: its factory is named `createTransport`, and it has no
property `createTransporter`. -/
def nodemailer : Nodemailer := { createTransporter := none }

/-- The function `sendDonationConfirmation` (lines 162-188): the value it
resolves with and the messages it hands to the transport. `createTransporter`
is what constructing the transport gives: a transport or an exception. -/
def sendDonationConfirmation (createTransporter : Except String Transport)
    (donorEmail donorName campaignTitle : String) (amount : ℚ) (campaignId : ObjectId) :
    SendResult × List MailOptions :=
  match createTransporter with
  | Except.error e => ({ success := false, error := some e }, [])
  | Except.ok transporter =>
    let mailOptions : MailOptions :=
      { recipient := donorEmail, subject := "Thank you for supporting " ++ campaignTitle ++ "!" }
    match transporter.sendMail mailOptions with
    | Except.ok messageId => ({ success := true, messageId := some messageId }, [mailOptions])
    | Except.error e => ({ success := false, error := some e }, [mailOptions])

/-- The method `Map.prototype.set`: an existing key keeps its place and takes
the new value, a new key goes last. -/
def mapSet (m : List (String × User)) (key : String) (value : User) : List (String × User) :=
  if m.any (fun e => decide (e.1 = key)) then
    m.map fun e => if e.1 = key then (key, value) else e
  else m ++ [(key, value)]

/-- The map `uniqueDonors` of lines 264-274: the donations of the campaign,
newest first, each with its donor looked up; a donation whose donor is missing
or has no email is skipped. -/
def uniqueDonors (db : Db) (campaignId : ObjectId) : List (String × User) :=
  (db.donations.reverse.filter fun d => decide (d.campaign = campaignId)).foldl
    (fun m donation =>
      match db.users donation.donor with
      | some donor => if donor.email ≠ "" then mapSet m donor.email donor else m
      | none => m)
    []

/-- How a promise settles. -/
inductive Settled where
  | fulfilled
  | rejected
deriving DecidableEq

/-- The per-donor task of lines 216-239 and 284-307: the message is handed to
the transport inside a try/catch that returns a value, so the promise of the
task fulfils whether the send succeeds or throws. -/
def donorTask (transporter : Transport) (mail : MailOptions) : Settled :=
  match transporter.sendMail mail with
  | Except.ok _ => Settled.fulfilled
  | Except.error _ => Settled.fulfilled

/-- The counting of lines 241-246 and 309-314 over the settled promises. -/
def countSettled (results : List Settled) : SendResult :=
  { success := true
    sent := some (results.filter fun r => decide (r = Settled.fulfilled)).length
    failed := some (results.filter fun r => decide (r = Settled.rejected)).length }

/-- The function `sendMilestoneNotification` (lines 254-319): the value it
resolves with and the messages it hands to the transport. A send that fails is
caught in its own task, whose promise still fulfils. -/
def sendMilestoneNotification (createTransporter : Except String Transport) (db : Db)
    (campaignId : ObjectId) (milestone : Nat) : SendResult × List MailOptions :=
  match db.campaigns campaignId with
  | none => ({ success := false, error := some "Campaign not found" }, [])
  | some campaign =>
    if (uniqueDonors db campaignId).length = 0 then ({ success := true, sent := some 0 }, [])
    else
      match createTransporter with
      | Except.error e => ({ success := false, error := some e }, [])
      | Except.ok transporter =>
        let mails : List MailOptions := (uniqueDonors db campaignId).map fun e =>
          { recipient := e.2.email
            subject := "🎉 " ++ campaign.title ++ " reached " ++ toString milestone ++ "% funding!" }
        (countSettled (mails.map (donorTask transporter)), mails)

/-- The function `sendCampaignUpdate` (lines 191-251): the value it resolves
with and the messages it hands to the transport. -/
def sendCampaignUpdate (createTransporter : Except String Transport) (db : Db)
    (campaignId : ObjectId) (updateMessage : String) : SendResult × List MailOptions :=
  match db.campaigns campaignId with
  | none => ({ success := false, error := some "Campaign not found" }, [])
  | some campaign =>
    match createTransporter with
    | Except.error e => ({ success := false, error := some e }, [])
    | Except.ok transporter =>
      let mails : List MailOptions := (uniqueDonors db campaignId).map fun e =>
        { recipient := e.2.email
          subject := "Update on " ++ campaign.title ++ " - Campaign You Supported" }
      (countSettled (mails.map (donorTask transporter)), mails)

/-- The email service of the repository, for a given way of constructing the
transport. -/
def emailService (createTransporter : Except String Transport) : EmailService :=
  fun db call =>
    match call with
    | EmailCall.donationConfirmation donorEmail donorName campaignTitle amount campaignId =>
      EmailOutcome.resolved
        (sendDonationConfirmation createTransporter donorEmail donorName campaignTitle amount
          campaignId).1
    | EmailCall.milestoneNotification campaignId milestone =>
      EmailOutcome.resolved (sendMilestoneNotification createTransporter db campaignId milestone).1

/-! ## POST /api/donations/verify-payment -/

/-- The secret `process.env.RAZORPAY_KEY_SECRET || 'sample_secret'`: an unset or
empty variable falls back to the sample secret. -/
def keySecret (env : Env) : String :=
  match env.RAZORPAY_KEY_SECRET with
  | some s => if s = "" then "sample_secret" else s
  | none => "sample_secret"

/-- The value `expectedSignature` (`routes/donations.js`, lines 181-185). -/
def expectedSignature (env : Env) (b : VerifyPaymentBody) : String :=
  env.hmacSha256Hex (keySecret env) (b.razorpay_order_id ++ "|" ++ b.razorpay_payment_id)

/-- The query `Donation.findOne({ paymentIntentId })`. -/
def findDonationByPaymentId (db : Db) (paymentId : String) : Option Donation :=
  db.donations.find? fun d => decide (d.paymentIntentId = paymentId)

/-- The document passed to `Donation.create` (lines 204-214). -/
def newDonation (env : Env) (userId : ObjectId) (b : VerifyPaymentBody) (amount : ℚ)
    (message : String) (isAnonymous : Bool) : Donation :=
  { _id := env.freshId
    donor := userId
    campaign := b.campaignId
    amount := amount
    message := message
    isAnonymous := isAnonymous
    paymentIntentId := b.razorpay_payment_id
    paymentStatus := "succeeded"
    razorpayOrderId := b.razorpay_order_id
    razorpaySignature := b.razorpay_signature }

/-- The update of lines 218-228: `$inc` of `currentAmount` and `$push` of one
donor entry. -/
def creditCampaign (env : Env) (userId : ObjectId) (amount : ℚ) (isAnonymous : Bool)
    (c : Campaign) : Campaign :=
  { c with
    currentAmount := c.currentAmount + amount
    donors := c.donors ++
      [{ user := userId, amount := amount, isAnonymous := isAnonymous, donatedAt := env.now }] }

/-- The goal check of lines 238-242 on the reloaded campaign: the document the
handler holds afterwards. -/
def goalCheck (updatedCampaign : Campaign) : Campaign :=
  if updatedCampaign.currentAmount ≥ updatedCampaign.goalAmount then
    { updatedCampaign with status := "completed" }
  else updatedCampaign

/-- The thresholds of line 271. -/
def milestones : List Nat := [25, 50, 75, 100]

/-- The loop of lines 273-284 over the thresholds still to visit: the calls to
`sendMilestoneNotification` it makes, in order. A call that throws leaves the
loop (the `catch` of line 285 is outside it). -/
def milestoneLoop (svc : EmailService) (db : Db) (campaignId : ObjectId)
    (currentAmount amount goalAmount : ℚ) : List Nat → List EmailCall
  | [] => []
  | milestone :: rest =>
    if (roundedPercentage (toDouble currentAmount) goalAmount).ge milestone then
      if (roundedPercentage (previousAmount currentAmount amount) goalAmount).lt milestone then
        match svc db (EmailCall.milestoneNotification campaignId milestone) with
        | EmailOutcome.threw => [EmailCall.milestoneNotification campaignId milestone]
        | EmailOutcome.resolved _ =>
          EmailCall.milestoneNotification campaignId milestone ::
            milestoneLoop svc db campaignId currentAmount amount goalAmount rest
      else milestoneLoop svc db campaignId currentAmount amount goalAmount rest
    else milestoneLoop svc db campaignId currentAmount amount goalAmount rest

/-- The block of lines 249-266: the confirmation email is sent when the donor
has an email address and the campaign is found. Neither a resolved value nor an
exception of the call is used afterwards. -/
def confirmationEmail (db : Db) (userId campaignId : ObjectId) (amount : ℚ) :
    List EmailCall :=
  match db.users userId, db.campaigns campaignId with
  | some donor, some donationCampaign =>
    if donor.email ≠ "" then
      [EmailCall.donationConfirmation donor.email
        (if donor.name ≠ "" then donor.name else donor.username)
        donationCampaign.title amount campaignId]
    else []
  | _, _ => []

/-- What a handler run produces: the response, the database afterwards and the
calls made to the email service. -/
structure Outcome where
  response : Response
  db : Db
  emails : List EmailCall

/-- The handler of POST /verify-payment (`routes/donations.js`, lines 160-298),
run for the authenticated user `userId`. -/
def verifyPayment (env : Env) (svc : EmailService) (db : Db) (userId : ObjectId)
    (b : VerifyPaymentBody) : Outcome :=
  if verifyPaymentErrors b ≠ [] then
    { response := { status := 400, message := "Validation errors" }, db := db, emails := [] }
  else
    match b.amount with
    | none =>
      -- not reached: a body without a numeric amount has a validation error
      { response := { status := 400, message := "Validation errors" }, db := db, emails := [] }
    | some amount =>
      let message := b.message.getD ""
      let isAnonymous := b.isAnonymous.withDefault false
      if expectedSignature env b ≠ b.razorpay_signature then
        { response := { status := 400, message := "Invalid payment signature" }
          db := db, emails := [] }
      else
        match findDonationByPaymentId db b.razorpay_payment_id with
        | some _ =>
          { response := { status := 400, message := "Donation already processed" }
            db := db, emails := [] }
        | none =>
          match db.campaigns b.campaignId with
          | none =>
            { response := { status := 404, message := "Campaign not found" }
              db := db, emails := [] }
          | some _ =>
            let donation := newDonation env userId b amount message isAnonymous
            let db1 := { db with donations := db.donations ++ [donation] }
            let db2 := { db1 with
              campaigns := findByIdAndUpdate db1.campaigns b.campaignId
                (creditCampaign env userId amount isAnonymous) }
            let db3 := { db2 with
              users := findByIdAndUpdate db2.users userId
                fun u => { u with donations := u.donations ++ [donation._id] } }
            match db3.campaigns b.campaignId with
            | none =>
              -- reading a field of null throws; the outer catch answers 500
              { response := { status := 500, message := "Server error verifying payment" }
                db := db3, emails := [] }
            | some reloaded =>
              let updatedCampaign := goalCheck reloaded
              let db4 :=
                if reloaded.currentAmount ≥ reloaded.goalAmount then
                  { db3 with campaigns := saveDoc db3.campaigns b.campaignId updatedCampaign }
                else db3
              { response :=
                  { status := 201, message := "Donation successful!", donation := some donation }
                db := db4
                emails := confirmationEmail db4 userId b.campaignId amount ++
                  milestoneLoop svc db4 b.campaignId updatedCampaign.currentAmount amount
                    updatedCampaign.goalAmount milestones }

/-- The milestones for which a handler run called `sendMilestoneNotification`,
in the order of the calls. -/
def firedMilestones (emails : List EmailCall) : List Nat :=
  emails.filterMap fun e =>
    match e with
    | EmailCall.milestoneNotification _ m => some m
    | _ => none

/-- The sum of `amount` over the donations of a campaign with paymentStatus
`succeeded`. -/
def succeededTotal (donations : List Donation) (campaignId : ObjectId) : ℚ :=
  ((donations.filter fun d =>
    decide (d.campaign = campaignId) && decide (d.paymentStatus = "succeeded")).map
      fun d => d.amount).sum

/-! ## POST /api/comments -/

/-- The body of POST /comments. A missing string field is the empty string;
`parentComment` is `none` when the field is absent. -/
structure CommentBody where
  campaignId : String
  content : String
  parentComment : Option String := none

/-- The sanitizer `trim()`: the string without its leading and trailing
whitespace. -/
def trim (s : String) : String :=
  String.mk ((s.toList.dropWhile Char.isWhitespace).reverse.dropWhile Char.isWhitespace).reverse

/-- The validation chain of POST /comments (`routes/comments.js`, lines 65-69):
the messages of the validators that fail, in order. The content is trimmed
before its length is checked. -/
def postCommentErrors (b : CommentBody) : List String :=
  (if isMongoId b.campaignId then [] else ["Valid campaign ID is required"]) ++
  (if 1 ≤ (trim b.content).length ∧ (trim b.content).length ≤ 1000 then []
    else ["Comment must be between 1 and 1000 characters"]) ++
  (match b.parentComment with
    | some p => if isMongoId p then [] else ["Valid parent comment ID required"]
    | none => [])

/-- The update operator `$addToSet`: the value is added unless it is there. -/
def addToSet (xs : List ObjectId) (x : ObjectId) : List ObjectId :=
  if x ∈ xs then xs else xs ++ [x]

/-- The `post('save')` hook of the comment schema (`models/Comment.js`, lines
104-111): a saved comment that has a parent and is not deleted is added to the
parent's replies. The update stamps the parent's `updatedAt` (schema option
`timestamps`). -/
def commentPostSave (env : Env) (db : Db) (id : ObjectId) (saved : Comment) : Db :=
  match saved.parentComment with
  | some parent =>
    if parent ≠ "" ∧ saved.isDeleted = false then
      { db with
        comments := findByIdAndUpdate db.comments parent fun p =>
          { p with replies := addToSet p.replies id, updatedAt := env.now } }
    else db
  | none => db

/-- The parent check of lines 88-93: a named parent that is missing or
soft-deleted. -/
def parentNotFound (db : Db) (parentComment : Option String) : Bool :=
  match parentComment with
  | some p =>
    if p ≠ "" then
      match db.comments p with
      | none => true
      | some parentCommentDoc => parentCommentDoc.isDeleted
    else false
  | none => false

/-- The handler of POST /comments (`routes/comments.js`, lines 69-114), run for
the authenticated user `userId`. -/
def postComment (env : Env) (db : Db) (userId : ObjectId) (b : CommentBody) : Outcome :=
  if postCommentErrors b ≠ [] then
    { response := { status := 400, message := "Validation errors" }, db := db, emails := [] }
  else
    let content := trim b.content
    match db.campaigns b.campaignId with
    | none =>
      { response := { status := 404, message := "Campaign not found" }, db := db, emails := [] }
    | some _ =>
      if parentNotFound db b.parentComment then
        { response := { status := 404, message := "Parent comment not found" }
          db := db, emails := [] }
      else
        let comment : Comment :=
          { campaign := b.campaignId, author := userId, content := content
            parentComment := b.parentComment, createdAt := env.now, updatedAt := env.now }
        let db1 := { db with comments := saveDoc db.comments env.freshId comment }
        { response :=
            { status := 201, message := "Comment added successfully", comment := some comment }
          db := commentPostSave env db1 env.freshId comment
          emails := [] }

/-! ## Comment documents: save, like, report, delete -/

/-- The authenticated user a handler finds in `req.user`: the user document and
its id. -/
structure ReqUser where
  _id : ObjectId
  doc : User
deriving DecidableEq

/-- The virtual `likeCount` (`models/Comment.js`, lines 88-91). -/
def likeCount (c : Comment) : Nat := c.likes.length

/-- The virtual `replyCount` (`models/Comment.js`, lines 93-96). -/
def replyCount (c : Comment) : Nat := c.replies.length

/-- The document method `comment.save()` for a comment loaded by id and changed
in memory: the document is written with a new `updatedAt` (schema option
`timestamps`), then the `post('save')` hook runs on it. -/
def saveComment (env : Env) (db : Db) (id : ObjectId) (doc : Comment) : Db :=
  commentPostSave env
    { db with comments := saveDoc db.comments id { doc with updatedAt := env.now } } id
    { doc with updatedAt := env.now }

/-- The handler of POST /comments/:id/like (`routes/comments.js`, lines
197-229), run for the authenticated user `userId`. -/
def likeComment (env : Env) (db : Db) (userId : ObjectId) (commentId : ObjectId) : Outcome :=
  match db.comments commentId with
  | none =>
    { response := { status := 404, message := "Comment not found" }, db := db, emails := [] }
  | some comment =>
    if comment.isDeleted then
      { response := { status := 404, message := "Comment not found" }, db := db, emails := [] }
    else
      match comment.likes.find? fun like => decide (like.user = userId) with
      | some _ =>
        let unliked : Comment :=
          { comment with likes := comment.likes.filter fun like => decide (like.user ≠ userId) }
        { response :=
            { status := 200, message := "Comment unliked", likeCount := some (likeCount unliked)
              isLiked := some false }
          db := saveComment env db commentId unliked
          emails := [] }
      | none =>
        let liked : Comment :=
          { comment with likes := comment.likes ++ [{ user := userId, likedAt := env.now }] }
        { response :=
            { status := 200, message := "Comment liked", likeCount := some (likeCount liked)
              isLiked := some true }
          db := saveComment env db commentId liked
          emails := [] }

/-- The reasons accepted by the validator of POST /comments/:id/report and by
the schema (`routes/comments.js`, line 235). -/
def reportReasons : List String := ["spam", "inappropriate", "offensive", "harassment", "other"]

/-- The handler of POST /comments/:id/report (`routes/comments.js`, lines
234-271), run for the authenticated user `userId`. -/
def reportComment (env : Env) (db : Db) (userId : ObjectId) (commentId : ObjectId)
    (reason : String) : Outcome :=
  if reason ∉ reportReasons then
    { response := { status := 400, message := "Validation errors" }, db := db, emails := [] }
  else
    match db.comments commentId with
    | none =>
      { response := { status := 404, message := "Comment not found" }, db := db, emails := [] }
    | some comment =>
      if comment.isDeleted then
        { response := { status := 404, message := "Comment not found" }, db := db, emails := [] }
      else
        match comment.reportedBy.find? fun report => decide (report.user = userId) with
        | some _ =>
          { response := { status := 400, message := "You have already reported this comment" }
            db := db, emails := [] }
        | none =>
          let reported : Comment :=
            { comment with
              reportedBy := comment.reportedBy ++
                [{ user := userId, reason := reason, reportedAt := env.now }]
              isReported := true }
          { response := { status := 200, message := "Comment reported successfully" }
            db := saveComment env db commentId reported
            emails := [] }

/-- The handler of DELETE /comments/:id (`routes/comments.js`, lines 165-192),
run for the authenticated user `reqUser`. -/
def deleteComment (env : Env) (db : Db) (reqUser : ReqUser) (commentId : ObjectId) : Outcome :=
  match db.comments commentId with
  | none =>
    { response := { status := 404, message := "Comment not found" }, db := db, emails := [] }
  | some comment =>
    if comment.isDeleted then
      { response := { status := 404, message := "Comment not found" }, db := db, emails := [] }
    else
      let isOwner := decide (comment.author = reqUser._id)
      let isAdmin := decide (reqUser.doc.role = "admin")
      if !isOwner && !isAdmin then
        { response := { status := 403, message := "Not authorized to delete this comment" }
          db := db, emails := [] }
      else
        let deleted : Comment := { comment with isDeleted := true, deletedAt := some env.now }
        { response := { status := 200, message := "Comment deleted successfully" }
          db := saveComment env db commentId deleted
          emails := [] }

/-! ## Admin moderation (`routes/admin.js`) -/

/-- The body of the two verify routes; `rejectionReason` is `none` when the field
is absent. -/
structure VerifyBody where
  isVerified : BoolField
  rejectionReason : Option String := none

/-- The validation chain of PUT /users/:id/verify and PUT /campaigns/:id/verify
(lines 166-167 and 330-331): the messages of the validators that fail. -/
def verifyErrors (b : VerifyBody) : List String :=
  (if b.isVerified.isBoolean then [] else ["Verification status is required"]) ++
  (match b.rejectionReason with
    | some r => if r.length ≤ 500 then [] else ["Invalid value"]
    | none => [])

/-- The truthiness test `if (text)` on an optional string field: present and
not empty. -/
def truthy (text : Option String) : Bool :=
  match text with
  | some t => decide (t ≠ "")
  | none => false

/-- The object `updateFields` of PUT /admin/users/:id/verify (lines 178-187),
as the change it makes to a user document. -/
def verifyUserFields (env : Env) (reqUser : ReqUser) (b : VerifyBody) (u : User) : User :=
  { u with
    isVerified := b.isVerified.withDefault false
    verifiedBy := some reqUser._id
    verifiedAt := some env.now
    rejectionReason :=
      if !b.isVerified.truthy && truthy b.rejectionReason then b.rejectionReason
      else u.rejectionReason }

/-- The handler of PUT /admin/users/:id/verify (`routes/admin.js`, lines
168-207), run for the acting admin `reqUser` on the user `id`. -/
def verifyUser (env : Env) (db : Db) (reqUser : ReqUser) (id : ObjectId) (b : VerifyBody) :
    Outcome :=
  if verifyErrors b ≠ [] then
    { response := { status := 400, message := "Validation errors" }, db := db, emails := [] }
  else
    let isVerified := b.isVerified.truthy
    match db.users id with
    | none =>
      { response := { status := 404, message := "User not found" }, db := db, emails := [] }
    | some u =>
      { response :=
          { status := 200
            message := "User " ++ (if isVerified then "approved" else "rejected") ++ " successfully"
            user := some (verifyUserFields env reqUser b u) }
        db := { db with users := findByIdAndUpdate db.users id (verifyUserFields env reqUser b) }
        emails := [] }

/-- The object `updateFields` of PUT /admin/campaigns/:id/verify (lines
342-357), as the change it makes to a campaign document. An approval puts
`rejectionReason: undefined` in the update, which the ODM drops or stores as
null (`env.omitUndefined`). -/
def verifyCampaignFields (env : Env) (reqUser : ReqUser) (b : VerifyBody) (c : Campaign) :
    Campaign :=
  if b.isVerified.truthy then
    { c with
      isVerified := b.isVerified.withDefault false
      verifiedBy := some reqUser._id
      verifiedAt := some env.now
      status := "active"
      rejectionReason := if env.omitUndefined then c.rejectionReason else none }
  else
    { c with
      isVerified := b.isVerified.withDefault false
      verifiedBy := some reqUser._id
      verifiedAt := some env.now
      status := "rejected"
      rejectionReason :=
        if truthy b.rejectionReason then b.rejectionReason else c.rejectionReason }

/-- The handler of PUT /admin/campaigns/:id/verify (`routes/admin.js`, lines
332-379), run for the acting admin `reqUser` on the campaign `id`. -/
def verifyCampaign (env : Env) (db : Db) (reqUser : ReqUser) (id : ObjectId) (b : VerifyBody) :
    Outcome :=
  if verifyErrors b ≠ [] then
    { response := { status := 400, message := "Validation errors" }, db := db, emails := [] }
  else
    let isVerified := b.isVerified.truthy
    match db.campaigns id with
    | none =>
      { response := { status := 404, message := "Campaign not found" }, db := db, emails := [] }
    | some c =>
      { response :=
          { status := 200
            message :=
              "Campaign " ++ (if isVerified then "approved" else "rejected") ++ " successfully"
            campaign := some (verifyCampaignFields env reqUser b c) }
        db := { db with
          campaigns := findByIdAndUpdate db.campaigns id (verifyCampaignFields env reqUser b) }
        emails := [] }

/-- The statuses of a complaint (`models/Complaint.js`, line 26, and
`routes/admin.js`, line 472). -/
def complaintStatuses : List String := ["pending", "in_review", "resolved", "dismissed"]

/-- The body of PUT /admin/complaints/:id. A missing status is the empty
string; `adminNotes` is `none` when the field is absent. -/
structure ComplaintBody where
  status : String
  adminNotes : Option String := none

/-- The validation chain of PUT /admin/complaints/:id (lines 472-473). -/
def complaintErrors (b : ComplaintBody) : List String :=
  (if b.status ∈ complaintStatuses then [] else ["Invalid value"]) ++
  (match b.adminNotes with
    | some notes => if notes.length ≤ 500 then [] else ["Invalid value"]
    | none => [])

/-- The object `updateFields` of PUT /admin/complaints/:id (lines 484-490), as
the change it makes to a complaint document; the update stamps `updatedAt`
(schema option `timestamps`). -/
def complaintFields (env : Env) (reqUser : ReqUser) (b : ComplaintBody) (c : Complaint) :
    Complaint :=
  { c with
    status := b.status
    adminNotes := if truthy b.adminNotes then b.adminNotes else c.adminNotes
    resolvedBy :=
      if b.status = "resolved" ∨ b.status = "dismissed" then some reqUser._id
      else c.resolvedBy
    updatedAt := env.now }

/-- The handler of PUT /admin/complaints/:id (`routes/admin.js`, lines
474-513), run for the acting admin `reqUser` on the complaint `id`. -/
def updateComplaint (env : Env) (db : Db) (reqUser : ReqUser) (id : ObjectId)
    (b : ComplaintBody) : Outcome :=
  if complaintErrors b ≠ [] then
    { response := { status := 400, message := "Validation errors" }, db := db, emails := [] }
  else
    match db.complaints id with
    | none =>
      { response := { status := 404, message := "Complaint not found" }, db := db, emails := [] }
    | some c =>
      { response :=
          { status := 200, message := "Complaint updated successfully"
            complaint := some (complaintFields env reqUser b c) }
        db := { db with
          complaints := findByIdAndUpdate db.complaints id (complaintFields env reqUser b) }
        emails := [] }

/-- The transitions the spec allows for the status of a complaint: pending to
in_review, in_review to resolved, in_review to dismissed. -/
def allowedComplaintTransition (before after : String) : Bool :=
  (before == "pending" && after == "in_review") ||
  (before == "in_review" && after == "resolved") ||
  (before == "in_review" && after == "dismissed")

/-! ## Authentication middleware (`middleware/auth.js`) -/

/-- What `jwt.verify(token, secret)` does: it returns the payload, whose `id`
may be missing, or throws `TokenExpiredError` or another error. -/
inductive JwtOutcome where
  | decoded (id : Option ObjectId)
  | tokenExpired
  | otherError
deriving DecidableEq

/-- What the process environment and the token library supply to the
middleware. -/
structure AuthEnv where
  -- the variable process.env.JWT_SECRET, when set
  JWT_SECRET : Option String
  -- jwt.verify, as a function of the token and the secret
  jwtVerify : String → Option String → JwtOutcome

/-- The parts of a request the middleware reads and writes: the Authorization
header, the cookie named token, and `req.user`. -/
structure Request where
  authorization : Option String := none
  cookieToken : Option String := none
  user : Option ReqUser := none
deriving DecidableEq

/-- The function `extractToken` (lines 5-16): the bearer token of the header,
trimmed, else the cookie, else null. -/
def extractToken (req : Request) : Option String :=
  let fromCookie : Option String := if truthy req.cookieToken then req.cookieToken else none
  match req.authorization with
  | some authHeader =>
    if authHeader ≠ "" ∧ ("Bearer ".toList).isPrefixOf authHeader.toList then
      some (trim (String.mk (authHeader.toList.drop 7)))
    else fromCookie
  | none => fromCookie

/-- How a middleware ends: it calls `next`, handing on the request, or it sends
a response. -/
inductive MiddlewareResult where
  | next (req : Request)
  | responded (res : Response)
deriving DecidableEq

/-- The middleware `protect` (lines 25-57). -/
def protect (env : AuthEnv) (db : Db) (req : Request) : MiddlewareResult :=
  match extractToken req with
  | none =>
    MiddlewareResult.responded
      { status := 401
        message := "Not authorized - missing token. Provide Authorization: Bearer <token>" }
  | some token =>
    if token = "" then
      MiddlewareResult.responded
        { status := 401
          message := "Not authorized - missing token. Provide Authorization: Bearer <token>" }
    else
      match env.jwtVerify token env.JWT_SECRET with
      | JwtOutcome.tokenExpired =>
        MiddlewareResult.responded
          { status := 401, message := "Token expired. Please login again." }
      | JwtOutcome.otherError =>
        MiddlewareResult.responded { status := 401, message := "Invalid token." }
      | JwtOutcome.decoded none =>
        -- the lookup of an undefined id finds no user
        MiddlewareResult.responded
          { status := 401, message := "User linked to token no longer exists." }
      | JwtOutcome.decoded (some id) =>
        match db.users id with
        | none =>
          MiddlewareResult.responded
            { status := 401, message := "User linked to token no longer exists." }
        | some user => MiddlewareResult.next { req with user := some { _id := id, doc := user } }

/-- The middleware returned by `authorize(...roles)` (lines 74-86). -/
def authorize (roles : List String) (req : Request) : MiddlewareResult :=
  match req.user with
  | none =>
    MiddlewareResult.responded
      { status := 401, message := "Not authorized - user context missing." }
  | some user =>
    if !roles.contains user.doc.role then
      MiddlewareResult.responded
        { status := 403
          message := "Access denied: role \x27" ++ user.doc.role ++ "\x27 not permitted." }
    else MiddlewareResult.next req

/-- A middleware named in a route definition. -/
inductive Guard where
  | protect
  | authorize (roles : List String)
deriving DecidableEq

/-- A route definition: method, path and the middleware ahead of the handler. -/
structure Route where
  method : String
  path : String
  guards : List Guard
deriving DecidableEq

/-- The routes of `routes/admin.js`, in the order of the file. -/
def adminRoutes : List Route :=
  [ { method := "GET", path := "/stats", guards := [Guard.protect, Guard.authorize ["admin"]] },
    { method := "GET", path := "/users", guards := [Guard.protect, Guard.authorize ["admin"]] },
    { method := "PUT", path := "/users/:id"
      guards := [Guard.protect, Guard.authorize ["admin"]] },
    { method := "PUT", path := "/users/:id/verify"
      guards := [Guard.protect, Guard.authorize ["admin"]] },
    { method := "GET", path := "/donors/unverified"
      guards := [Guard.protect, Guard.authorize ["admin"]] },
    { method := "GET", path := "/campaigns"
      guards := [Guard.protect, Guard.authorize ["admin"]] },
    { method := "PUT", path := "/campaigns/:id/status"
      guards := [Guard.protect, Guard.authorize ["admin"]] },
    { method := "PUT", path := "/campaigns/:id/verify"
      guards := [Guard.protect, Guard.authorize ["admin"]] },
    { method := "GET", path := "/campaigns/unverified"
      guards := [Guard.protect, Guard.authorize ["admin"]] },
    { method := "GET", path := "/complaints"
      guards := [Guard.protect, Guard.authorize ["admin"]] },
    { method := "PUT", path := "/complaints/:id"
      guards := [Guard.protect, Guard.authorize ["admin"]] },
    { method := "GET", path := "/donor-history"
      guards := [Guard.protect, Guard.authorize ["admin"]] },
    { method := "GET", path := "/reports"
      guards := [Guard.protect, Guard.authorize ["admin"]] } ]

/-- The middleware chain of a route, run in order: the first response ends it;
if every middleware calls `next` the handler runs on the request handed on. -/
def runGuards (env : AuthEnv) (db : Db) : List Guard → Request → MiddlewareResult
  | [], req => MiddlewareResult.next req
  | Guard.protect :: rest, req =>
    match protect env db req with
    | MiddlewareResult.next req1 => runGuards env db rest req1
    | MiddlewareResult.responded res => MiddlewareResult.responded res
  | Guard.authorize roles :: rest, req =>
    match authorize roles req with
    | MiddlewareResult.next req1 => runGuards env db rest req1
    | MiddlewareResult.responded res => MiddlewareResult.responded res

/-! ## PUT /api/comments/:id -/

/-- The handler of PUT /comments/:id (`routes/comments.js`, lines 121-160), run
for the authenticated user `reqUser`; `content` is the body field, the empty
string when missing. -/
def editComment (env : Env) (db : Db) (reqUser : ReqUser) (commentId : ObjectId)
    (content : String) : Outcome :=
  if ¬ (1 ≤ (trim content).length ∧ (trim content).length ≤ 1000) then
    { response := { status := 400, message := "Validation errors" }, db := db, emails := [] }
  else
    match db.comments commentId with
    | none =>
      { response := { status := 404, message := "Comment not found" }, db := db, emails := [] }
    | some comment =>
      if comment.isDeleted then
        { response := { status := 404, message := "Comment not found" }, db := db, emails := [] }
      else if comment.author ≠ reqUser._id then
        { response := { status := 403, message := "Not authorized to edit this comment" }
          db := db, emails := [] }
      else
        let edited : Comment :=
          { comment with content := trim content, isEdited := true, editedAt := some env.now }
        { response :=
            { status := 200, message := "Comment updated successfully", comment := some edited }
          db := saveComment env db commentId edited
          emails := [] }

/-! ## POST /api/donations/create-order -/

/-- The body of POST /create-order. -/
structure CreateOrderBody where
  campaignId : String
  amount : Option ℚ
  isAnonymous : BoolField := BoolField.absent

/-- The validation chain of POST /create-order (`routes/donations.js`, lines
29-33). -/
def createOrderErrors (b : CreateOrderBody) : List String :=
  (if isMongoId b.campaignId then [] else ["Valid campaign ID is required"]) ++
  (match b.amount with
    | some a => if 1 ≤ a then [] else ["Amount must be at least ₹1"]
    | none => ["Amount must be at least ₹1"]) ++
  (match b.isAnonymous with
    | BoolField.absent => []
    | field => if field.isBoolean then [] else ["Invalid value"])

/-- The expression `Math.round(amount * 100)` of line 103, the amount in paise:
the product is the one of JavaScript numbers. -/
def paise (amount : ℚ) : JsRounded :=
  ((toDouble amount).mul (JsNumber.finite 100)).round

/-- The argument of `razorpay.orders.create` (lines 102-111). -/
structure OrderOptions where
  amount : JsRounded
  currency : String
  receipt : String
  campaignId : String
  userId : String
  isAnonymous : String
deriving DecidableEq

/-- The order the gateway returns. -/
structure Order where
  id : String
  amount : ℤ
  currency : String
deriving DecidableEq

/-- An error thrown by the gateway client, with the fields the handler reads. -/
structure RazorpayError where
  statusCode : Option Nat := none
  description : Option String := none
deriving DecidableEq

/-- What the process environment and the gateway client supply to
create-order: the key id, and the module-level client, absent when its
construction failed. -/
structure GatewayEnv where
  RAZORPAY_KEY_ID : Option String
  razorpay : Option (OrderOptions → Except RazorpayError Order)

/-- The JSON body of a successful create-order response (lines 116-121). -/
structure OrderReply where
  orderId : String
  amount : ℤ
  currency : String
  keyId : String
deriving DecidableEq

/-- What a run of create-order produces: the response, the order returned with
it, and the calls made to `razorpay.orders.create`. -/
structure OrderOutcome where
  response : Response
  order : Option OrderReply
  requested : List OrderOptions

/-- The method `slice(-n)` of a string: its last `n` characters. -/
def lastChars (n : Nat) (text : String) : String :=
  String.mk (text.toList.drop (text.length - n))

/-- The handler of POST /create-order (`routes/donations.js`, lines 33-147),
run for the authenticated user `userId`. -/
def createOrder (env : Env) (gw : GatewayEnv) (db : Db) (userId : ObjectId)
    (b : CreateOrderBody) : OrderOutcome :=
  if createOrderErrors b ≠ [] then
    { response := { status := 400, message := "Validation errors" }, order := none
      requested := [] }
  else
    match b.amount with
    | none =>
      -- not reached: a body without a numeric amount has a validation error
      { response := { status := 400, message := "Validation errors" }, order := none
        requested := [] }
    | some amount =>
      match db.campaigns b.campaignId with
      | none =>
        { response := { status := 404, message := "Campaign not found" }, order := none
          requested := [] }
      | some campaign =>
        if !(["active", "pending"].contains campaign.status) then
          { response := { status := 400, message := "Campaign is not accepting donations" }
            order := none, requested := [] }
        else if env.now > campaign.deadline then
          { response := { status := 400, message := "Campaign deadline has passed" }
            order := none, requested := [] }
        else if !truthy gw.RAZORPAY_KEY_ID || !truthy env.RAZORPAY_KEY_SECRET then
          { response :=
              { status := 500
                message := "Payment gateway not configured. Please contact administrator." }
            order := none, requested := [] }
        else if gw.RAZORPAY_KEY_ID = some "rzp_test_your_key_id_here" ∨
            env.RAZORPAY_KEY_SECRET = some "your_razorpay_secret_key_here" then
          { response :=
              { status := 500
                message := "Payment gateway not configured. Please contact administrator." }
            order := none, requested := [] }
        else
          match gw.razorpay with
          | none =>
            { response :=
                { status := 500
                  message :=
                    "Payment gateway initialization failed. Please contact administrator." }
              order := none, requested := [] }
          | some create =>
            let options : OrderOptions :=
              { amount := paise amount
                currency := "INR"
                receipt := "don_" ++ lastChars 8 (toString env.now) ++ "_" ++
                  lastChars 8 b.campaignId
                campaignId := b.campaignId
                userId := userId
                isAnonymous := b.isAnonymous.jsToString }
            match create options with
            | Except.ok order =>
              { response := { status := 200, message := "" }
                order := some
                  { orderId := order.id, amount := order.amount, currency := order.currency
                    keyId := gw.RAZORPAY_KEY_ID.getD "rzp_test_samplekey" }
                requested := [options] }
            | Except.error e =>
              if e.statusCode = some 401 then
                { response :=
                    { status := 500
                      message :=
                        "Payment gateway configuration error. Please contact administrator." }
                  order := none, requested := [options] }
              else
                match e.description with
                | some description =>
                  if description ≠ "" then
                    { response :=
                        { status := 500, message := "Payment gateway error: " ++ description }
                      order := none, requested := [options] }
                  else
                    { response :=
                        { status := 500, message := "Server error creating payment order" }
                      order := none, requested := [options] }
                | none =>
                  { response :=
                      { status := 500, message := "Server error creating payment order" }
                    order := none, requested := [options] }

/-! ## GET /api/donations/campaign/:campaignId -/

/-- A donor as a response shows it: the populated fields of the user, or the
placeholder of an anonymous donation, which has no id. -/
structure DonorView where
  _id : Option ObjectId
  name : String
  profilePicture : String
deriving DecidableEq

/-- A donation as a response shows it: the document with its donor populated. -/
structure DonationEntry where
  _id : ObjectId
  donor : Option DonorView
  campaign : ObjectId
  amount : ℚ
  message : String
  isAnonymous : Bool
  paymentIntentId : String
  paymentStatus : String
  razorpayOrderId : String
  razorpaySignature : String
deriving DecidableEq

/-- The query method `populate('donor', 'name profilePicture')` on one donation: a
donor that is not stored becomes null. -/
def populateDonor (db : Db) (d : Donation) : DonationEntry :=
  { _id := d._id
    donor := (db.users d.donor).map fun u =>
      { _id := some d.donor, name := u.name, profilePicture := u.profilePicture }
    campaign := d.campaign
    amount := d.amount
    message := d.message
    isAnonymous := d.isAnonymous
    paymentIntentId := d.paymentIntentId
    paymentStatus := d.paymentStatus
    razorpayOrderId := d.razorpayOrderId
    razorpaySignature := d.razorpaySignature }

/-- The list `filteredDonations` of lines 318-326. -/
def filteredDonations (donations : List DonationEntry) : List DonationEntry :=
  donations.map fun donation =>
    if donation.isAnonymous then
      { donation with donor := some { _id := none, name := "Anonymous", profilePicture := "" } }
    else donation

/-- The response of GET /donations/campaign/:campaignId: the donations and the
pagination block; `totalPages` is `none` when it is not a finite number. -/
structure DonationsPage where
  status : Nat
  message : String := ""
  donations : List DonationEntry := []
  currentPage : Nat := 0
  totalPages : Option Nat := none
  totalDonations : Nat := 0
deriving DecidableEq

/-- The donations the store returns to the handler (lines 308-315): the
succeeded donations of the campaign, newest first, donors populated, `skip`
skipped and at most `limit` kept, a limit of 0 keeping all. -/
def storedCampaignDonations (db : Db) (campaignId : ObjectId) (skip limit : Nat) :
    List DonationEntry :=
  let found := ((db.donations.filter fun d =>
    decide (d.campaign = campaignId) && decide (d.paymentStatus = "succeeded")).reverse.map
      (populateDonor db)).drop skip
  if limit = 0 then found else found.take limit

/-- The handler of GET /donations/campaign/:campaignId (lines 303-345), for the
parsed query parameters `page` and `limit`. A negative skip makes the query
throw, which the handler answers with 500. -/
def getCampaignDonations (db : Db) (campaignId : ObjectId) (page limit : Nat) : DonationsPage :=
  if page = 0 ∧ 0 < limit then
    { status := 500, message := "Server error fetching donations" }
  else
    let total := (db.donations.filter fun d =>
      decide (d.campaign = campaignId) && decide (d.paymentStatus = "succeeded")).length
    { status := 200
      donations := filteredDonations
        (storedCampaignDonations db campaignId ((page - 1) * limit) limit)
      currentPage := page
      totalPages := if limit = 0 then none else some ((total + limit - 1) / limit)
      totalDonations := total }

/-! ## POST /api/notifications/milestone -/

/-- The body of POST /notifications/milestone; `milestone` is `none` when the
field is missing or not numeric. -/
structure MilestoneBody where
  campaignId : String
  milestone : Option Nat

/-- The validation chain of POST /notifications/milestone
(`routes/notifications.js`, lines 90-91). -/
def milestoneErrors (b : MilestoneBody) : List String :=
  (if isMongoId b.campaignId then [] else ["Valid campaign ID is required"]) ++
  (match b.milestone with
    | some m => if m ∈ milestones then [] else ["Milestone must be 25, 50, 75, or 100"]
    | none => ["Milestone must be 25, 50, 75, or 100"])

/-- What a run of a notification route produces: the response and the messages
handed to the mail transport. -/
structure NotifyOutcome where
  response : Response
  mails : List MailOptions

/-- The handler of POST /notifications/milestone (`routes/notifications.js`,
lines 92-134), run for the authenticated user `reqUser`. The role check of
lines 111-113 is commented out in the source. -/
def postMilestone (createTransporter : Except String Transport) (db : Db) (reqUser : ReqUser)
    (b : MilestoneBody) : NotifyOutcome :=
  if milestoneErrors b ≠ [] then
    { response := { status := 400, message := "Validation errors" }, mails := [] }
  else
    match b.milestone with
    | none =>
      -- not reached: a body without a numeric milestone has a validation error
      { response := { status := 400, message := "Validation errors" }, mails := [] }
    | some milestone =>
      match db.campaigns b.campaignId with
      | none => { response := { status := 404, message := "Campaign not found" }, mails := [] }
      | some _ =>
        let result := sendMilestoneNotification createTransporter db b.campaignId milestone
        if result.1.success then
          { response :=
              { status := 200
                message := "Milestone notification (" ++ toString milestone ++
                  "%) sent successfully"
                sent := result.1.sent
                failed := some (result.1.failed.getD 0) }
            mails := result.2 }
        else
          { response :=
              { status := 500, message := "Failed to send milestone notification"
                error := result.1.error }
            mails := result.2 }

/-! ## The route tables -/

/-- The routes of `routes/donations.js`, in the order of the file. -/
def donationsRoutes : List Route :=
  [ { method := "POST", path := "/create-order", guards := [Guard.protect] },
    { method := "POST", path := "/verify-payment", guards := [Guard.protect] },
    { method := "GET", path := "/campaign/:campaignId", guards := [] },
    { method := "GET", path := "/my-donations", guards := [Guard.protect] },
    { method := "GET", path := "/stats", guards := [Guard.protect] } ]

/-- The routes of `routes/comments.js`, in the order of the file. -/
def commentsRoutes : List Route :=
  [ { method := "GET", path := "/campaign/:campaignId", guards := [] },
    { method := "POST", path := "/", guards := [Guard.protect] },
    { method := "PUT", path := "/:id", guards := [Guard.protect] },
    { method := "DELETE", path := "/:id", guards := [Guard.protect] },
    { method := "POST", path := "/:id/like", guards := [Guard.protect] },
    { method := "POST", path := "/:id/report", guards := [Guard.protect] },
    { method := "GET", path := "/user/:userId", guards := [] } ]

/-- The routes of `routes/complaints.js`, in the order of the file. -/
def complaintsRoutes : List Route :=
  [ { method := "POST", path := "/", guards := [Guard.protect] },
    { method := "GET", path := "/my-complaints", guards := [Guard.protect] } ]

/-- The routes of `routes/notifications.js`, in the order of the file. -/
def notificationsRoutes : List Route :=
  [ { method := "POST", path := "/campaign-update", guards := [Guard.protect] },
    { method := "GET", path := "/test-email", guards := [Guard.protect] },
    { method := "POST", path := "/milestone", guards := [Guard.protect] },
    { method := "GET", path := "/settings", guards := [Guard.protect] },
    { method := "PUT", path := "/settings", guards := [Guard.protect] } ]

/-- The routes of the five routers. -/
def allRoutes : List Route :=
  donationsRoutes ++ commentsRoutes ++ complaintsRoutes ++ adminRoutes ++ notificationsRoutes

/-- A route whose method is POST, PUT or DELETE. -/
def isMutating (r : Route) : Bool :=
  r.method == "POST" || r.method == "PUT" || r.method == "DELETE"

/-- A request to a route: the middleware chain runs first; the handler runs only
if every middleware calls `next`, otherwise the response of the middleware is
the answer and the database is not touched. -/
def serve (env : AuthEnv) (db : Db) (r : Route) (handler : Request → Db → Outcome)
    (req : Request) : Outcome :=
  match runGuards env db r.guards req with
  | MiddlewareResult.next req1 => handler req1 db
  | MiddlewareResult.responded res => { response := res, db := db, emails := [] }

/-- A request that carries a valid token: `extractToken` finds a non-empty
token that verifies under the server secret to the id of a stored user. -/
def HasValidToken (env : AuthEnv) (db : Db) (req : Request) : Prop :=
  ∃ token id user, extractToken req = some token ∧ token ≠ "" ∧
    env.jwtVerify token env.JWT_SECRET = JwtOutcome.decoded (some id) ∧
    db.users id = some user

/-- The predicate of the spec on a likes list: at most one entry per user. -/
def OneLikePerUser (likes : List Like) : Prop :=
  ∀ v : ObjectId, (likes.filter fun l => decide (l.user = v)).length ≤ 1

/-- The percentage of the goal funded as the spec words it, with no rounding:
100 times the amount over the goal. -/
def exactPercentage (amount goalAmount : ℚ) : ℚ := 100 * amount / goalAmount

/-- The ledger predicate of the spec: every campaign's currentAmount is the sum
of the amounts of its succeeded donations. -/
def LedgerConsistent (db : Db) : Prop :=
  ∀ id c, db.campaigns id = some c → c.currentAmount = succeededTotal db.donations id

/-- The distinct donor email addresses of a campaign as the spec words them:
the non-empty emails of the stored donors of its donations, each taken once. -/
def donorAddresses (db : Db) (campaignId : ObjectId) : List String :=
  ((db.donations.filter fun d => decide (d.campaign = campaignId)).filterMap fun d =>
    match db.users d.donor with
    | some u => if u.email ≠ "" then some u.email else none
    | none => none).dedup

/-- Two donations that differ at most in who the donor is, and only if they are
anonymous. -/
def SameButAnonymousDonor (d1 d2 : Donation) : Prop :=
  d1._id = d2._id ∧ d1.campaign = d2.campaign ∧ d1.amount = d2.amount ∧
    d1.message = d2.message ∧ d1.isAnonymous = d2.isAnonymous ∧
    d1.paymentIntentId = d2.paymentIntentId ∧ d1.paymentStatus = d2.paymentStatus ∧
    d1.razorpayOrderId = d2.razorpayOrderId ∧ d1.razorpaySignature = d2.razorpaySignature ∧
    (d1.isAnonymous = false → d1.donor = d2.donor)

/-- Two runs that differ only in who the donors of the anonymous donations are:
the same users, and donation by donation the same documents but for the donor
of an anonymous one. -/
def DifferOnlyInAnonymousDonors (db1 db2 : Db) : Prop :=
  db1.users = db2.users ∧ List.Forall₂ SameButAnonymousDonor db1.donations db2.donations

/-- A request that carries a valid bearer token, as the spec words it: an
Authorization header that starts with "Bearer " whose token, trimmed, is not
empty and verifies under the server secret to the id of a stored user. -/
def HasValidBearerToken (env : AuthEnv) (db : Db) (req : Request) : Prop :=
  ∃ authHeader id user, req.authorization = some authHeader ∧
    ("Bearer ".toList).isPrefixOf authHeader.toList = true ∧
    trim (String.mk (authHeader.toList.drop 7)) ≠ "" ∧
    env.jwtVerify (trim (String.mk (authHeader.toList.drop 7))) env.JWT_SECRET =
      JwtOutcome.decoded (some id) ∧
    db.users id = some user

/-! ## Example data -/

/-- An environment for the examples; string concatenation stands in for the
HMAC. -/
def demoEnv : Env :=
  { RAZORPAY_KEY_SECRET := some "k"
    hmacSha256Hex := fun key data => key ++ "/" ++ data
    now := 1000
    freshId := "d00000000000000000000002" }

/-- A transport that accepts every message. -/
def demoTransport : Except String Transport :=
  Except.ok { sendMail := fun m => Except.ok ("<" ++ m.recipient ++ ">") }

/-- The email service of the repository over the transport of the examples. -/
def demoSvc : EmailService := emailService demoTransport

/-- An email service whose calls all throw. -/
def throwingSvc : EmailService := fun _ _ => EmailOutcome.threw

/-- The id of the campaign of the examples. -/
def demoCampaignId : ObjectId := "c00000000000000000000001"

/-- The id of the user of the examples. -/
def demoUserId : ObjectId := "a00000000000000000000001"

/-- A database with one user and one campaign of goal 1000 that has received
`raised` in a single earlier donation. -/
def demoDb (raised : ℚ) : Db :=
  { donations :=
      [{ _id := "d00000000000000000000001", donor := demoUserId, campaign := demoCampaignId
         amount := raised, message := "", isAnonymous := false, paymentIntentId := "pay_0"
         paymentStatus := "succeeded", razorpayOrderId := "order_0"
         razorpaySignature := "k/order_0|pay_0" }]
    campaigns := fun k =>
      if k = demoCampaignId then
        some { title := "Village well", goalAmount := 1000, currentAmount := raised
               status := "active"
               donors := [{ user := demoUserId, amount := raised, isAnonymous := false
                            donatedAt := 10 }] }
      else none
    users := fun k =>
      if k = demoUserId then some { name := "Asha", email := "asha@example.org" } else none }

/-- A well-formed, correctly signed confirmation of a payment of `amount` to the
campaign of the examples. -/
def demoBody (amount : ℚ) : VerifyPaymentBody :=
  { razorpay_order_id := "order_1"
    razorpay_payment_id := "pay_1"
    razorpay_signature := "k/order_1|pay_1"
    campaignId := demoCampaignId
    amount := some amount }

/-- The confirmation of the examples with its signature replaced. -/
def tamperedBody : VerifyPaymentBody :=
  { demoBody 150 with razorpay_signature := "forged" }

/-- A reply to a comment that does not exist, with nothing but blanks as its
content. -/
def blankReply : CommentBody :=
  { campaignId := demoCampaignId, content := "   "
    parentComment := some "e00000000000000000000001" }

/-- A reply to a comment that does not exist, on a campaign that does not exist
either. -/
def strayReply : CommentBody :=
  { campaignId := "c00000000000000000000009", content := "Well done"
    parentComment := some "e00000000000000000000001" }

/-- A reply to a comment that does not exist, on the campaign of the examples. -/
def orphanReply : CommentBody :=
  { campaignId := demoCampaignId, content := "Well done"
    parentComment := some "e00000000000000000000001" }

/-- The acting admin of the examples. -/
def demoAdmin : ReqUser :=
  { _id := "a00000000000000000000009", doc := { name := "Root", role := "admin" } }

/-- A second admin of the examples. -/
def demoAdmin2 : ReqUser :=
  { _id := "a00000000000000000000008", doc := { name := "Sudo", role := "admin" } }

/-- A second user of the examples, who is no admin. -/
def demoOther : ReqUser :=
  { _id := "a00000000000000000000002", doc := { name := "Bela", role := "donor" } }

/-- The id of the top-level comment of the examples. -/
def demoParentId : ObjectId := "e00000000000000000000011"

/-- The id of the reply of the examples. -/
def demoReplyId : ObjectId := "e00000000000000000000012"

/-- A comment by the user of the examples, liked by the second user, with one
reply. -/
def demoParent : Comment :=
  { campaign := demoCampaignId, author := demoUserId, content := "Good cause"
    replies := [demoReplyId]
    likes := [{ user := "a00000000000000000000002", likedAt := 20 }] }

/-- The reply to it, by the second user. -/
def demoReply : Comment :=
  { campaign := demoCampaignId, author := "a00000000000000000000002", content := "Agreed"
    parentComment := some demoParentId }

/-- The database of the examples with the comment and its reply. -/
def demoThread : Db :=
  { demoDb 900 with
    comments := fun k =>
      if k = demoParentId then some demoParent
      else if k = demoReplyId then some demoReply
      else none }

/-- The id of the user of the examples who was rejected earlier. -/
def demoRejectedId : ObjectId := "a00000000000000000000003"

/-- A user who was rejected earlier, with the reason of the rejection. -/
def demoRejected : User :=
  { name := "Chand", email := "chand@example.org", isVerified := false
    verifiedBy := some "a00000000000000000000009", verifiedAt := some 50
    rejectionReason := some "Blurry ID" }

/-- A campaign that waits for verification. -/
def demoPending : Campaign :=
  { title := "Village well", goalAmount := 1000, status := "pending" }

/-- The id of the complaint of the examples. -/
def demoComplaintId : ObjectId := "f00000000000000000000001"

/-- A complaint that has been resolved. -/
def demoResolved : Complaint :=
  { user := demoUserId, campaign := demoCampaignId, subject := "Misuse"
    description := "Funds were not used as described", status := "resolved"
    adminNotes := some "Checked the receipts"
    resolvedBy := some "a00000000000000000000009" }

/-- The database of the examples with a user who was rejected earlier, a
pending campaign and a resolved complaint. -/
def demoModeration : Db :=
  { demoDb 900 with
    users := fun k => if k = demoRejectedId then some demoRejected else none
    campaigns := fun k => if k = demoCampaignId then some demoPending else none
    complaints := fun k => if k = demoComplaintId then some demoResolved else none }

/-- A reason of 501 characters. -/
def longReason : String := String.mk (List.replicate 501 'x')

/-- A rejection whose reason is 501 characters long. -/
def longRejection : VerifyBody :=
  { isVerified := BoolField.value false, rejectionReason := some longReason }

/-- An environment for the middleware examples: under the secret the token
"good" decodes to the user of the examples, "stale" has expired, and any other
token is invalid. -/
def demoAuthEnv : AuthEnv :=
  { JWT_SECRET := some "s3cret"
    jwtVerify := fun token secret =>
      if secret = some "s3cret" then
        if token = "good" then JwtOutcome.decoded (some demoUserId)
        else if token = "stale" then JwtOutcome.tokenExpired
        else JwtOutcome.otherError
      else JwtOutcome.otherError }

/-- A database whose campaign has five donations: two by Asha, one by Bela, one
by a user without email and one by a user that is no longer stored; a sixth
donation went to another campaign. -/
def demoDonors : Db :=
  { donations :=
      [{ _id := "d00000000000000000000011", donor := demoUserId, campaign := demoCampaignId
         amount := 10, message := "", isAnonymous := false, paymentIntentId := "pay_11"
         paymentStatus := "succeeded", razorpayOrderId := "order_11"
         razorpaySignature := "s11" },
       { _id := "d00000000000000000000012", donor := "a00000000000000000000002"
         campaign := demoCampaignId
         amount := 20, message := "", isAnonymous := true, paymentIntentId := "pay_12"
         paymentStatus := "succeeded", razorpayOrderId := "order_12"
         razorpaySignature := "s12" },
       { _id := "d00000000000000000000013", donor := demoUserId, campaign := demoCampaignId
         amount := 30, message := "", isAnonymous := false, paymentIntentId := "pay_13"
         paymentStatus := "succeeded", razorpayOrderId := "order_13"
         razorpaySignature := "s13" },
       { _id := "d00000000000000000000014", donor := "a00000000000000000000003"
         campaign := demoCampaignId
         amount := 40, message := "", isAnonymous := false, paymentIntentId := "pay_14"
         paymentStatus := "succeeded", razorpayOrderId := "order_14"
         razorpaySignature := "s14" },
       { _id := "d00000000000000000000015", donor := "a00000000000000000000004"
         campaign := demoCampaignId
         amount := 50, message := "", isAnonymous := false, paymentIntentId := "pay_15"
         paymentStatus := "succeeded", razorpayOrderId := "order_15"
         razorpaySignature := "s15" },
       { _id := "d00000000000000000000016", donor := "a00000000000000000000005"
         campaign := "c00000000000000000000002"
         amount := 60, message := "", isAnonymous := false, paymentIntentId := "pay_16"
         paymentStatus := "succeeded", razorpayOrderId := "order_16"
         razorpaySignature := "s16" }]
    campaigns := fun k =>
      if k = demoCampaignId then
        some { title := "Village well", goalAmount := 1000, currentAmount := 150
               status := "active", deadline := 2000 }
      else none
    users := fun k =>
      if k = demoUserId then some { name := "Asha", email := "asha@example.org" }
      else if k = "a00000000000000000000002" then
        some { name := "Bela", email := "bela@example.org" }
      else if k = "a00000000000000000000003" then some { name := "Chen", email := "" }
      else if k = "a00000000000000000000005" then
        some { name := "Dita", email := "dita@example.org" }
      else none }

/-- The database of the five donations with the anonymous donation made by
Asha instead of Bela. -/
def demoDonorsSwapped : Db :=
  { demoDonors with
    donations := demoDonors.donations.map fun d =>
      if d.isAnonymous then { d with donor := demoUserId } else d }

/-- A transport whose sends to Bela throw. -/
def flakyTransport : Transport :=
  { sendMail := fun m =>
      if m.recipient = "bela@example.org" then Except.error "Mailbox unavailable"
      else Except.ok ("<" ++ m.recipient ++ ">") }

/-- A gateway client that accepts every order for a finite amount. -/
def demoOrdersCreate (options : OrderOptions) : Except RazorpayError Order :=
  match options.amount with
  | JsRounded.finite amount =>
    Except.ok { id := "order_9", amount := amount, currency := options.currency }
  | _ => Except.error { statusCode := some 400, description := some "Invalid amount" }

/-- A configured gateway with that client. -/
def demoGateway : GatewayEnv :=
  { RAZORPAY_KEY_ID := some "rzp_test_abc", razorpay := some demoOrdersCreate }

/-- A campaign that awaits verification, with its deadline ahead. -/
def demoUnverified : Campaign :=
  { title := "School roof", goalAmount := 5000, status := "pending", deadline := 2000 }

/-- A database whose only campaign awaits verification. -/
def demoUnverifiedDb : Db :=
  { donations := []
    campaigns := fun k => if k = demoCampaignId then some demoUnverified else none
    users := fun k =>
      if k = demoUserId then some { name := "Asha", email := "asha@example.org" } else none }

/-- A well-formed request for an order of 150 for the campaign of the
examples. -/
def demoOrderBody : CreateOrderBody :=
  { campaignId := demoCampaignId, amount := some 150 }

/-- A database whose campaign has a goal of 42 and has received nothing. -/
def demoSmallDb : Db :=
  { donations := []
    campaigns := fun k =>
      if k = demoCampaignId then
        some { title := "Seed library", goalAmount := 42, currentAmount := 0, status := "active" }
      else none
    users := fun k =>
      if k = demoUserId then some { name := "Asha", email := "asha@example.org" } else none }

/-- The double nearest to 20.79, which lies just below it. -/
def nearly2079 : ℚ := 2925932382907269 / 140737488355328

/-- The confirmation of the examples addressed to a campaign that does not
exist. -/
def strayBody : VerifyPaymentBody :=
  { demoBody 150 with campaignId := "c00000000000000000000009" }

/-! ## Lemmas on the handler -/

theorem verifyPaymentErrors_nil_amount {b : VerifyPaymentBody}
    (h : verifyPaymentErrors b = []) : ∃ a, b.amount = some a ∧ 1 ≤ a := by
  unfold verifyPaymentErrors at h
  simp only [List.append_eq_nil] at h
  obtain ⟨⟨⟨⟨_, _⟩, h5⟩, _⟩, _⟩ := h
  cases ha : b.amount with
  | none => simp [ha] at h5
  | some a =>
    refine ⟨a, rfl, ?_⟩
    by_contra hlt
    simp [ha, hlt] at h5

/-- The campaign collection after a recorded donation. -/
theorem campaigns_after_credit (db : Db) (id : ObjectId) (c : Campaign)
    (f : Campaign → Campaign) (hc : db.campaigns id = some c) :
    (if (f c).currentAmount ≥ (f c).goalAmount then
        saveDoc (findByIdAndUpdate db.campaigns id f) id (goalCheck (f c))
      else findByIdAndUpdate db.campaigns id f) =
      fun k => if k = id then some (goalCheck (f c)) else db.campaigns k := by
  funext k
  by_cases hk : k = id
  · subst hk
    by_cases hg : (f c).currentAmount ≥ (f c).goalAmount
    · simp [hg, saveDoc]
    · simp [hg, findByIdAndUpdate, hc, goalCheck]
  · by_cases hg : (f c).currentAmount ≥ (f c).goalAmount
    · simp [hg, saveDoc, findByIdAndUpdate, hk]
    · simp [hg, findByIdAndUpdate, hk]

/-- The handler on a request that passes every check, written out. -/
theorem verifyPayment_accepted (env : Env) (svc : EmailService) (db : Db)
    (userId : ObjectId) (b : VerifyPaymentBody) (a : ℚ) (c : Campaign)
    (hv : verifyPaymentErrors b = []) (ha : b.amount = some a)
    (hs : expectedSignature env b = b.razorpay_signature)
    (hd : findDonationByPaymentId db b.razorpay_payment_id = none)
    (hc : db.campaigns b.campaignId = some c) :
    verifyPayment env svc db userId b =
      let donation := newDonation env userId b a (b.message.getD "")
        (b.isAnonymous.withDefault false)
      let updated := goalCheck (creditCampaign env userId a (b.isAnonymous.withDefault false) c)
      let db4 : Db :=
        { db with
          donations := db.donations ++ [donation]
          campaigns := fun k => if k = b.campaignId then some updated else db.campaigns k
          users := findByIdAndUpdate db.users userId
            fun u => { u with donations := u.donations ++ [donation._id] } }
      { response := { status := 201, message := "Donation successful!", donation := some donation }
        db := db4
        emails := confirmationEmail db4 userId b.campaignId a ++
          milestoneLoop svc db4 b.campaignId updated.currentAmount a updated.goalAmount
            milestones } := by
  have hcamp := campaigns_after_credit db b.campaignId c
    (creditCampaign env userId a (b.isAnonymous.withDefault false)) hc
  unfold verifyPayment
  simp only [hv, ne_eq, not_true_eq_false, if_false, ha, hs, hd, hc]
  simp only [findByIdAndUpdate, if_true, hc, Option.map_some']
  by_cases hg : (creditCampaign env userId a (b.isAnonymous.withDefault false) c).currentAmount ≥
      (creditCampaign env userId a (b.isAnonymous.withDefault false) c).goalAmount
  · rw [if_pos hg] at hcamp
    simp only [if_pos hg, hcamp]
  · rw [if_neg hg] at hcamp
    simp only [if_neg hg, hcamp]

/-- The four ways the handler rejects a request, each leaving the database as
it was and sending no email. -/
theorem verifyPayment_rejections (env : Env) (svc : EmailService) (db : Db)
    (userId : ObjectId) (b : VerifyPaymentBody) :
    (verifyPaymentErrors b ≠ [] →
      verifyPayment env svc db userId b =
        { response := { status := 400, message := "Validation errors" }, db := db, emails := [] }) ∧
    (verifyPaymentErrors b = [] → expectedSignature env b ≠ b.razorpay_signature →
      verifyPayment env svc db userId b =
        { response := { status := 400, message := "Invalid payment signature" }
          db := db, emails := [] }) ∧
    (verifyPaymentErrors b = [] → expectedSignature env b = b.razorpay_signature →
      findDonationByPaymentId db b.razorpay_payment_id ≠ none →
      verifyPayment env svc db userId b =
        { response := { status := 400, message := "Donation already processed" }
          db := db, emails := [] }) ∧
    (verifyPaymentErrors b = [] → expectedSignature env b = b.razorpay_signature →
      findDonationByPaymentId db b.razorpay_payment_id = none →
      db.campaigns b.campaignId = none →
      verifyPayment env svc db userId b =
        { response := { status := 404, message := "Campaign not found" }
          db := db, emails := [] }) := by
  refine ⟨?_, ?_, ?_, ?_⟩
  · intro hv
    simp [verifyPayment, hv]
  · intro hv hs
    obtain ⟨a, ha, _⟩ := verifyPaymentErrors_nil_amount hv
    simp [verifyPayment, hv, ha, hs]
  · intro hv hs hd
    obtain ⟨a, ha, _⟩ := verifyPaymentErrors_nil_amount hv
    obtain ⟨d, hd⟩ := Option.ne_none_iff_exists'.mp hd
    simp [verifyPayment, hv, ha, hs, hd]
  · intro hv hs hd hc
    obtain ⟨a, ha, _⟩ := verifyPaymentErrors_nil_amount hv
    simp [verifyPayment, hv, ha, hs, hd, hc]

/-- Every run either rejects the request, leaving the database as it was, or
the request passes all four checks. -/
theorem verifyPayment_rejected_or_accepted (env : Env) (svc : EmailService) (db : Db)
    (userId : ObjectId) (b : VerifyPaymentBody) :
    ((verifyPayment env svc db userId b).db = db ∧
      (verifyPayment env svc db userId b).emails = [] ∧
      ((verifyPayment env svc db userId b).response.status = 400 ∨
        (verifyPayment env svc db userId b).response.status = 404)) ∨
    (∃ a c, verifyPaymentErrors b = [] ∧ b.amount = some a ∧ 1 ≤ a ∧
      expectedSignature env b = b.razorpay_signature ∧
      findDonationByPaymentId db b.razorpay_payment_id = none ∧
      db.campaigns b.campaignId = some c) := by
  obtain ⟨h1, h2, h3, h4⟩ := verifyPayment_rejections env svc db userId b
  by_cases hv : verifyPaymentErrors b = []
  · by_cases hs : expectedSignature env b = b.razorpay_signature
    · by_cases hd : findDonationByPaymentId db b.razorpay_payment_id = none
      · cases hc : db.campaigns b.campaignId with
        | none => left; rw [h4 hv hs hd hc]; simp
        | some c =>
          obtain ⟨a, ha, h1a⟩ := verifyPaymentErrors_nil_amount hv
          exact Or.inr ⟨a, c, hv, ha, h1a, hs, hd, rfl⟩
      · left; rw [h3 hv hs hd]; simp
    · left; rw [h2 hv hs]; simp
  · left; rw [h1 hv]; simp

theorem goalCheck_currentAmount (c : Campaign) :
    (goalCheck c).currentAmount = c.currentAmount := by
  unfold goalCheck
  split <;> rfl

theorem goalCheck_goalAmount (c : Campaign) : (goalCheck c).goalAmount = c.goalAmount := by
  unfold goalCheck
  split <;> rfl

theorem goalCheck_donors (c : Campaign) : (goalCheck c).donors = c.donors := by
  unfold goalCheck
  split <;> rfl

theorem goalCheck_idem (c : Campaign) : goalCheck (goalCheck c) = goalCheck c := by
  by_cases h : c.currentAmount ≥ c.goalAmount
  · simp [goalCheck, h]
  · simp [goalCheck, h]

/-- A new succeeded donation adds its amount to the total of its own campaign
and to no other. -/
theorem succeededTotal_append (ds : List Donation) (d : Donation) (id : ObjectId)
    (hd : d.paymentStatus = "succeeded") :
    succeededTotal (ds ++ [d]) id =
      if d.campaign = id then succeededTotal ds id + d.amount else succeededTotal ds id := by
  unfold succeededTotal
  by_cases h : d.campaign = id
  · simp [List.filter_append, h, hd]
  · simp [List.filter_append, h]

theorem firedMilestones_append (xs ys : List EmailCall) :
    firedMilestones (xs ++ ys) = firedMilestones xs ++ firedMilestones ys := by
  simp [firedMilestones, List.filterMap_append]

theorem firedMilestones_confirmationEmail (db : Db) (userId campaignId : ObjectId) (a : ℚ) :
    firedMilestones (confirmationEmail db userId campaignId a) = [] := by
  unfold confirmationEmail
  split
  · split <;> simp [firedMilestones]
  · simp [firedMilestones]

/-! ## Lemmas on JavaScript numbers -/

theorem roundHalfEven_eq (y : ℚ) (m : ℤ) (h1 : (m : ℚ) - 1 / 2 < y) (h2 : y < m + 1 / 2) :
    roundHalfEven y = m := by
  unfold roundHalfEven
  by_cases hy : (m : ℚ) ≤ y
  · have hf : ⌊y⌋ = m := by
      rw [Int.floor_eq_iff]
      constructor
      · exact hy
      · linarith
    rw [hf, if_pos (by linarith)]
  · have hf : ⌊y⌋ = m - 1 := by
      rw [Int.floor_eq_iff]
      push_cast
      constructor
      · linarith
      · linarith
    rw [hf]
    push_cast
    rw [if_neg (by linarith), if_pos (by linarith)]
    ring

theorem roundHalfEven_tie (y : ℚ) (f m : ℤ) (h : y = f + 1 / 2)
    (hm : m = if f % 2 = 0 then f else f + 1) : roundHalfEven y = m := by
  unfold roundHalfEven
  have hf : ⌊y⌋ = f := by
    rw [Int.floor_eq_iff]
    constructor
    · linarith
    · linarith
  rw [hf, h, hm]
  rw [if_neg (by norm_num), if_neg (by norm_num)]

theorem toDouble_zero : toDouble 0 = JsNumber.finite 0 := by
  unfold toDouble
  rw [if_pos rfl]

/-- The nearest double of a positive rational x, from its binade k and the
integer m that x / 2^(k - 52) rounds to. -/
theorem toDouble_eval (x d : ℚ) (k m : ℤ)
    (h : 0 < x ∧ (2 : ℚ) ^ k ≤ x ∧ x < (2 : ℚ) ^ (k + 1) ∧ -1022 ≤ k ∧
      d = m * 2 ^ (k - 52) ∧ d < 2 ^ (1024 : ℤ))
    (hm : roundHalfEven (x / 2 ^ (k - 52)) = m) :
    toDouble x = JsNumber.finite d := by
  obtain ⟨hx, hk1, hk2, hkmin, hd, hfin⟩ := h
  have hlog : Int.log 2 x = k := by
    apply le_antisymm
    · have := (Int.lt_zpow_iff_log_lt (by norm_num : 1 < 2) hx).mp hk2
      omega
    · exact (Int.zpow_le_iff_le_log (by norm_num : 1 < 2) hx).mp hk1
  unfold toDouble
  rw [if_neg (ne_of_gt hx)]
  simp only [abs_of_pos hx, hlog, max_eq_left hkmin, hm, ← hd, hx, if_true]
  rw [if_neg (not_le.mpr hfin)]

/-- The rounding lies between the floor and the floor plus one. -/
theorem roundHalfEven_bounds (y : ℚ) : ⌊y⌋ ≤ roundHalfEven y ∧ roundHalfEven y ≤ ⌊y⌋ + 1 := by
  unfold roundHalfEven
  split
  · omega
  · split
    · omega
    · split <;> omega

theorem roundHalfEven_mono (y1 y2 : ℚ) (h : y1 ≤ y2) : roundHalfEven y1 ≤ roundHalfEven y2 := by
  have hfloor : ⌊y1⌋ ≤ ⌊y2⌋ := Int.floor_mono h
  have h1 := roundHalfEven_bounds y1
  have h2 := roundHalfEven_bounds y2
  rcases lt_or_eq_of_le hfloor with hlt | heq
  · omega
  · by_cases ha : y1 - ⌊y1⌋ < 1 / 2
    · have e1 : roundHalfEven y1 = ⌊y1⌋ := by
        unfold roundHalfEven
        rw [if_pos ha]
      omega
    · by_cases hb : 1 / 2 < y2 - ⌊y2⌋
      · have e2 : roundHalfEven y2 = ⌊y2⌋ + 1 := by
          unfold roundHalfEven
          rw [if_neg (by linarith), if_pos hb]
        omega
      · have hcast : (⌊y1⌋ : ℚ) = ⌊y2⌋ := by exact_mod_cast heq
        have heq2 : y1 = y2 := by
          apply le_antisymm h
          linarith
        rw [heq2]

theorem roundHalfEven_intCast (n : ℤ) : roundHalfEven (n : ℚ) = n :=
  roundHalfEven_eq _ n (by linarith) (by linarith)

/-- A positive rational rounds to an infinity or to a double that is at least
any double r below it, r being given with its last bit. -/
theorem toDouble_ge (x r : ℚ) (n : ℤ) (hr : 0 < r) (hrx : r ≤ x)
    (hn : r = n * 2 ^ (max (Int.log 2 r) (-1022) - 52)) :
    toDouble x = JsNumber.posInfinity ∨ ∃ d, toDouble x = JsNumber.finite d ∧ r ≤ d := by
  have hx : 0 < x := lt_of_lt_of_le hr hrx
  have hlog : Int.log 2 r ≤ Int.log 2 x := Int.log_mono_right hr hrx
  have key : r ≤ roundHalfEven (x / 2 ^ (max (Int.log 2 x) (-1022) - 52)) *
      2 ^ (max (Int.log 2 x) (-1022) - 52) := by
    have h2pos : ∀ e : ℤ, (0 : ℚ) < 2 ^ e := fun e => zpow_pos (by norm_num) e
    by_cases hsame : max (Int.log 2 r) (-1022) = max (Int.log 2 x) (-1022)
    · rw [← hsame]
      have hdiv : (n : ℚ) ≤ x / 2 ^ (max (Int.log 2 r) (-1022) - 52) := by
        rw [le_div_iff₀ (h2pos _), ← hn]
        exact hrx
      have hm := roundHalfEven_mono _ _ hdiv
      rw [roundHalfEven_intCast] at hm
      have hm2 : (n : ℚ) ≤ roundHalfEven (x / 2 ^ (max (Int.log 2 r) (-1022) - 52)) := by
        exact_mod_cast hm
      calc r = n * 2 ^ (max (Int.log 2 r) (-1022) - 52) := hn
        _ ≤ _ := mul_le_mul_of_nonneg_right hm2 (le_of_lt (h2pos _))
    · have hkx : -1022 < Int.log 2 x := by
        by_contra hle
        apply hsame
        rw [max_eq_right (by omega), max_eq_right (by omega)]
      have hkr : Int.log 2 r + 1 ≤ Int.log 2 x := by
        by_contra hle
        apply hsame
        have : Int.log 2 r = Int.log 2 x := by omega
        rw [this]
      rw [max_eq_left (le_of_lt hkx)]
      have hxlow : (2 : ℚ) ^ Int.log 2 x ≤ x := Int.zpow_log_le_self (by norm_num) hx
      have h52 : ((4503599627370496 : ℤ) : ℚ) = (2 : ℚ) ^ (52 : ℤ) := by norm_num
      have hsplit : (2 : ℚ) ^ (52 : ℤ) * 2 ^ (Int.log 2 x - 52) = 2 ^ Int.log 2 x := by
        rw [← zpow_add₀ (by norm_num)]
        congr 1
        omega
      have hdiv : ((4503599627370496 : ℤ) : ℚ) ≤ x / 2 ^ (Int.log 2 x - 52) := by
        rw [le_div_iff₀ (h2pos _), h52, hsplit]
        exact hxlow
      have hm := roundHalfEven_mono _ _ hdiv
      rw [roundHalfEven_intCast] at hm
      have hm2 : ((4503599627370496 : ℤ) : ℚ) ≤
          roundHalfEven (x / 2 ^ (Int.log 2 x - 52)) := by
        exact_mod_cast hm
      have hrup : r < 2 ^ (Int.log 2 r + 1) := Int.lt_zpow_succ_log_self (by norm_num) r
      have hpow : (2 : ℚ) ^ (Int.log 2 r + 1) ≤ 2 ^ Int.log 2 x :=
        zpow_le_zpow_right₀ (by norm_num) hkr
      have hlow : (2 : ℚ) ^ Int.log 2 x ≤
          roundHalfEven (x / 2 ^ (Int.log 2 x - 52)) * 2 ^ (Int.log 2 x - 52) := by
        rw [← hsplit, ← h52]
        exact mul_le_mul_of_nonneg_right hm2 (le_of_lt (h2pos _))
      linarith
  unfold toDouble
  rw [if_neg (ne_of_gt hx)]
  simp only [abs_of_pos hx, hx, if_true]
  split
  · exact Or.inl rfl
  · exact Or.inr ⟨_, rfl, key⟩

theorem toDouble_ge_one (x : ℚ) (hx : 1 ≤ x) :
    toDouble x = JsNumber.posInfinity ∨ ∃ d, toDouble x = JsNumber.finite d ∧ 1 ≤ d :=
  toDouble_ge x 1 4503599627370496 (by norm_num) hx (by
    rw [Int.log_one_right]
    norm_num)

theorem toDouble_ge_hundred (x : ℚ) (hx : 100 ≤ x) :
    toDouble x = JsNumber.posInfinity ∨ ∃ d, toDouble x = JsNumber.finite d ∧ 100 ≤ d := by
  have hlog : Int.log 2 (100 : ℚ) = 6 := by
    apply le_antisymm
    · have := (Int.lt_zpow_iff_log_lt (by norm_num : 1 < 2) (by norm_num : (0 : ℚ) < 100)).mp
        (by norm_num : (100 : ℚ) < (2 : ℚ) ^ ((6 : ℤ) + 1))
      omega
    · exact (Int.zpow_le_iff_le_log (by norm_num : 1 < 2) (by norm_num : (0 : ℚ) < 100)).mp
        (by norm_num : (2 : ℚ) ^ (6 : ℤ) ≤ 100)
  exact toDouble_ge x 100 7036874417766400 (by norm_num) hx (by
    rw [hlog]
    norm_num)

/-- The rounded percentage when every intermediate value is finite. -/
theorem roundedPercentage_finite (x g g1 q p : ℚ) (hg : toDouble g = JsNumber.finite g1)
    (hg1 : g1 ≠ 0) (hq : toDouble (x / g1) = JsNumber.finite q)
    (hp : toDouble (q * 100) = JsNumber.finite p) :
    roundedPercentage (JsNumber.finite x) g = JsRounded.finite (mathRound p) := by
  unfold roundedPercentage
  rw [hg]
  simp only [JsNumber.div, hg1, if_false, hq, JsNumber.mul, hp, JsNumber.round]

/-- Nothing raised is a rounded 0 per cent of a positive goal that is a double. -/
theorem roundedPercentage_of_zero (g : ℚ) (hg : 0 < g) (hgd : toDouble g = JsNumber.finite g) :
    roundedPercentage (JsNumber.finite 0) g = JsRounded.finite 0 := by
  rw [roundedPercentage_finite 0 g g 0 0 hgd (ne_of_gt hg)
    (by rw [zero_div]; exact toDouble_zero) (by rw [zero_mul]; exact toDouble_zero)]
  have hr : mathRound 0 = 0 := by
    unfold mathRound
    norm_num
  rw [hr]

/-- An amount of at least the goal, the goal being a positive double, is a
rounded 100 per cent or more. -/
theorem roundedPercentage_of_goal (a g : ℚ) (hg : 0 < g) (hga : g ≤ a)
    (hgd : toDouble g = JsNumber.finite g) :
    roundedPercentage (JsNumber.finite a) g = JsRounded.posInfinity ∨
      ∃ n, roundedPercentage (JsNumber.finite a) g = JsRounded.finite n ∧ 100 ≤ n := by
  have hratio : 1 ≤ a / g := by
    rw [le_div_iff₀ hg]
    linarith
  unfold roundedPercentage
  rw [hgd]
  simp only [JsNumber.div, ne_of_gt hg, if_false]
  rcases toDouble_ge_one (a / g) hratio with hq | ⟨q, hq, hq1⟩
  · rw [hq]
    left
    simp [JsNumber.mul, JsNumber.round]
  · rw [hq]
    simp only [JsNumber.mul]
    rcases toDouble_ge_hundred (q * 100) (by linarith) with hp | ⟨p, hp, hp1⟩
    · rw [hp]
      left
      rfl
    · rw [hp]
      right
      refine ⟨mathRound p, rfl, ?_⟩
      unfold mathRound
      rw [Int.le_floor]
      push_cast
      linarith

theorem toDouble_1050 : toDouble 1050 = JsNumber.finite 1050 :=
  toDouble_eval 1050 1050 (10) 4617948836659200
      (by norm_num) (roundHalfEven_eq _ 4617948836659200 (by norm_num) (by norm_num))

theorem toDouble_150 : toDouble 150 = JsNumber.finite 150 :=
  toDouble_eval 150 150 (7) 5277655813324800
      (by norm_num) (roundHalfEven_eq _ 5277655813324800 (by norm_num) (by norm_num))

theorem toDouble_900 : toDouble 900 = JsNumber.finite 900 :=
  toDouble_eval 900 900 (9) 7916483719987200
      (by norm_num) (roundHalfEven_eq _ 7916483719987200 (by norm_num) (by norm_num))

theorem toDouble_246 : toDouble 246 = JsNumber.finite 246 :=
  toDouble_eval 246 246 (7) 8655355533852672
      (by norm_num) (roundHalfEven_eq _ 8655355533852672 (by norm_num) (by norm_num))

theorem toDouble_2 : toDouble 2 = JsNumber.finite 2 :=
  toDouble_eval 2 2 (1) 4503599627370496
      (by norm_num) (roundHalfEven_eq _ 4503599627370496 (by norm_num) (by norm_num))

theorem toDouble_244 : toDouble 244 = JsNumber.finite 244 :=
  toDouble_eval 244 244 (7) 8584986789675008
      (by norm_num) (roundHalfEven_eq _ 8584986789675008 (by norm_num) (by norm_num))

theorem toDouble_600 : toDouble 600 = JsNumber.finite 600 :=
  toDouble_eval 600 600 (9) 5277655813324800
      (by norm_num) (roundHalfEven_eq _ 5277655813324800 (by norm_num) (by norm_num))

theorem toDouble_200 : toDouble 200 = JsNumber.finite 200 :=
  toDouble_eval 200 200 (7) 7036874417766400
      (by norm_num) (roundHalfEven_eq _ 7036874417766400 (by norm_num) (by norm_num))

theorem toDouble_400 : toDouble 400 = JsNumber.finite 400 :=
  toDouble_eval 400 400 (8) 7036874417766400
      (by norm_num) (roundHalfEven_eq _ 7036874417766400 (by norm_num) (by norm_num))

theorem toDouble_1000 : toDouble 1000 = JsNumber.finite 1000 :=
  toDouble_eval 1000 1000 (9) 8796093022208000
      (by norm_num) (roundHalfEven_eq _ 8796093022208000 (by norm_num) (by norm_num))

/-- After the donation of the scenario: 1050 of 1000. -/
theorem percentage_1050_of_1000 :
    roundedPercentage (JsNumber.finite 1050) 1000 = JsRounded.finite 105 := by
  have hg : toDouble 1000 = JsNumber.finite 1000 := toDouble_eval 1000 1000 (9) 8796093022208000
      (by norm_num) (roundHalfEven_eq _ 8796093022208000 (by norm_num) (by norm_num))
  have hq : toDouble (1050 / 1000) = JsNumber.finite (4728779608739021 / 4503599627370496) := by
    have hx : (1050 / 1000 : ℚ) = (21 / 20) := by norm_num
    rw [hx]
    exact toDouble_eval (21 / 20) (4728779608739021 / 4503599627370496) (0) 4728779608739021
      (by norm_num) (roundHalfEven_eq _ 4728779608739021 (by norm_num) (by norm_num))
  have hp : toDouble ((4728779608739021 / 4503599627370496) * 100) = JsNumber.finite 105 := by
    have hx : ((4728779608739021 / 4503599627370496) * 100 : ℚ) =
        (118219490218475525 / 1125899906842624) := by norm_num
    rw [hx]
    exact toDouble_eval (118219490218475525 / 1125899906842624) 105 (6) 7388718138654720
      (by norm_num) (roundHalfEven_eq _ 7388718138654720 (by norm_num) (by norm_num))
  rw [roundedPercentage_finite 1050 1000 1000 (4728779608739021 / 4503599627370496) 105 hg
      (by norm_num) hq hp]
  have hr : mathRound 105 = 105 := by
    unfold mathRound
    norm_num [Int.floor_eq_iff]
  rw [hr]

/-- Before the donation of the scenario: 900 of 1000. -/
theorem percentage_900_of_1000 :
    roundedPercentage (JsNumber.finite 900) 1000 = JsRounded.finite 90 := by
  have hg : toDouble 1000 = JsNumber.finite 1000 := toDouble_eval 1000 1000 (9) 8796093022208000
      (by norm_num) (roundHalfEven_eq _ 8796093022208000 (by norm_num) (by norm_num))
  have hq : toDouble (900 / 1000) = JsNumber.finite (8106479329266893 / 9007199254740992) := by
    have hx : (900 / 1000 : ℚ) = (9 / 10) := by norm_num
    rw [hx]
    exact toDouble_eval (9 / 10) (8106479329266893 / 9007199254740992) (-1) 8106479329266893
      (by norm_num) (roundHalfEven_eq _ 8106479329266893 (by norm_num) (by norm_num))
  have hp : toDouble ((8106479329266893 / 9007199254740992) * 100) = JsNumber.finite 90 := by
    have hx : ((8106479329266893 / 9007199254740992) * 100 : ℚ) =
        (202661983231672325 / 2251799813685248) := by norm_num
    rw [hx]
    exact toDouble_eval (202661983231672325 / 2251799813685248) 90 (6) 6333186975989760
      (by norm_num) (roundHalfEven_eq _ 6333186975989760 (by norm_num) (by norm_num))
  rw [roundedPercentage_finite 900 1000 1000 (8106479329266893 / 9007199254740992) 90 hg
      (by norm_num) hq hp]
  have hr : mathRound 90 = 90 := by
    unfold mathRound
    norm_num [Int.floor_eq_iff]
  rw [hr]

/-- The computed percentage of 246 of 1000 rounds to 25. -/
theorem percentage_246_of_1000 :
    roundedPercentage (JsNumber.finite 246) 1000 = JsRounded.finite 25 := by
  have hg : toDouble 1000 = JsNumber.finite 1000 := toDouble_eval 1000 1000 (9) 8796093022208000
      (by norm_num) (roundHalfEven_eq _ 8796093022208000 (by norm_num) (by norm_num))
  have hq : toDouble (246 / 1000) = JsNumber.finite (553942754166571 / 2251799813685248) := by
    have hx : (246 / 1000 : ℚ) = (123 / 500) := by norm_num
    rw [hx]
    exact toDouble_eval (123 / 500) (553942754166571 / 2251799813685248) (-3) 8863084066665136
      (by norm_num) (roundHalfEven_eq _ 8863084066665136 (by norm_num) (by norm_num))
  have hp : toDouble ((553942754166571 / 2251799813685248) * 100) =
      JsNumber.finite (3462142213541069 / 140737488355328) := by
    have hx : ((553942754166571 / 2251799813685248) * 100 : ℚ) =
        (13848568854164275 / 562949953421312) := by norm_num
    rw [hx]
    exact toDouble_eval (13848568854164275 / 562949953421312) (3462142213541069 / 140737488355328) (4) 6924284427082138
      (by norm_num) (roundHalfEven_tie _ 6924284427082137 6924284427082138
          (by norm_num) (by decide))
  rw [roundedPercentage_finite 246 1000 1000 (553942754166571 / 2251799813685248) (3462142213541069 / 140737488355328) hg (by norm_num) hq hp]
  have hr : mathRound (3462142213541069 / 140737488355328) = 25 := by
    unfold mathRound
    norm_num [Int.floor_eq_iff]
  rw [hr]

/-- The computed percentage of 244 of 1000 rounds to 24. -/
theorem percentage_244_of_1000 :
    roundedPercentage (JsNumber.finite 244) 1000 = JsRounded.finite 24 := by
  have hg : toDouble 1000 = JsNumber.finite 1000 := toDouble_eval 1000 1000 (9) 8796093022208000
      (by norm_num) (roundHalfEven_eq _ 8796093022208000 (by norm_num) (by norm_num))
  have hq : toDouble (244 / 1000) = JsNumber.finite (1098878309078401 / 4503599627370496) := by
    have hx : (244 / 1000 : ℚ) = (61 / 250) := by norm_num
    rw [hx]
    exact toDouble_eval (61 / 250) (1098878309078401 / 4503599627370496) (-3) 8791026472627208
      (by norm_num) (roundHalfEven_eq _ 8791026472627208 (by norm_num) (by norm_num))
  have hp : toDouble ((1098878309078401 / 4503599627370496) * 100) =
      JsNumber.finite (3433994715870003 / 140737488355328) := by
    have hx : ((1098878309078401 / 4503599627370496) * 100 : ℚ) =
        (27471957726960025 / 1125899906842624) := by norm_num
    rw [hx]
    exact toDouble_eval (27471957726960025 / 1125899906842624) (3433994715870003 / 140737488355328) (4) 6867989431740006
      (by norm_num) (roundHalfEven_eq _ 6867989431740006 (by norm_num) (by norm_num))
  rw [roundedPercentage_finite 244 1000 1000 (1098878309078401 / 4503599627370496) (3433994715870003 / 140737488355328) hg (by norm_num) hq hp]
  have hr : mathRound (3433994715870003 / 140737488355328) = 24 := by
    unfold mathRound
    norm_num [Int.floor_eq_iff]
  rw [hr]

/-- The computed percentage of 600 of 1000. -/
theorem percentage_600_of_1000 :
    roundedPercentage (JsNumber.finite 600) 1000 = JsRounded.finite 60 := by
  have hg : toDouble 1000 = JsNumber.finite 1000 := toDouble_eval 1000 1000 (9) 8796093022208000
      (by norm_num) (roundHalfEven_eq _ 8796093022208000 (by norm_num) (by norm_num))
  have hq : toDouble (600 / 1000) = JsNumber.finite (5404319552844595 / 9007199254740992) := by
    have hx : (600 / 1000 : ℚ) = (3 / 5) := by norm_num
    rw [hx]
    exact toDouble_eval (3 / 5) (5404319552844595 / 9007199254740992) (-1) 5404319552844595
      (by norm_num) (roundHalfEven_eq _ 5404319552844595 (by norm_num) (by norm_num))
  have hp : toDouble ((5404319552844595 / 9007199254740992) * 100) = JsNumber.finite 60 := by
    have hx : ((5404319552844595 / 9007199254740992) * 100 : ℚ) =
        (135107988821114875 / 2251799813685248) := by norm_num
    rw [hx]
    exact toDouble_eval (135107988821114875 / 2251799813685248) 60 (5) 8444249301319680
      (by norm_num) (roundHalfEven_eq _ 8444249301319680 (by norm_num) (by norm_num))
  rw [roundedPercentage_finite 600 1000 1000 (5404319552844595 / 9007199254740992) 60 hg
      (by norm_num) hq hp]
  have hr : mathRound 60 = 60 := by
    unfold mathRound
    norm_num [Int.floor_eq_iff]
  rw [hr]

/-- The computed percentage of 400 of 1000. -/
theorem percentage_400_of_1000 :
    roundedPercentage (JsNumber.finite 400) 1000 = JsRounded.finite 40 := by
  have hg : toDouble 1000 = JsNumber.finite 1000 := toDouble_eval 1000 1000 (9) 8796093022208000
      (by norm_num) (roundHalfEven_eq _ 8796093022208000 (by norm_num) (by norm_num))
  have hq : toDouble (400 / 1000) = JsNumber.finite (3602879701896397 / 9007199254740992) := by
    have hx : (400 / 1000 : ℚ) = (2 / 5) := by norm_num
    rw [hx]
    exact toDouble_eval (2 / 5) (3602879701896397 / 9007199254740992) (-2) 7205759403792794
      (by norm_num) (roundHalfEven_eq _ 7205759403792794 (by norm_num) (by norm_num))
  have hp : toDouble ((3602879701896397 / 9007199254740992) * 100) = JsNumber.finite 40 := by
    have hx : ((3602879701896397 / 9007199254740992) * 100 : ℚ) =
        (90071992547409925 / 2251799813685248) := by norm_num
    rw [hx]
    exact toDouble_eval (90071992547409925 / 2251799813685248) 40 (5) 5629499534213120
      (by norm_num) (roundHalfEven_eq _ 5629499534213120 (by norm_num) (by norm_num))
  rw [roundedPercentage_finite 400 1000 1000 (3602879701896397 / 9007199254740992) 40 hg
      (by norm_num) hq hp]
  have hr : mathRound 40 = 40 := by
    unfold mathRound
    norm_num [Int.floor_eq_iff]
  rw [hr]

/-- With a service that does not throw, the loop calls the service for exactly
the thresholds that pass both tests, in the order of the list. -/
theorem firedMilestones_milestoneLoop (svc : EmailService) (db : Db) (campaignId : ObjectId)
    (cur a g : ℚ) (ms : List Nat)
    (hsvc : ∀ m, svc db (EmailCall.milestoneNotification campaignId m) ≠ EmailOutcome.threw) :
    firedMilestones (milestoneLoop svc db campaignId cur a g ms) =
      ms.filter fun m =>
        (roundedPercentage (toDouble cur) g).ge m &&
          (roundedPercentage (previousAmount cur a) g).lt m := by
  induction ms with
  | nil => simp [milestoneLoop, firedMilestones]
  | cons m rest ih =>
    unfold milestoneLoop
    by_cases h1 : (roundedPercentage (toDouble cur) g).ge m = true
    · by_cases h2 : (roundedPercentage (previousAmount cur a) g).lt m = true
      · cases hcall : svc db (EmailCall.milestoneNotification campaignId m) with
        | threw => exact absurd hcall (hsvc m)
        | resolved ok =>
          simp only [h1, h2, if_true, List.filter_cons, Bool.and_self]
          rw [← ih]
          simp [firedMilestones]
      · simp only [h1, h2, if_true, List.filter_cons, Bool.and_false]
        simpa using ih
    · simp only [h1, List.filter_cons, Bool.false_and]
      simpa using ih

/-- The thresholds a handler run fires on an accepted request, when the service
does not throw. -/
theorem firedMilestones_accepted (env : Env) (svc : EmailService) (db : Db)
    (userId : ObjectId) (b : VerifyPaymentBody) (a : ℚ) (c : Campaign)
    (hv : verifyPaymentErrors b = []) (ha : b.amount = some a)
    (hs : expectedSignature env b = b.razorpay_signature)
    (hd : findDonationByPaymentId db b.razorpay_payment_id = none)
    (hc : db.campaigns b.campaignId = some c)
    (hsvc : ∀ d m, svc d (EmailCall.milestoneNotification b.campaignId m) ≠ EmailOutcome.threw) :
    firedMilestones (verifyPayment env svc db userId b).emails =
      milestones.filter fun m =>
        (roundedPercentage (toDouble (c.currentAmount + a)) c.goalAmount).ge m &&
          (roundedPercentage (previousAmount (c.currentAmount + a) a) c.goalAmount).lt m := by
  rw [verifyPayment_accepted env svc db userId b a c hv ha hs hd hc]
  simp only [firedMilestones_append, firedMilestones_confirmationEmail, List.nil_append]
  rw [firedMilestones_milestoneLoop _ _ _ _ _ _ _ (hsvc _), goalCheck_currentAmount,
    goalCheck_goalAmount]
  rfl

/-- From a rounded 90 to a rounded 105 per cent the loop calls the service for
100 only, whatever the service answers. -/
theorem milestoneLoop_only_100 (svc : EmailService) (db : Db) (campaignId : ObjectId)
    (cur a g : ℚ)
    (hnew : roundedPercentage (toDouble cur) g = JsRounded.finite 105)
    (hold : roundedPercentage (previousAmount cur a) g = JsRounded.finite 90) :
    firedMilestones (milestoneLoop svc db campaignId cur a g milestones) = [100] := by
  simp only [milestones, milestoneLoop, hnew, hold, JsRounded.ge, JsRounded.lt]
  cases svc db (EmailCall.milestoneNotification campaignId 100) <;>
    simp [firedMilestones]

/-- The amount before a donation of 150 that left 1050. -/
theorem previousAmount_1050_150 : previousAmount 1050 150 = JsNumber.finite 900 := by
  unfold previousAmount
  rw [toDouble_1050, toDouble_150]
  simp only [JsNumber.sub]
  have hx : (1050 - 150 : ℚ) = 900 := by norm_num
  rw [hx]
  exact toDouble_900

/-- From 900 to 1050 of 1000 the loop calls the service for 100 only, whatever
the service answers. -/
theorem milestoneLoop_from_90_to_105 (svc : EmailService) (db : Db) (campaignId : ObjectId) :
    firedMilestones (milestoneLoop svc db campaignId 1050 150 1000 milestones) = [100] := by
  apply milestoneLoop_only_100
  · rw [toDouble_1050]
    exact percentage_1050_of_1000
  · rw [previousAmount_1050_150]
    exact percentage_900_of_1000

/-- The thresholds fired on an accepted request, from the two rounded
percentages. -/
theorem firedMilestones_of_percentages (env : Env) (svc : EmailService) (db : Db)
    (userId : ObjectId) (b : VerifyPaymentBody) (a : ℚ) (c : Campaign) (pn pp : JsRounded)
    (hv : verifyPaymentErrors b = []) (ha : b.amount = some a)
    (hs : expectedSignature env b = b.razorpay_signature)
    (hd : findDonationByPaymentId db b.razorpay_payment_id = none)
    (hc : db.campaigns b.campaignId = some c)
    (hsvc : ∀ d m, svc d (EmailCall.milestoneNotification b.campaignId m) ≠ EmailOutcome.threw)
    (hn : roundedPercentage (toDouble (c.currentAmount + a)) c.goalAmount = pn)
    (hp : roundedPercentage (previousAmount (c.currentAmount + a) a) c.goalAmount = pp) :
    firedMilestones (verifyPayment env svc db userId b).emails =
      milestones.filter fun m => pn.ge m && pp.lt m := by
  rw [firedMilestones_accepted env svc db userId b a c hv ha hs hd hc hsvc, hn, hp]

/-- The amount before the donation, when the three roundings are known. -/
theorem previousAmount_finite (cur a dc da d : ℚ) (hc : toDouble cur = JsNumber.finite dc)
    (ha : toDouble a = JsNumber.finite da) (hd : toDouble (dc - da) = JsNumber.finite d) :
    previousAmount cur a = JsNumber.finite d := by
  unfold previousAmount
  rw [hc, ha]
  simp only [JsNumber.sub]
  exact hd

/-- The email service of the repository never throws: each of its functions
catches its own errors. -/
theorem emailService_not_threw (createTransporter : Except String Transport) (db : Db)
    (call : EmailCall) : emailService createTransporter db call ≠ EmailOutcome.threw := by
  cases call <;> simp [emailService]

/-! ### The example data passes the checks -/

theorem demoBody_valid (a : ℚ) (h : 1 ≤ a) : verifyPaymentErrors (demoBody a) = [] := by
  have hid : isMongoId demoCampaignId = true := by decide
  simp [verifyPaymentErrors, demoBody, hid, h]

theorem demoBody_signed (a : ℚ) :
    expectedSignature demoEnv (demoBody a) = (demoBody a).razorpay_signature := by
  show "k" ++ "/" ++ ("order_1" ++ "|" ++ "pay_1") = "k/order_1|pay_1"
  decide

theorem demoBody_fresh (a r : ℚ) :
    findDonationByPaymentId (demoDb r) (demoBody a).razorpay_payment_id = none := by
  simp [findDonationByPaymentId, demoDb, demoBody]

theorem demoBody_campaign (a r : ℚ) :
    (demoDb r).campaigns (demoBody a).campaignId =
      some { title := "Village well", goalAmount := 1000, currentAmount := r, status := "active"
             donors := [{ user := demoUserId, amount := r, isAnonymous := false
                          donatedAt := 10 }] } := by
  simp [demoDb, demoBody]

/-! ## The claims -/

/-- C1: a verify-payment request whose signature differs from the HMAC of
`order_id|payment_id` under the server secret is answered 400, whatever its
other fields and whether or not the campaign exists, and the database
(donations, campaigns, users) is left exactly as it was. -/
theorem verifyPayment_wrong_signature (env : Env) (svc : EmailService) (db : Db)
    (userId : ObjectId) (b : VerifyPaymentBody)
    (h : b.razorpay_signature ≠ expectedSignature env b) :
    (verifyPayment env svc db userId b).response.status = 400 ∧
      (verifyPayment env svc db userId b).response.donation = none ∧
      (verifyPayment env svc db userId b).db = db := by
  obtain ⟨h1, h2, _, _⟩ := verifyPayment_rejections env svc db userId b
  by_cases hv : verifyPaymentErrors b = []
  · rw [h2 hv (Ne.symm h)]
    exact ⟨rfl, rfl, rfl⟩
  · rw [h1 hv]
    exact ⟨rfl, rfl, rfl⟩

/-- C1, at the forged confirmation of the examples. -/
theorem verifyPayment_wrong_signature_witness :
    (verifyPayment demoEnv demoSvc (demoDb 900) demoUserId tamperedBody).response.status = 400 ∧
      (verifyPayment demoEnv demoSvc (demoDb 900) demoUserId tamperedBody).response.donation
        = none ∧
      (verifyPayment demoEnv demoSvc (demoDb 900) demoUserId tamperedBody).db = demoDb 900 :=
  verifyPayment_wrong_signature demoEnv demoSvc (demoDb 900) demoUserId tamperedBody
    (by decide)

/-- C2: a request that passes every check, submitted twice in sequence: the
first call answers 201 and leaves exactly one donation with that payment id;
the second answers 400 "Donation already processed" and leaves the database,
hence the donations and the campaign with its currentAmount and donors, exactly
as the first call left it. The second call may come from any user at any time,
under the same server secret. -/
theorem verifyPayment_replay (env env2 : Env) (svc svc2 : EmailService) (db : Db)
    (userId userId2 : ObjectId) (b : VerifyPaymentBody) (c : Campaign)
    (hv : verifyPaymentErrors b = [])
    (hs : expectedSignature env b = b.razorpay_signature)
    (hd : findDonationByPaymentId db b.razorpay_payment_id = none)
    (hc : db.campaigns b.campaignId = some c)
    (hsecret : env2.RAZORPAY_KEY_SECRET = env.RAZORPAY_KEY_SECRET)
    (hhmac : env2.hmacSha256Hex = env.hmacSha256Hex) :
    (verifyPayment env svc db userId b).response.status = 201 ∧
      ((verifyPayment env svc db userId b).db.donations.filter
        fun d => decide (d.paymentIntentId = b.razorpay_payment_id)).length = 1 ∧
      (verifyPayment env2 svc2 (verifyPayment env svc db userId b).db userId2 b).response =
        { status := 400, message := "Donation already processed" } ∧
      (verifyPayment env2 svc2 (verifyPayment env svc db userId b).db userId2 b).db =
        (verifyPayment env svc db userId b).db := by
  obtain ⟨a, ha, _⟩ := verifyPaymentErrors_nil_amount hv
  have hs2 : expectedSignature env2 b = b.razorpay_signature := by
    rw [← hs]
    simp [expectedSignature, keySecret, hsecret, hhmac]
  have hnone : db.donations.filter
      (fun d => decide (d.paymentIntentId = b.razorpay_payment_id)) = [] := by
    rw [List.filter_eq_nil_iff]
    intro d hmem
    exact List.find?_eq_none.mp hd d hmem
  have hdup : findDonationByPaymentId (verifyPayment env svc db userId b).db
      b.razorpay_payment_id ≠ none := by
    rw [verifyPayment_accepted env svc db userId b a c hv ha hs hd hc]
    simp [findDonationByPaymentId, newDonation]
  obtain ⟨_, _, h3, _⟩ :=
    verifyPayment_rejections env2 svc2 (verifyPayment env svc db userId b).db userId2 b
  refine ⟨?_, ?_, ?_, ?_⟩
  · rw [verifyPayment_accepted env svc db userId b a c hv ha hs hd hc]
  · rw [verifyPayment_accepted env svc db userId b a c hv ha hs hd hc]
    simp [List.filter_append, hnone, newDonation]
  · rw [h3 hv hs2 hdup]
  · rw [h3 hv hs2 hdup]

/-- C2, at the confirmation of the examples, replayed by the same user against
an email service that throws. -/
theorem verifyPayment_replay_witness :
    (verifyPayment demoEnv demoSvc (demoDb 900) demoUserId (demoBody 150)).response.status
        = 201 ∧
      ((verifyPayment demoEnv demoSvc (demoDb 900) demoUserId (demoBody 150)).db.donations.filter
        fun d => decide (d.paymentIntentId = (demoBody 150).razorpay_payment_id)).length = 1 ∧
      (verifyPayment demoEnv throwingSvc
          (verifyPayment demoEnv demoSvc (demoDb 900) demoUserId (demoBody 150)).db
          demoUserId (demoBody 150)).response =
        { status := 400, message := "Donation already processed" } ∧
      (verifyPayment demoEnv throwingSvc
          (verifyPayment demoEnv demoSvc (demoDb 900) demoUserId (demoBody 150)).db
          demoUserId (demoBody 150)).db =
        (verifyPayment demoEnv demoSvc (demoDb 900) demoUserId (demoBody 150)).db :=
  verifyPayment_replay demoEnv demoEnv demoSvc throwingSvc (demoDb 900) demoUserId demoUserId
    (demoBody 150) _ (demoBody_valid 150 (by norm_num)) (demoBody_signed 150)
    (demoBody_fresh 150 900) (demoBody_campaign 150 900) rfl rfl

/-- C3: a request with valid fields, a matching signature, an unused payment id
and an existing campaign is answered 201; the donations are the previous ones
followed by one new donation (succeeded, paymentIntentId the payment id,
campaign the campaign id, donor the caller, amount the submitted amount, which
is at least 1); the campaign's currentAmount grows by exactly that amount and
so does not decrease; one donor entry (caller, amount, isAnonymous) is appended
at the end of its donors; every other campaign is untouched. -/
theorem verifyPayment_records (env : Env) (svc : EmailService) (db : Db)
    (userId : ObjectId) (b : VerifyPaymentBody) (a : ℚ) (c : Campaign)
    (hv : verifyPaymentErrors b = []) (ha : b.amount = some a)
    (hs : expectedSignature env b = b.razorpay_signature)
    (hd : findDonationByPaymentId db b.razorpay_payment_id = none)
    (hc : db.campaigns b.campaignId = some c) :
    (verifyPayment env svc db userId b).response.status = 201 ∧
      (verifyPayment env svc db userId b).db.donations = db.donations ++
        [{ _id := env.freshId, donor := userId, campaign := b.campaignId, amount := a
           message := b.message.getD "", isAnonymous := b.isAnonymous.withDefault false
           paymentIntentId := b.razorpay_payment_id, paymentStatus := "succeeded"
           razorpayOrderId := b.razorpay_order_id
           razorpaySignature := b.razorpay_signature }] ∧
      1 ≤ a ∧
      (∃ c1, (verifyPayment env svc db userId b).db.campaigns b.campaignId = some c1 ∧
        c1.currentAmount = c.currentAmount + a ∧ c.currentAmount ≤ c1.currentAmount ∧
        c1.donors = c.donors ++
          [{ user := userId, amount := a, isAnonymous := b.isAnonymous.withDefault false
             donatedAt := env.now }]) ∧
      (∀ k, k ≠ b.campaignId →
        (verifyPayment env svc db userId b).db.campaigns k = db.campaigns k) := by
  obtain ⟨a1, ha1, h1a⟩ := verifyPaymentErrors_nil_amount hv
  have haa : a1 = a := Option.some.inj (ha1.symm.trans ha)
  subst haa
  rw [verifyPayment_accepted env svc db userId b a1 c hv ha hs hd hc]
  refine ⟨rfl, rfl, h1a, ?_, ?_⟩
  · refine ⟨_, if_pos rfl, ?_, ?_, ?_⟩
    · unfold goalCheck creditCampaign
      split <;> rfl
    · have : (goalCheck (creditCampaign env userId a1
          (b.isAnonymous.withDefault false) c)).currentAmount = c.currentAmount + a1 := by
        unfold goalCheck creditCampaign
        split <;> rfl
      rw [this]
      linarith
    · unfold goalCheck creditCampaign
      split <;> rfl
  · intro k hk
    exact if_neg hk

/-- C3, at the confirmation of the examples. -/
theorem verifyPayment_records_witness :
    (verifyPayment demoEnv demoSvc (demoDb 900) demoUserId (demoBody 150)).response.status
        = 201 ∧
      (verifyPayment demoEnv demoSvc (demoDb 900) demoUserId (demoBody 150)).db.donations =
        (demoDb 900).donations ++
        [{ _id := demoEnv.freshId, donor := demoUserId, campaign := (demoBody 150).campaignId
           amount := 150, message := (demoBody 150).message.getD ""
           isAnonymous := (demoBody 150).isAnonymous.withDefault false
           paymentIntentId := (demoBody 150).razorpay_payment_id, paymentStatus := "succeeded"
           razorpayOrderId := (demoBody 150).razorpay_order_id
           razorpaySignature := (demoBody 150).razorpay_signature }] ∧
      1 ≤ (150 : ℚ) ∧
      (∃ c1, (verifyPayment demoEnv demoSvc (demoDb 900) demoUserId (demoBody 150)).db.campaigns
          (demoBody 150).campaignId = some c1 ∧
        c1.currentAmount = (900 : ℚ) + 150 ∧ (900 : ℚ) ≤ c1.currentAmount ∧
        c1.donors = [{ user := demoUserId, amount := 900, isAnonymous := false, donatedAt := 10 }] ++
          [{ user := demoUserId, amount := 150
             isAnonymous := (demoBody 150).isAnonymous.withDefault false
             donatedAt := demoEnv.now }]) ∧
      (∀ k, k ≠ (demoBody 150).campaignId →
        (verifyPayment demoEnv demoSvc (demoDb 900) demoUserId (demoBody 150)).db.campaigns k =
          (demoDb 900).campaigns k) :=
  verifyPayment_records demoEnv demoSvc (demoDb 900) demoUserId (demoBody 150) 150 _
    (demoBody_valid 150 (by norm_num)) rfl (demoBody_signed 150)
    (demoBody_fresh 150 900) (demoBody_campaign 150 900)

/-- C4: the ledger predicate (every campaign's currentAmount is the sum of the
amounts of its succeeded donations) is preserved by every verify-payment call,
whatever its outcome. -/
theorem verifyPayment_preserves_ledger (env : Env) (svc : EmailService) (db : Db)
    (userId : ObjectId) (b : VerifyPaymentBody) (h : LedgerConsistent db) :
    LedgerConsistent (verifyPayment env svc db userId b).db := by
  rcases verifyPayment_rejected_or_accepted env svc db userId b with
    ⟨hdb, _, _⟩ | ⟨a, c, hv, ha, _, hs, hd, hc⟩
  · rw [hdb]
    exact h
  · rw [verifyPayment_accepted env svc db userId b a c hv ha hs hd hc]
    intro id c1 hc1
    simp only at hc1
    rw [succeededTotal_append _ _ _ rfl]
    by_cases hid : id = b.campaignId
    · subst hid
      rw [if_pos rfl] at hc1
      have hc1 := Option.some.inj hc1
      subst hc1
      rw [goalCheck_currentAmount]
      simp only [newDonation, creditCampaign, if_true]
      rw [h _ c hc]
    · rw [if_neg hid] at hc1
      simp only [newDonation]
      rw [if_neg (Ne.symm hid)]
      exact h id c1 hc1

/-- The database of the examples satisfies the ledger predicate. -/
theorem demoDb_ledger (r : ℚ) : LedgerConsistent (demoDb r) := by
  intro id c hc
  by_cases hid : id = demoCampaignId
  · subst hid
    simp [demoDb] at hc
    subst hc
    simp [succeededTotal, demoDb]
  · simp [demoDb, hid] at hc

/-- C4, at the confirmation of the examples. -/
theorem verifyPayment_preserves_ledger_witness :
    LedgerConsistent (verifyPayment demoEnv demoSvc (demoDb 900) demoUserId (demoBody 150)).db :=
  verifyPayment_preserves_ledger demoEnv demoSvc (demoDb 900) demoUserId (demoBody 150)
    (demoDb_ledger 900)

/-- C5: after a successful verify-payment call the campaign's status is
"completed" when its updated currentAmount is at least its goalAmount and is
its status before the call otherwise; a campaign that was completed stays
completed; and the goal check applied to its own result changes nothing. -/
theorem verifyPayment_goal_status (env : Env) (svc : EmailService) (db : Db)
    (userId : ObjectId) (b : VerifyPaymentBody) (c : Campaign)
    (hv : verifyPaymentErrors b = [])
    (hs : expectedSignature env b = b.razorpay_signature)
    (hd : findDonationByPaymentId db b.razorpay_payment_id = none)
    (hc : db.campaigns b.campaignId = some c) :
    ∃ c1, (verifyPayment env svc db userId b).db.campaigns b.campaignId = some c1 ∧
      (c1.currentAmount ≥ c1.goalAmount → c1.status = "completed") ∧
      (¬ c1.currentAmount ≥ c1.goalAmount → c1.status = c.status) ∧
      (c.status = "completed" → c1.status = "completed") ∧
      goalCheck c1 = c1 ∧ ∀ x, goalCheck (goalCheck x) = goalCheck x := by
  obtain ⟨a, ha, _⟩ := verifyPaymentErrors_nil_amount hv
  rw [verifyPayment_accepted env svc db userId b a c hv ha hs hd hc]
  refine ⟨_, if_pos rfl, ?_, ?_, ?_, goalCheck_idem _, goalCheck_idem⟩
  · intro hge
    rw [goalCheck_currentAmount, goalCheck_goalAmount] at hge
    simp [goalCheck, hge]
  · intro hlt
    rw [goalCheck_currentAmount, goalCheck_goalAmount] at hlt
    unfold goalCheck
    rw [if_neg hlt]
    rfl
  · intro hst
    unfold goalCheck
    split
    · rfl
    · simpa [creditCampaign] using hst

/-- C5, at the confirmation of the examples, which takes the campaign from 900
to 1050 of 1000. -/
theorem verifyPayment_goal_status_witness :
    ∃ c1, (verifyPayment demoEnv demoSvc (demoDb 900) demoUserId (demoBody 150)).db.campaigns
        (demoBody 150).campaignId = some c1 ∧
      (c1.currentAmount ≥ c1.goalAmount → c1.status = "completed") ∧
      (¬ c1.currentAmount ≥ c1.goalAmount → c1.status = "active") ∧
      ("active" = "completed" → c1.status = "completed") ∧
      goalCheck c1 = c1 ∧ ∀ x, goalCheck (goalCheck x) = goalCheck x :=
  verifyPayment_goal_status demoEnv demoSvc (demoDb 900) demoUserId (demoBody 150) _
    (demoBody_valid 150 (by norm_num)) (demoBody_signed 150)
    (demoBody_fresh 150 900) (demoBody_campaign 150 900)

/-- C6, as stated, fails: with 244 of 1000 raised, a donation of 2 takes the
exact percentage from 24.4 to 24.6, which does not reach 25, and the handler
fires the milestone 25 all the same, because it compares rounded percentages
(24 and 25). -/
theorem milestone_exact_percentage_counterexample :
    25 ∈ firedMilestones
        (verifyPayment demoEnv demoSvc (demoDb 244) demoUserId (demoBody 2)).emails ∧
      ¬ (exactPercentage 244 1000 < 25 ∧ (25 : ℚ) ≤ exactPercentage (244 + 2) 1000) := by
  constructor
  · have hsum : (244 : ℚ) + 2 = 246 := by norm_num
    have hn : roundedPercentage (toDouble ((244 : ℚ) + 2)) 1000 = JsRounded.finite 25 := by
      rw [hsum, toDouble_246]
      exact percentage_246_of_1000
    have hp : roundedPercentage (previousAmount ((244 : ℚ) + 2) 2) 1000 =
        JsRounded.finite 24 := by
      rw [hsum, previousAmount_finite 246 2 246 2 244 toDouble_246 toDouble_2
        (by
          have hx : (246 - 2 : ℚ) = 244 := by norm_num
          rw [hx]
          exact toDouble_244)]
      exact percentage_244_of_1000
    rw [firedMilestones_of_percentages demoEnv demoSvc (demoDb 244) demoUserId (demoBody 2) 2
      { title := "Village well", goalAmount := 1000, currentAmount := 244, status := "active"
        donors := [{ user := demoUserId, amount := 244, isAnonymous := false, donatedAt := 10 }] }
      (JsRounded.finite 25) (JsRounded.finite 24)
      (demoBody_valid 2 (by norm_num)) rfl (demoBody_signed 2) (demoBody_fresh 2 244)
      (demoBody_campaign 2 244) (fun d m => emailService_not_threw demoTransport d _) hn hp]
    decide
  · unfold exactPercentage
    norm_num

/-- C6, amended: on an accepted request, with an email service that does not
throw, the milestone t is fired exactly when t is one of 25, 50, 75, 100 and
Math.round(previous%) < t ≤ Math.round(new%), where new% is
(currentAmount / goalAmount) * 100 on the updated currentAmount and previous% is
((currentAmount - amount) / goalAmount) * 100, each operation being the one of
JavaScript numbers; a donation that moves the rounded percentage from 40 to 60
fires exactly 50, and one that leaves the rounded percentage unchanged fires
none. -/
theorem verifyPayment_milestones_rounded (env : Env) (svc : EmailService) (db : Db)
    (userId : ObjectId) (b : VerifyPaymentBody) (a : ℚ) (c : Campaign)
    (hv : verifyPaymentErrors b = []) (ha : b.amount = some a)
    (hs : expectedSignature env b = b.razorpay_signature)
    (hd : findDonationByPaymentId db b.razorpay_payment_id = none)
    (hc : db.campaigns b.campaignId = some c)
    (hsvc : ∀ d m, svc d (EmailCall.milestoneNotification b.campaignId m) ≠ EmailOutcome.threw) :
    (∀ t : Nat, t ∈ firedMilestones (verifyPayment env svc db userId b).emails ↔
      t ∈ milestones ∧
        (roundedPercentage (previousAmount (c.currentAmount + a) a) c.goalAmount).lt t = true ∧
        (roundedPercentage (toDouble (c.currentAmount + a)) c.goalAmount).ge t = true) ∧
    (∀ p n : ℤ,
      roundedPercentage (previousAmount (c.currentAmount + a) a) c.goalAmount =
        JsRounded.finite p →
      roundedPercentage (toDouble (c.currentAmount + a)) c.goalAmount = JsRounded.finite n →
      ∀ t : Nat, t ∈ firedMilestones (verifyPayment env svc db userId b).emails ↔
        t ∈ milestones ∧ p < (t : ℤ) ∧ (t : ℤ) ≤ n) ∧
    (roundedPercentage (previousAmount (c.currentAmount + a) a) c.goalAmount =
        JsRounded.finite 40 →
      roundedPercentage (toDouble (c.currentAmount + a)) c.goalAmount = JsRounded.finite 60 →
      firedMilestones (verifyPayment env svc db userId b).emails = [50]) ∧
    (roundedPercentage (previousAmount (c.currentAmount + a) a) c.goalAmount =
        roundedPercentage (toDouble (c.currentAmount + a)) c.goalAmount →
      firedMilestones (verifyPayment env svc db userId b).emails = []) := by
  rw [firedMilestones_accepted env svc db userId b a c hv ha hs hd hc hsvc]
  refine ⟨?_, ?_, ?_, ?_⟩
  · intro t
    simp only [List.mem_filter, Bool.and_eq_true]
    tauto
  · intro p n hp hn t
    rw [hp, hn]
    simp only [List.mem_filter, Bool.and_eq_true, JsRounded.ge, JsRounded.lt,
      decide_eq_true_eq]
    tauto
  · intro h40 h60
    rw [h40, h60]
    decide
  · intro heq
    rw [heq, List.filter_eq_nil_iff]
    intro t _
    cases roundedPercentage (toDouble (c.currentAmount + a)) c.goalAmount with
    | NaN => simp [JsRounded.ge, JsRounded.lt]
    | negInfinity => simp [JsRounded.ge, JsRounded.lt]
    | posInfinity => simp [JsRounded.ge, JsRounded.lt]
    | finite n =>
      simp only [JsRounded.ge, JsRounded.lt, Bool.and_eq_true, decide_eq_true_eq, not_and,
        not_lt]
      exact fun h => h

/-- C6 amended, at a donation of 200 to the campaign of the examples with 400 of
1000 raised: the rounded percentages are 40 and 60 and the milestone 50 alone is
fired. -/
theorem verifyPayment_milestones_rounded_witness :
    firedMilestones
      (verifyPayment demoEnv demoSvc (demoDb 400) demoUserId (demoBody 200)).emails = [50] :=
  (verifyPayment_milestones_rounded demoEnv demoSvc (demoDb 400) demoUserId (demoBody 200) 200
    { title := "Village well", goalAmount := 1000, currentAmount := 400, status := "active"
      donors := [{ user := demoUserId, amount := 400, isAnonymous := false, donatedAt := 10 }] }
    (demoBody_valid 200 (by norm_num)) rfl (demoBody_signed 200) (demoBody_fresh 200 400)
    (demoBody_campaign 200 400)
    (fun d m => emailService_not_threw demoTransport d _)).2.2.1
    (by
      have hsum : (400 : ℚ) + 200 = 600 := by norm_num
      show roundedPercentage (previousAmount ((400 : ℚ) + 200) 200) 1000 = JsRounded.finite 40
      rw [hsum, previousAmount_finite 600 200 600 200 400 toDouble_600 toDouble_200
        (by
          have hx : (600 - 200 : ℚ) = 400 := by norm_num
          rw [hx]
          exact toDouble_400)]
      exact percentage_400_of_1000)
    (by
      have hsum : (400 : ℚ) + 200 = 600 := by norm_num
      show roundedPercentage (toDouble ((400 : ℚ) + 200)) 1000 = JsRounded.finite 60
      rw [hsum, toDouble_600]
      exact percentage_600_of_1000)

/-- C7: for a campaign with goalAmount 1000 and currentAmount 900, an accepted
donation of 150 leaves currentAmount 1050 and status "completed", and the
milestone notification is called for 100 and for no other threshold, whatever
the email service does. -/
theorem verifyPayment_scenario_900_150 (env : Env) (svc : EmailService) (db : Db)
    (userId : ObjectId) (b : VerifyPaymentBody) (c : Campaign)
    (hv : verifyPaymentErrors b = []) (ha : b.amount = some 150)
    (hs : expectedSignature env b = b.razorpay_signature)
    (hd : findDonationByPaymentId db b.razorpay_payment_id = none)
    (hc : db.campaigns b.campaignId = some c)
    (hgoal : c.goalAmount = 1000) (hcur : c.currentAmount = 900) :
    (∃ c1, (verifyPayment env svc db userId b).db.campaigns b.campaignId = some c1 ∧
      c1.currentAmount = 1050 ∧ c1.status = "completed") ∧
    firedMilestones (verifyPayment env svc db userId b).emails = [100] := by
  rw [verifyPayment_accepted env svc db userId b 150 c hv ha hs hd hc]
  have h1 : (creditCampaign env userId 150 (b.isAnonymous.withDefault false) c).currentAmount =
      1050 := by
    show c.currentAmount + 150 = 1050
    rw [hcur]
    norm_num
  have h2 : (creditCampaign env userId 150 (b.isAnonymous.withDefault false) c).goalAmount =
      1000 := hgoal
  constructor
  · refine ⟨_, if_pos rfl, ?_, ?_⟩
    · rw [goalCheck_currentAmount, h1]
    · have hge : (creditCampaign env userId 150 (b.isAnonymous.withDefault false) c).currentAmount ≥
          (creditCampaign env userId 150 (b.isAnonymous.withDefault false) c).goalAmount := by
        rw [h1, h2]
        norm_num
      unfold goalCheck
      rw [if_pos hge]
  · simp only [firedMilestones_append, firedMilestones_confirmationEmail, List.nil_append]
    rw [goalCheck_currentAmount, goalCheck_goalAmount, h1, h2]
    exact milestoneLoop_from_90_to_105 svc _ b.campaignId

/-- C7, at the campaign of the examples, with an email service that throws. -/
theorem verifyPayment_scenario_900_150_witness :
    (∃ c1, (verifyPayment demoEnv throwingSvc (demoDb 900) demoUserId (demoBody 150)).db.campaigns
        (demoBody 150).campaignId = some c1 ∧
      c1.currentAmount = 1050 ∧ c1.status = "completed") ∧
    firedMilestones
      (verifyPayment demoEnv throwingSvc (demoDb 900) demoUserId (demoBody 150)).emails = [100] :=
  verifyPayment_scenario_900_150 demoEnv throwingSvc (demoDb 900) demoUserId (demoBody 150) _
    (demoBody_valid 150 (by norm_num)) rfl (demoBody_signed 150) (demoBody_fresh 150 900)
    (demoBody_campaign 150 900) rfl rfl

/-- C8: a request that passes the signature, duplicate and campaign checks is
answered 201 "Donation successful!", the new donation is in the donations and
the campaign holds the incremented amount, for every behaviour of the email
service; two runs that differ only in the email service (each call succeeding,
returning an error or throwing) give the same response and the same database. -/
theorem verifyPayment_email_independent (env : Env) (svc svc2 : EmailService) (db : Db)
    (userId : ObjectId) (b : VerifyPaymentBody) (a : ℚ) (c : Campaign)
    (hv : verifyPaymentErrors b = []) (ha : b.amount = some a)
    (hs : expectedSignature env b = b.razorpay_signature)
    (hd : findDonationByPaymentId db b.razorpay_payment_id = none)
    (hc : db.campaigns b.campaignId = some c) :
    (verifyPayment env svc db userId b).response.status = 201 ∧
      (verifyPayment env svc db userId b).response.message = "Donation successful!" ∧
      newDonation env userId b a (b.message.getD "") (b.isAnonymous.withDefault false) ∈
        (verifyPayment env svc db userId b).db.donations ∧
      (∃ c1, (verifyPayment env svc db userId b).db.campaigns b.campaignId = some c1 ∧
        c1.currentAmount = c.currentAmount + a) ∧
      (verifyPayment env svc2 db userId b).response =
        (verifyPayment env svc db userId b).response ∧
      (verifyPayment env svc2 db userId b).db = (verifyPayment env svc db userId b).db := by
  rw [verifyPayment_accepted env svc db userId b a c hv ha hs hd hc,
    verifyPayment_accepted env svc2 db userId b a c hv ha hs hd hc]
  refine ⟨rfl, rfl, ?_, ⟨_, if_pos rfl, ?_⟩, rfl, rfl⟩
  · simp
  · rw [goalCheck_currentAmount]
    rfl

/-- C8, at the confirmation of the examples, with a service that resolves and
one that throws. -/
theorem verifyPayment_email_independent_witness :
    (verifyPayment demoEnv demoSvc (demoDb 900) demoUserId (demoBody 150)).response.status
        = 201 ∧
      (verifyPayment demoEnv demoSvc (demoDb 900) demoUserId (demoBody 150)).response.message =
        "Donation successful!" ∧
      newDonation demoEnv demoUserId (demoBody 150) 150 ((demoBody 150).message.getD "")
          ((demoBody 150).isAnonymous.withDefault false) ∈
        (verifyPayment demoEnv demoSvc (demoDb 900) demoUserId (demoBody 150)).db.donations ∧
      (∃ c1, (verifyPayment demoEnv demoSvc (demoDb 900) demoUserId (demoBody 150)).db.campaigns
          (demoBody 150).campaignId = some c1 ∧
        c1.currentAmount = (900 : ℚ) + 150) ∧
      (verifyPayment demoEnv throwingSvc (demoDb 900) demoUserId (demoBody 150)).response =
        (verifyPayment demoEnv demoSvc (demoDb 900) demoUserId (demoBody 150)).response ∧
      (verifyPayment demoEnv throwingSvc (demoDb 900) demoUserId (demoBody 150)).db =
        (verifyPayment demoEnv demoSvc (demoDb 900) demoUserId (demoBody 150)).db :=
  verifyPayment_email_independent demoEnv demoSvc throwingSvc (demoDb 900) demoUserId
    (demoBody 150) 150 _ (demoBody_valid 150 (by norm_num)) rfl (demoBody_signed 150)
    (demoBody_fresh 150 900) (demoBody_campaign 150 900)

/-- C9: each rejection before the record-creation step (validation failure 400,
signature mismatch 400, duplicate payment id 400, campaign not found 404)
leaves the whole database exactly as it was; in particular a valid, correctly
signed request with a fresh payment id for a campaign id that does not exist
is answered 404 and the donations are unchanged. -/
theorem verifyPayment_rejection_keeps_db (env : Env) (svc : EmailService) (db : Db)
    (userId : ObjectId) (b : VerifyPaymentBody) :
    (verifyPaymentErrors b ≠ [] →
      (verifyPayment env svc db userId b).response.status = 400 ∧
        (verifyPayment env svc db userId b).db = db) ∧
    (verifyPaymentErrors b = [] → expectedSignature env b ≠ b.razorpay_signature →
      (verifyPayment env svc db userId b).response.status = 400 ∧
        (verifyPayment env svc db userId b).db = db) ∧
    (verifyPaymentErrors b = [] → expectedSignature env b = b.razorpay_signature →
      findDonationByPaymentId db b.razorpay_payment_id ≠ none →
      (verifyPayment env svc db userId b).response.status = 400 ∧
        (verifyPayment env svc db userId b).db = db) ∧
    (verifyPaymentErrors b = [] → expectedSignature env b = b.razorpay_signature →
      findDonationByPaymentId db b.razorpay_payment_id = none →
      db.campaigns b.campaignId = none →
      (verifyPayment env svc db userId b).response.status = 404 ∧
        (verifyPayment env svc db userId b).db = db ∧
        (verifyPayment env svc db userId b).db.donations = db.donations) ∧
    ((verifyPayment env svc db userId b).response.status ≠ 201 →
      (verifyPayment env svc db userId b).db = db) := by
  obtain ⟨h1, h2, h3, h4⟩ := verifyPayment_rejections env svc db userId b
  refine ⟨?_, ?_, ?_, ?_, ?_⟩
  · intro hv
    rw [h1 hv]
    exact ⟨rfl, rfl⟩
  · intro hv hs
    rw [h2 hv hs]
    exact ⟨rfl, rfl⟩
  · intro hv hs hd
    rw [h3 hv hs hd]
    exact ⟨rfl, rfl⟩
  · intro hv hs hd hc
    rw [h4 hv hs hd hc]
    exact ⟨rfl, rfl, rfl⟩
  · intro hne
    rcases verifyPayment_rejected_or_accepted env svc db userId b with
      ⟨hdb, _, _⟩ | ⟨a, c, hv, ha, _, hs, hd, hc⟩
    · exact hdb
    · rw [verifyPayment_accepted env svc db userId b a c hv ha hs hd hc] at hne
      exact absurd rfl hne

/-- C9, at the confirmation of the examples addressed to a campaign that does
not exist. -/
theorem verifyPayment_rejection_keeps_db_witness :
    (verifyPayment demoEnv demoSvc (demoDb 900) demoUserId strayBody).response.status = 404 ∧
      (verifyPayment demoEnv demoSvc (demoDb 900) demoUserId strayBody).db = demoDb 900 ∧
      (verifyPayment demoEnv demoSvc (demoDb 900) demoUserId strayBody).db.donations =
        (demoDb 900).donations :=
  (verifyPayment_rejection_keeps_db demoEnv demoSvc (demoDb 900) demoUserId strayBody).2.2.2.1
    (by
      have hid : isMongoId "c00000000000000000000009" = true := by decide
      simp [verifyPaymentErrors, strayBody, demoBody, hid])
    (by
      show "k" ++ "/" ++ ("order_1" ++ "|" ++ "pay_1") = "k/order_1|pay_1"
      decide)
    (by simp [findDonationByPaymentId, demoDb, strayBody, demoBody])
    (by
      have hne : ("c00000000000000000000009" : String) ≠ demoCampaignId := by decide
      simp [demoDb, strayBody, demoBody, hne])

/-- C10, as stated, fails: a reply to a comment that does not exist is answered
400 when its content is blank, and 404 "Campaign not found" when its campaign
does not exist either; neither response is 404 "Parent comment not found". -/
theorem postComment_parent_missing_counterexample :
    (demoDb 900).comments "e00000000000000000000001" = none ∧
      (postComment demoEnv (demoDb 900) demoUserId blankReply).response =
        { status := 400, message := "Validation errors" } ∧
      (postComment demoEnv (demoDb 900) demoUserId strayReply).response =
        { status := 404, message := "Campaign not found" } := by
  have hid1 : isMongoId demoCampaignId = true := by decide
  have hid2 : isMongoId "c00000000000000000000009" = true := by decide
  have hid3 : isMongoId "e00000000000000000000001" = true := by decide
  have hne : ("c00000000000000000000009" : String) ≠ demoCampaignId := by decide
  have hblank : (trim "   ").length = 0 := by decide
  have hwell : (trim "Well done").length = 9 := by decide
  refine ⟨rfl, ?_, ?_⟩
  · simp [postComment, postCommentErrors, blankReply, hid1, hid3, hblank]
  · simp [postComment, postCommentErrors, strayReply, hid2, hid3, hwell, demoDb, hne]

/-- C10, amended: for every POST /comments request naming a parentComment that
is missing or has isDeleted = true, no comment is created and none is changed
(the database is left as it was) and the status is 400 or 404; when the request
also passes validation and its campaign exists, the response is 404 "Parent
comment not found". -/
theorem postComment_parent_missing (env : Env) (db : Db) (userId : ObjectId)
    (b : CommentBody) (p : ObjectId) (hp : b.parentComment = some p)
    (hmiss : db.comments p = none ∨ ∃ pc, db.comments p = some pc ∧ pc.isDeleted = true) :
    (postComment env db userId b).db = db ∧
      (postComment env db userId b).response.comment = none ∧
      ((postComment env db userId b).response.status = 400 ∨
        (postComment env db userId b).response.status = 404) ∧
      (postCommentErrors b = [] → db.campaigns b.campaignId ≠ none →
        (postComment env db userId b).response =
          { status := 404, message := "Parent comment not found" }) := by
  by_cases hv : postCommentErrors b = []
  · have hpid : isMongoId p = true := by
      unfold postCommentErrors at hv
      simp only [List.append_eq_nil, hp] at hv
      by_contra hcon
      simp [hcon] at hv
    have hpne : p ≠ "" := by
      intro h0
      rw [h0] at hpid
      exact absurd hpid (by decide)
    have hnf : parentNotFound db b.parentComment = true := by
      rcases hmiss with hnone | ⟨pc, hsome, hdel⟩
      · simp [parentNotFound, hp, hpne, hnone]
      · simp [parentNotFound, hp, hpne, hsome, hdel]
    cases hc : db.campaigns b.campaignId with
    | none => simp [postComment, hv, hc]
    | some c => simp [postComment, hv, hc, hnf]
  · simp [postComment, hv]

/-- C10 amended, at a reply to a comment that does not exist on the campaign of
the examples. -/
theorem postComment_parent_missing_witness :
    (postComment demoEnv (demoDb 900) demoUserId orphanReply).db = demoDb 900 ∧
      (postComment demoEnv (demoDb 900) demoUserId orphanReply).response.comment = none ∧
      ((postComment demoEnv (demoDb 900) demoUserId orphanReply).response.status = 400 ∨
        (postComment demoEnv (demoDb 900) demoUserId orphanReply).response.status = 404) ∧
      (postCommentErrors orphanReply = [] → (demoDb 900).campaigns orphanReply.campaignId ≠ none →
        (postComment demoEnv (demoDb 900) demoUserId orphanReply).response =
          { status := 404, message := "Parent comment not found" }) :=
  postComment_parent_missing demoEnv (demoDb 900) demoUserId orphanReply
    "e00000000000000000000001" rfl (Or.inl rfl)

/-! ## Lemmas on comment documents -/

theorem mem_addToSet (xs : List ObjectId) (x : ObjectId) : x ∈ addToSet xs x := by
  unfold addToSet
  split
  · assumption
  · simp

theorem addToSet_of_mem (xs : List ObjectId) (x : ObjectId) (h : x ∈ xs) :
    addToSet xs x = xs := by
  simp [addToSet, h]

theorem addToSet_idem (xs : List ObjectId) (x : ObjectId) :
    addToSet (addToSet xs x) x = addToSet xs x :=
  addToSet_of_mem _ _ (mem_addToSet xs x)

theorem count_addToSet (xs : List ObjectId) (x : ObjectId) (h : xs.count x ≤ 1) :
    (addToSet xs x).count x = 1 := by
  unfold addToSet
  split
  · next hmem =>
    have := List.count_pos_iff.mpr hmem
    omega
  · next hmem =>
    rw [List.count_append, List.count_eq_zero_of_not_mem hmem]
    simp

/-- The hook on a live reply whose parent is stored: the parent gets the id
added to its replies and a new `updatedAt`; nothing else changes. -/
theorem commentPostSave_reply (env : Env) (db : Db) (id : ObjectId) (saved : Comment)
    (p : ObjectId) (pc : Comment) (hp : saved.parentComment = some p) (hne : p ≠ "")
    (hdel : saved.isDeleted = false) (hpc : db.comments p = some pc) :
    (commentPostSave env db id saved).comments p =
      some { pc with replies := addToSet pc.replies id, updatedAt := env.now } := by
  simp [commentPostSave, hp, hne, hdel, findByIdAndUpdate, hpc]

/-- The hook leaves every comment but the parent alone. -/
theorem commentPostSave_other (env : Env) (db : Db) (id : ObjectId) (saved : Comment)
    (k : ObjectId) (hk : saved.parentComment ≠ some k) :
    (commentPostSave env db id saved).comments k = db.comments k := by
  unfold commentPostSave
  split
  · next parent hparent =>
    have hne : k ≠ parent := by
      intro h
      exact hk (by rw [hparent, h])
    split
    · simp [findByIdAndUpdate, hne]
    · rfl
  · rfl

/-- The hook does nothing for a deleted comment. -/
theorem commentPostSave_deleted (env : Env) (db : Db) (id : ObjectId) (saved : Comment)
    (hdel : saved.isDeleted = true) : commentPostSave env db id saved = db := by
  unfold commentPostSave
  split
  · simp [hdel]
  · rfl

/-- The hook changes no comment's fields other than `replies` and `updatedAt`. -/
theorem commentPostSave_fields (env : Env) (db : Db) (id : ObjectId) (saved : Comment)
    (k : ObjectId) (c : Comment) (hc : db.comments k = some c) :
    ∃ r t, (commentPostSave env db id saved).comments k =
      some { c with replies := r, updatedAt := t } := by
  unfold commentPostSave
  split
  · next parent hparent =>
    split
    · by_cases hk : k = parent
      · subst hk
        exact ⟨addToSet c.replies id, env.now, by simp [findByIdAndUpdate, hc]⟩
      · exact ⟨c.replies, c.updatedAt, by simp [findByIdAndUpdate, hk, hc]⟩
    · exact ⟨c.replies, c.updatedAt, by simp [hc]⟩
  · exact ⟨c.replies, c.updatedAt, by simp [hc]⟩

/-- The comment just saved, as stored: the saved document up to `replies` and
`updatedAt`. -/
theorem saveComment_self (env : Env) (db : Db) (id : ObjectId) (doc : Comment) :
    ∃ r t, (saveComment env db id doc).comments id =
        some { doc with replies := r, updatedAt := t } := by
  unfold saveComment
  obtain ⟨r, t, h⟩ := commentPostSave_fields env
    { db with comments := saveDoc db.comments id { doc with updatedAt := env.now } } id
    { doc with updatedAt := env.now } id { doc with updatedAt := env.now } (by simp [saveDoc])
  exact ⟨r, t, h⟩

/-- The comment just saved, as stored, field by field: every field but
`replies` and `updatedAt` is that of the saved document. -/
theorem saveComment_self_fields (env : Env) (db : Db) (id : ObjectId) (doc : Comment) :
    ∃ d, (saveComment env db id doc).comments id = some d ∧
      d.likes = doc.likes ∧ d.isDeleted = doc.isDeleted ∧ d.deletedAt = doc.deletedAt ∧
      d.content = doc.content ∧ d.author = doc.author ∧ d.campaign = doc.campaign ∧
      d.parentComment = doc.parentComment ∧ d.reportedBy = doc.reportedBy ∧
      d.isReported = doc.isReported := by
  obtain ⟨r, t, h⟩ := saveComment_self env db id doc
  exact ⟨_, h, rfl, rfl, rfl, rfl, rfl, rfl, rfl, rfl, rfl⟩

/-- The like branch of the handler. -/
theorem likeComment_like (env : Env) (db : Db) (u id : ObjectId) (c : Comment)
    (hc : db.comments id = some c) (hdel : c.isDeleted = false)
    (hfind : c.likes.find? (fun like => decide (like.user = u)) = none) :
    likeComment env db u id =
      { response :=
          { status := 200, message := "Comment liked"
            likeCount := some (c.likes.length + 1), isLiked := some true }
        db := saveComment env db id
          { c with likes := c.likes ++ [{ user := u, likedAt := env.now }] }
        emails := [] } := by
  simp [likeComment, hc, hdel, hfind, likeCount]

/-- The unlike branch of the handler. -/
theorem likeComment_unlike (env : Env) (db : Db) (u id : ObjectId) (c : Comment) (l : Like)
    (hc : db.comments id = some c) (hdel : c.isDeleted = false)
    (hfind : c.likes.find? (fun like => decide (like.user = u)) = some l) :
    likeComment env db u id =
      { response :=
          { status := 200, message := "Comment unliked"
            likeCount := some (c.likes.filter fun like => decide (like.user ≠ u)).length
            isLiked := some false }
        db := saveComment env db id
          { c with likes := c.likes.filter fun like => decide (like.user ≠ u) }
        emails := [] } := by
  simp [likeComment, hc, hdel, hfind, likeCount]

/-- The report branch of the handler. -/
theorem reportComment_first (env : Env) (db : Db) (u id : ObjectId) (reason : String)
    (c : Comment) (hr : reason ∈ reportReasons) (hc : db.comments id = some c)
    (hdel : c.isDeleted = false)
    (hfind : c.reportedBy.find? (fun report => decide (report.user = u)) = none) :
    reportComment env db u id reason =
      { response := { status := 200, message := "Comment reported successfully" }
        db := saveComment env db id
          { c with
            reportedBy := c.reportedBy ++ [{ user := u, reason := reason, reportedAt := env.now }]
            isReported := true }
        emails := [] } := by
  simp [reportComment, hr, hc, hdel, hfind]

/-- The duplicate branch of the handler. -/
theorem reportComment_again (env : Env) (db : Db) (u id : ObjectId) (reason : String)
    (c : Comment) (r : Report) (hr : reason ∈ reportReasons) (hc : db.comments id = some c)
    (hdel : c.isDeleted = false)
    (hfind : c.reportedBy.find? (fun report => decide (report.user = u)) = some r) :
    reportComment env db u id reason =
      { response := { status := 400, message := "You have already reported this comment" }
        db := db, emails := [] } := by
  simp [reportComment, hr, hc, hdel, hfind]

/-- A save changes only the comments collection. -/
theorem saveComment_frame (env : Env) (db : Db) (id : ObjectId) (doc : Comment) :
    (saveComment env db id doc).donations = db.donations ∧
      (saveComment env db id doc).campaigns = db.campaigns ∧
      (saveComment env db id doc).users = db.users ∧
      (saveComment env db id doc).complaints = db.complaints := by
  unfold saveComment commentPostSave
  split
  · split <;> exact ⟨rfl, rfl, rfl, rfl⟩
  · exact ⟨rfl, rfl, rfl, rfl⟩

/-- A successful DELETE, written out: the comment was stored and live, the
caller is its author or an admin, and the only write is the soft-deleted
document. -/
theorem deleteComment_ok (env : Env) (db : Db) (reqUser : ReqUser) (id : ObjectId)
    (h : (deleteComment env db reqUser id).response.status = 200) :
    ∃ c, db.comments id = some c ∧ c.isDeleted = false ∧
      (c.author = reqUser._id ∨ reqUser.doc.role = "admin") ∧
      (deleteComment env db reqUser id).db =
        { db with
          comments := saveDoc db.comments id
            { c with isDeleted := true, deletedAt := some env.now, updatedAt := env.now } } := by
  unfold deleteComment at h ⊢
  cases hc : db.comments id with
  | none => simp [hc] at h
  | some c =>
    simp only [hc] at h ⊢
    by_cases hdel : c.isDeleted = true
    · simp [hdel] at h
    · have hdel2 : c.isDeleted = false := by simpa using hdel
      by_cases hauth : (!decide (c.author = reqUser._id) && !decide (reqUser.doc.role = "admin")) = true
      · simp [hdel2, hauth] at h
      · refine ⟨c, rfl, hdel2, ?_, ?_⟩
        · by_contra hcon
          push_neg at hcon
          exact hauth (by simp [hcon.1, hcon.2])
        · simp only [hdel2, hauth, Bool.false_eq_true, if_false]
          unfold saveComment
          rw [commentPostSave_deleted _ _ _ _ rfl]

/-! ## The claims on comments -/

/-- C11: when the post-save hook runs for a comment that is not deleted and has
a stored parent, the parent's replies contain the comment's id afterwards, and
exactly once if they contained it at most once before; running the hook again
leaves the parent's replies unchanged; and, for a parent other than the comment
itself, the same holds for a save and for a later save of an edited version of
the reply (for example after a like). -/
theorem commentPostSave_adds_once (env env2 : Env) (db : Db) (id : ObjectId) (saved : Comment)
    (p : ObjectId) (pc : Comment) (hp : saved.parentComment = some p) (hne : p ≠ "")
    (hdel : saved.isDeleted = false) (hpc : db.comments p = some pc) :
    (∃ pc1, (commentPostSave env db id saved).comments p = some pc1 ∧
      id ∈ pc1.replies ∧
      (pc.replies.count id ≤ 1 → pc1.replies.count id = 1) ∧
      (id ∈ pc.replies → pc1.replies = pc.replies) ∧
      ∃ pc2, (commentPostSave env2 (commentPostSave env db id saved) id saved).comments p =
          some pc2 ∧ pc2.replies = pc1.replies) ∧
    (p ≠ id →
      ∃ pc1, (saveComment env db id saved).comments p = some pc1 ∧
        id ∈ pc1.replies ∧
        (pc.replies.count id ≤ 1 → pc1.replies.count id = 1) ∧
        ∀ edited : Comment, edited.parentComment = some p → edited.isDeleted = false →
          ∃ pc2, (saveComment env2 (saveComment env db id saved) id edited).comments p =
            some pc2 ∧ pc2.replies = pc1.replies) := by
  constructor
  · have h1 := commentPostSave_reply env db id saved p pc hp hne hdel hpc
    have h2 := commentPostSave_reply env2 (commentPostSave env db id saved) id saved p _ hp hne
      hdel h1
    refine ⟨_, h1, mem_addToSet _ _, count_addToSet _ _, addToSet_of_mem _ _, _, h2, ?_⟩
    exact addToSet_idem _ _
  · intro hpid
    have hstored : ({ db with
        comments := saveDoc db.comments id { saved with updatedAt := env.now } } : Db).comments p =
        some pc := by
      simp [saveDoc, hpid, hpc]
    have h1 : (saveComment env db id saved).comments p =
        some { pc with replies := addToSet pc.replies id, updatedAt := env.now } :=
      commentPostSave_reply env _ id { saved with updatedAt := env.now } p pc hp hne hdel hstored
    refine ⟨_, h1, mem_addToSet _ _, count_addToSet _ _, ?_⟩
    intro edited hpe hdele
    have hstored2 : ({ saveComment env db id saved with
        comments := saveDoc (saveComment env db id saved).comments id
          { edited with updatedAt := env2.now } } : Db).comments p =
        some { pc with replies := addToSet pc.replies id, updatedAt := env.now } := by
      simp [saveDoc, hpid, h1]
    have h2 := commentPostSave_reply env2 _ id { edited with updatedAt := env2.now } p _ hpe hne
      hdele hstored2
    exact ⟨_, h2, addToSet_idem _ _⟩

theorem demoThread_parent : demoThread.comments demoParentId = some demoParent := by
  simp [demoThread]

theorem demoThread_reply : demoThread.comments demoReplyId = some demoReply := by
  have h : demoReplyId ≠ demoParentId := by decide
  simp [demoThread, h]

/-- C11, at the reply of the examples, whose id its parent already lists. -/
theorem commentPostSave_adds_once_witness :
    (∃ pc1, (commentPostSave demoEnv demoThread demoReplyId demoReply).comments demoParentId =
        some pc1 ∧
      demoReplyId ∈ pc1.replies ∧
      (demoParent.replies.count demoReplyId ≤ 1 → pc1.replies.count demoReplyId = 1) ∧
      (demoReplyId ∈ demoParent.replies → pc1.replies = demoParent.replies) ∧
      ∃ pc2, (commentPostSave demoEnv (commentPostSave demoEnv demoThread demoReplyId demoReply)
          demoReplyId demoReply).comments demoParentId = some pc2 ∧
        pc2.replies = pc1.replies) ∧
    (demoParentId ≠ demoReplyId →
      ∃ pc1, (saveComment demoEnv demoThread demoReplyId demoReply).comments demoParentId =
          some pc1 ∧
        demoReplyId ∈ pc1.replies ∧
        (demoParent.replies.count demoReplyId ≤ 1 → pc1.replies.count demoReplyId = 1) ∧
        ∀ edited : Comment, edited.parentComment = some demoParentId →
          edited.isDeleted = false →
          ∃ pc2, (saveComment demoEnv (saveComment demoEnv demoThread demoReplyId demoReply)
              demoReplyId edited).comments demoParentId = some pc2 ∧
            pc2.replies = pc1.replies) :=
  commentPostSave_adds_once demoEnv demoEnv demoThread demoReplyId demoReply demoParentId
    demoParent rfl (by decide) rfl demoThread_parent

/-- C12: for a live comment with n likes none of which is by u, the first like
request of u answers isLiked = true and likeCount = n + 1; a second request of
u answers isLiked = false and likeCount = n and leaves the likes list as it was
at the start, entry by entry. -/
theorem likeComment_toggle (env env2 : Env) (db : Db) (u id : ObjectId) (c : Comment)
    (hc : db.comments id = some c) (hdel : c.isDeleted = false)
    (hnew : ∀ l ∈ c.likes, l.user ≠ u) :
    (likeComment env db u id).response.isLiked = some true ∧
      (likeComment env db u id).response.likeCount = some (c.likes.length + 1) ∧
      (likeComment env2 (likeComment env db u id).db u id).response.isLiked = some false ∧
      (likeComment env2 (likeComment env db u id).db u id).response.likeCount =
        some c.likes.length ∧
      ∃ c2, (likeComment env2 (likeComment env db u id).db u id).db.comments id = some c2 ∧
        c2.likes = c.likes ∧ likeCount c2 = likeCount c := by
  have hfind : c.likes.find? (fun like => decide (like.user = u)) = none := by
    rw [List.find?_eq_none]
    intro l hl
    simpa using hnew l hl
  have hfirst := likeComment_like env db u id c hc hdel hfind
  obtain ⟨c1, hc1, hlikes1, hdel1, _⟩ := saveComment_self_fields env db id
    { c with likes := c.likes ++ [{ user := u, likedAt := env.now }] }
  have hlikes1 : c1.likes = c.likes ++ [{ user := u, likedAt := env.now }] := hlikes1
  have hdel1 : c1.isDeleted = false := hdel1.trans hdel
  have hfilter : c1.likes.filter (fun like => decide (like.user ≠ u)) = c.likes := by
    rw [hlikes1, List.filter_append, List.filter_eq_self.mpr]
    · simp
    · intro l hl
      simpa using hnew l hl
  have hfind2 : ∃ l, c1.likes.find? (fun like => decide (like.user = u)) = some l := by
    cases hf : c1.likes.find? (fun like => decide (like.user = u)) with
    | some l => exact ⟨l, rfl⟩
    | none =>
      rw [List.find?_eq_none] at hf
      have := hf { user := u, likedAt := env.now } (by simp [hlikes1])
      simp at this
  obtain ⟨l, hl⟩ := hfind2
  have hdb1 : (likeComment env db u id).db = saveComment env db id
      { c with likes := c.likes ++ [{ user := u, likedAt := env.now }] } := by
    rw [hfirst]
  have hsecond := likeComment_unlike env2 (likeComment env db u id).db u id c1 l
    (by rw [hdb1]; exact hc1) hdel1 hl
  obtain ⟨c2, hc2, hlikes2, _⟩ := saveComment_self_fields env2 (likeComment env db u id).db id
    { c1 with likes := c1.likes.filter fun like => decide (like.user ≠ u) }
  have hlikes2 : c2.likes = c.likes := hlikes2.trans hfilter
  refine ⟨?_, ?_, ?_, ?_, c2, ?_, hlikes2, ?_⟩
  · rw [hfirst]
  · rw [hfirst]
  · rw [hsecond]
  · rw [hsecond, hfilter]
  · rw [hsecond]
    exact hc2
  · simp [likeCount, hlikes2]

/-- C12, at the top-level comment of the examples, liked twice by its author. -/
theorem likeComment_toggle_witness :
    (likeComment demoEnv demoThread demoUserId demoParentId).response.isLiked = some true ∧
      (likeComment demoEnv demoThread demoUserId demoParentId).response.likeCount =
        some (demoParent.likes.length + 1) ∧
      (likeComment demoEnv (likeComment demoEnv demoThread demoUserId demoParentId).db
        demoUserId demoParentId).response.isLiked = some false ∧
      (likeComment demoEnv (likeComment demoEnv demoThread demoUserId demoParentId).db
        demoUserId demoParentId).response.likeCount = some demoParent.likes.length ∧
      ∃ c2, (likeComment demoEnv (likeComment demoEnv demoThread demoUserId demoParentId).db
          demoUserId demoParentId).db.comments demoParentId = some c2 ∧
        c2.likes = demoParent.likes ∧ likeCount c2 = likeCount demoParent :=
  likeComment_toggle demoEnv demoEnv demoThread demoUserId demoParentId demoParent
    demoThread_parent rfl (by decide)

/-- C13: for a live comment that u has not reported, the first report of u with
a valid reason appends exactly one entry (u, reason) to reportedBy and sets
isReported; a second report of u with any valid reason is answered 400 and
leaves the whole database, hence reportedBy and every other field, as it was,
so that exactly one report of u is stored; isDeleted and content are those of
the start. -/
theorem reportComment_once (env env2 : Env) (db : Db) (u id : ObjectId)
    (reason reason2 : String) (c : Comment)
    (hr : reason ∈ reportReasons) (hr2 : reason2 ∈ reportReasons)
    (hc : db.comments id = some c) (hdel : c.isDeleted = false)
    (hnew : ∀ r ∈ c.reportedBy, r.user ≠ u) :
    (reportComment env db u id reason).response.status = 200 ∧
      (∃ c1, (reportComment env db u id reason).db.comments id = some c1 ∧
        c1.reportedBy = c.reportedBy ++ [{ user := u, reason := reason, reportedAt := env.now }] ∧
        c1.isReported = true ∧ c1.isDeleted = c.isDeleted ∧ c1.content = c.content ∧
        (c1.reportedBy.filter fun r => decide (r.user = u)).length = 1) ∧
      (reportComment env2 (reportComment env db u id reason).db u id reason2).response =
        { status := 400, message := "You have already reported this comment" } ∧
      (reportComment env2 (reportComment env db u id reason).db u id reason2).db =
        (reportComment env db u id reason).db := by
  have hfind : c.reportedBy.find? (fun report => decide (report.user = u)) = none := by
    rw [List.find?_eq_none]
    intro r hrm
    simpa using hnew r hrm
  have hfirst := reportComment_first env db u id reason c hr hc hdel hfind
  obtain ⟨c1, hc1, _, hdel1, _, hcontent1, _, _, _, hrep1, hflag1⟩ :=
    saveComment_self_fields env db id
      { c with
        reportedBy := c.reportedBy ++ [{ user := u, reason := reason, reportedAt := env.now }]
        isReported := true }
  have hrep1 : c1.reportedBy =
      c.reportedBy ++ [{ user := u, reason := reason, reportedAt := env.now }] := hrep1
  have hdb1 : (reportComment env db u id reason).db = saveComment env db id
      { c with
        reportedBy := c.reportedBy ++ [{ user := u, reason := reason, reportedAt := env.now }]
        isReported := true } := by
    rw [hfirst]
  have hfind2 : ∃ r, c1.reportedBy.find? (fun report => decide (report.user = u)) = some r := by
    cases hf : c1.reportedBy.find? (fun report => decide (report.user = u)) with
    | some r => exact ⟨r, rfl⟩
    | none =>
      rw [List.find?_eq_none] at hf
      have := hf { user := u, reason := reason, reportedAt := env.now } (by simp [hrep1])
      simp at this
  obtain ⟨r, hrfound⟩ := hfind2
  have hsecond := reportComment_again env2 (reportComment env db u id reason).db u id reason2
    c1 r hr2 (by rw [hdb1]; exact hc1) (hdel1.trans hdel) hrfound
  have hcount : (c1.reportedBy.filter fun r => decide (r.user = u)).length = 1 := by
    rw [hrep1, List.filter_append, List.filter_eq_nil_iff.mpr]
    · simp
    · intro r hrm
      simpa using hnew r hrm
  refine ⟨?_, ⟨c1, ?_, hrep1, hflag1, hdel1, hcontent1, hcount⟩, ?_, ?_⟩
  · rw [hfirst]
  · rw [hdb1]
    exact hc1
  · rw [hsecond]
  · rw [hsecond]

/-- C13, at the reply of the examples, reported twice by the user of the
examples. -/
theorem reportComment_once_witness :
    (reportComment demoEnv demoThread demoUserId demoReplyId "spam").response.status = 200 ∧
      (∃ c1, (reportComment demoEnv demoThread demoUserId demoReplyId "spam").db.comments
          demoReplyId = some c1 ∧
        c1.reportedBy = demoReply.reportedBy ++
          [{ user := demoUserId, reason := "spam", reportedAt := demoEnv.now }] ∧
        c1.isReported = true ∧ c1.isDeleted = demoReply.isDeleted ∧
        c1.content = demoReply.content ∧
        (c1.reportedBy.filter fun r => decide (r.user = demoUserId)).length = 1) ∧
      (reportComment demoEnv (reportComment demoEnv demoThread demoUserId demoReplyId "spam").db
        demoUserId demoReplyId "other").response =
        { status := 400, message := "You have already reported this comment" } ∧
      (reportComment demoEnv (reportComment demoEnv demoThread demoUserId demoReplyId "spam").db
        demoUserId demoReplyId "other").db =
        (reportComment demoEnv demoThread demoUserId demoReplyId "spam").db :=
  reportComment_once demoEnv demoEnv demoThread demoUserId demoReplyId "spam" "other" demoReply
    (by decide) (by decide) demoThread_reply rfl (by decide)

/-- C14: a successful DELETE /comments/:id leaves the comment stored with
isDeleted = true and deletedAt stamped and with its content, author,
parentComment, replies, likes and reportedBy unchanged; every other comment is
unchanged, and the replies and replyCount of the parent are what they were, so
the id of the deleted reply stays in the parent's replies. -/
theorem deleteComment_soft (env : Env) (db : Db) (reqUser : ReqUser) (id : ObjectId)
    (h : (deleteComment env db reqUser id).response.status = 200) :
    ∃ c c1, db.comments id = some c ∧
      (deleteComment env db reqUser id).db.comments id = some c1 ∧
      c1.isDeleted = true ∧ c1.deletedAt = some env.now ∧
      c1.content = c.content ∧ c1.author = c.author ∧ c1.parentComment = c.parentComment ∧
      c1.replies = c.replies ∧ c1.likes = c.likes ∧ c1.reportedBy = c.reportedBy ∧
      (∀ k, k ≠ id → (deleteComment env db reqUser id).db.comments k = db.comments k) ∧
      (∀ p pc, c.parentComment = some p → db.comments p = some pc →
        ∃ pc1, (deleteComment env db reqUser id).db.comments p = some pc1 ∧
          pc1.replies = pc.replies ∧ replyCount pc1 = replyCount pc ∧
          (id ∈ pc.replies → id ∈ pc1.replies)) := by
  obtain ⟨c, hc, _, _, hdb⟩ := deleteComment_ok env db reqUser id h
  rw [hdb]
  refine ⟨c, { c with isDeleted := true, deletedAt := some env.now, updatedAt := env.now }, hc,
    by simp [saveDoc], rfl, rfl, rfl, rfl, rfl, rfl, rfl, rfl, ?_, ?_⟩
  · intro k hk
    simp [saveDoc, hk]
  · intro p pc _ hpc
    by_cases hp : p = id
    · subst hp
      rw [hc] at hpc
      have hpc := Option.some.inj hpc
      subst hpc
      exact ⟨{ c with isDeleted := true, deletedAt := some env.now, updatedAt := env.now },
        by simp [saveDoc], rfl, rfl, fun hm => hm⟩
    · exact ⟨pc, by simp [saveDoc, hp, hpc], rfl, rfl, fun hm => hm⟩

/-- C14, at the reply of the examples, deleted by its author. -/
theorem deleteComment_soft_witness :
    ∃ c c1, demoThread.comments demoReplyId = some c ∧
      (deleteComment demoEnv demoThread demoOther demoReplyId).db.comments demoReplyId =
        some c1 ∧
      c1.isDeleted = true ∧ c1.deletedAt = some demoEnv.now ∧
      c1.content = c.content ∧ c1.author = c.author ∧ c1.parentComment = c.parentComment ∧
      c1.replies = c.replies ∧ c1.likes = c.likes ∧ c1.reportedBy = c.reportedBy ∧
      (∀ k, k ≠ demoReplyId →
        (deleteComment demoEnv demoThread demoOther demoReplyId).db.comments k =
          demoThread.comments k) ∧
      (∀ p pc, c.parentComment = some p → demoThread.comments p = some pc →
        ∃ pc1, (deleteComment demoEnv demoThread demoOther demoReplyId).db.comments p =
            some pc1 ∧
          pc1.replies = pc.replies ∧ replyCount pc1 = replyCount pc ∧
          (demoReplyId ∈ pc.replies → demoReplyId ∈ pc1.replies)) :=
  deleteComment_soft demoEnv demoThread demoOther demoReplyId
    (by simp [deleteComment, demoThread_reply, demoReply, demoOther])

/-! ## The claims on admin moderation -/

theorem findByIdAndUpdate_self {α : Type} (coll : ObjectId → Option α) (id : ObjectId)
    (f : α → α) (d : α) (h : coll id = some d) : findByIdAndUpdate coll id f id = some (f d) := by
  simp [findByIdAndUpdate, h]

theorem findByIdAndUpdate_other {α : Type} (coll : ObjectId → Option α) (id k : ObjectId)
    (f : α → α) (h : k ≠ id) : findByIdAndUpdate coll id f k = coll k := by
  simp [findByIdAndUpdate, h]

theorem longRejection_invalid : verifyErrors longRejection ≠ [] := by
  have hlen : longReason.length = 501 := by
    show (List.replicate 501 'x').length = 501
    exact List.length_replicate _ _
  simp [verifyErrors, longRejection, hlen]

/-- An accepted campaign verification, written out. -/
theorem verifyCampaign_found (env : Env) (db : Db) (reqUser : ReqUser) (id : ObjectId)
    (b : VerifyBody) (c : Campaign) (hv : verifyErrors b = []) (hc : db.campaigns id = some c) :
    (verifyCampaign env db reqUser id b).response.status = 200 ∧
      (verifyCampaign env db reqUser id b).db.campaigns id =
        some (verifyCampaignFields env reqUser b c) := by
  simp [verifyCampaign, hv, hc, findByIdAndUpdate]

/-- An accepted complaint update, written out. -/
theorem updateComplaint_found (env : Env) (db : Db) (reqUser : ReqUser) (id : ObjectId)
    (b : ComplaintBody) (c : Complaint) (hv : complaintErrors b = [])
    (hc : db.complaints id = some c) :
    (updateComplaint env db reqUser id b).response.status = 200 ∧
      (updateComplaint env db reqUser id b).db.complaints id =
        some (complaintFields env reqUser b c) := by
  simp [updateComplaint, hv, hc, findByIdAndUpdate]

/-- C15, at the failing input: approving, through PUT /admin/users/:id/verify, a
user who holds a rejectionReason from an earlier rejection is answered 200 and
leaves the user verified by the acting admin with that rejectionReason still
stored. -/
theorem verifyUser_approval_keeps_reason :
    demoRejected.rejectionReason = some "Blurry ID" ∧
      (verifyUser demoEnv demoModeration demoAdmin demoRejectedId
        { isVerified := BoolField.value true }).response.status = 200 ∧
      (verifyUser demoEnv demoModeration demoAdmin demoRejectedId
        { isVerified := BoolField.value true }).db.users demoRejectedId =
        some { demoRejected with
          isVerified := true, verifiedBy := some demoAdmin._id, verifiedAt := some demoEnv.now
          rejectionReason := some "Blurry ID" } := by
  refine ⟨rfl, ?_, ?_⟩
  · simp [verifyUser, verifyErrors, demoModeration, BoolField.isBoolean]
  · simp [verifyUser, verifyErrors, demoModeration, findByIdAndUpdate, verifyUserFields,
      BoolField.withDefault, BoolField.isBoolean, BoolField.truthy, demoRejected]

/-- C16, as stated, fails: a rejection of an existing campaign whose
rejectionReason is 501 characters long is answered 400 and the campaign keeps
its status, here "pending". -/
theorem verifyCampaign_long_reason_counterexample :
    demoModeration.campaigns demoCampaignId = some demoPending ∧
      longRejection.isVerified = BoolField.value false ∧
      (verifyCampaign demoEnv demoModeration demoAdmin demoCampaignId longRejection).response =
        { status := 400, message := "Validation errors" } ∧
      (verifyCampaign demoEnv demoModeration demoAdmin demoCampaignId
        longRejection).db.campaigns demoCampaignId = some demoPending ∧
      demoPending.status = "pending" := by
  have h := longRejection_invalid
  refine ⟨by simp [demoModeration], rfl, ?_, ?_, rfl⟩
  · simp [verifyCampaign, h]
  · simp [verifyCampaign, h, demoModeration]

/-- The values of `isVerified` that pass validation. -/
theorem isBoolean_iff (f : BoolField) :
    f.isBoolean = true ↔
      f = BoolField.value true ∨ f = BoolField.value false ∨ f = BoolField.text "true" ∨
        f = BoolField.text "false" ∨ f = BoolField.text "1" ∨ f = BoolField.text "0" ∨
        f = BoolField.number 1 ∨ f = BoolField.number 0 := by
  cases f with
  | absent => simp [BoolField.isBoolean]
  | notBoolean => simp [BoolField.isBoolean]
  | value v => cases v <;> simp [BoolField.isBoolean]
  | text s =>
    simp only [BoolField.isBoolean, List.contains, List.elem_iff, List.mem_cons,
      List.mem_singleton, List.not_mem_nil, or_false, BoolField.text.injEq, false_or,
      reduceCtorEq]
  | number n => simp [BoolField.isBoolean]

/-- Of the values that pass validation only `false` and 0 are falsy, and they
are stored as false. -/
theorem falsy_of_isBoolean (f : BoolField) (hb : f.isBoolean = true)
    (hf : f.truthy = false) :
    (f = BoolField.value false ∨ f = BoolField.number 0) ∧ f.withDefault false = false := by
  rcases (isBoolean_iff f).mp hb with h | h | h | h | h | h | h | h <;> subst h <;>
    simp [BoolField.truthy, BoolField.withDefault] at hf ⊢

theorem verifyErrors_nil_iff (b : VerifyBody) :
    verifyErrors b = [] ↔
      b.isVerified.isBoolean = true ∧ ∀ r, b.rejectionReason = some r → r.length ≤ 500 := by
  unfold verifyErrors
  rw [List.append_eq_nil]
  constructor
  · rintro ⟨h1, h2⟩
    constructor
    · by_contra hb
      simp [hb] at h1
    · intro r hr
      by_contra hlen
      simp [hr, hlen] at h2
  · rintro ⟨h1, h2⟩
    constructor
    · simp [h1]
    · cases hr : b.rejectionReason with
      | none => rfl
      | some r => simp [h2 r hr]

/-- C16, amended: a PUT /admin/campaigns/:id/verify by an admin passes validation
exactly when isVerified is one of true, false, "true", "false", "1", "0", 1, 0
and rejectionReason, if supplied, has at most 500 characters; a request that
fails validation is answered 400 and changes nothing. For a request that passes:
a campaign id that does not exist gives 404 and changes nothing; on an existing
campaign verifiedBy becomes the acting admin and isVerified the boolean the
value is cast to; the JSON boolean true sets status "active" and isVerified
true; the JSON boolean false sets status "rejected", isVerified false and
stores a non-empty rejectionReason that is supplied; for the other accepted
values the branch follows their truthiness: a truthy value (every accepted
string and 1) sets status "active", a falsy one (0) does what false does. -/
theorem verifyCampaign_effect (env : Env) (db : Db) (reqUser : ReqUser) (id : ObjectId)
    (b : VerifyBody) :
    (verifyErrors b = [] ↔
      (b.isVerified = BoolField.value true ∨ b.isVerified = BoolField.value false ∨
        b.isVerified = BoolField.text "true" ∨ b.isVerified = BoolField.text "false" ∨
        b.isVerified = BoolField.text "1" ∨ b.isVerified = BoolField.text "0" ∨
        b.isVerified = BoolField.number 1 ∨ b.isVerified = BoolField.number 0) ∧
      ∀ r, b.rejectionReason = some r → r.length ≤ 500) ∧
    (verifyErrors b ≠ [] →
      (verifyCampaign env db reqUser id b).response =
        { status := 400, message := "Validation errors" } ∧
      (verifyCampaign env db reqUser id b).db = db) ∧
    (verifyErrors b = [] →
      (db.campaigns id = none →
        (verifyCampaign env db reqUser id b).response =
          { status := 404, message := "Campaign not found" } ∧
        (verifyCampaign env db reqUser id b).db = db) ∧
      (∀ c, db.campaigns id = some c →
        (verifyCampaign env db reqUser id b).response.status = 200 ∧
        ∃ c1, (verifyCampaign env db reqUser id b).db.campaigns id = some c1 ∧
          c1.verifiedBy = some reqUser._id ∧
          c1.isVerified = b.isVerified.withDefault false ∧
          (b.isVerified = BoolField.value true → c1.status = "active" ∧ c1.isVerified = true) ∧
          (b.isVerified = BoolField.value false →
            c1.status = "rejected" ∧ c1.isVerified = false ∧
            ∀ r, b.rejectionReason = some r → r ≠ "" → c1.rejectionReason = some r) ∧
          (b.isVerified.truthy = true → c1.status = "active") ∧
          (b.isVerified.truthy = false →
            c1.status = "rejected" ∧ c1.isVerified = false ∧
            ∀ r, b.rejectionReason = some r → r ≠ "" → c1.rejectionReason = some r))) := by
  refine ⟨?_, ?_, ?_⟩
  · rw [verifyErrors_nil_iff, isBoolean_iff]
  · intro hv
    unfold verifyCampaign
    rw [if_pos hv]
    exact ⟨rfl, rfl⟩
  · intro hv
    have hb : b.isVerified.isBoolean = true := ((verifyErrors_nil_iff b).mp hv).1
    constructor
    · intro hc
      simp [verifyCampaign, hv, hc]
    · intro c hc
      obtain ⟨h1, h2⟩ := verifyCampaign_found env db reqUser id b c hv hc
      have hactive : b.isVerified.truthy = true →
          (verifyCampaignFields env reqUser b c).status = "active" := by
        intro ht
        simp [verifyCampaignFields, ht]
      have hrejected : b.isVerified.truthy = false →
          (verifyCampaignFields env reqUser b c).status = "rejected" ∧
          (verifyCampaignFields env reqUser b c).isVerified = false ∧
          ∀ r, b.rejectionReason = some r → r ≠ "" →
            (verifyCampaignFields env reqUser b c).rejectionReason = some r := by
        intro hf
        have hcast := (falsy_of_isBoolean b.isVerified hb hf).2
        refine ⟨?_, ?_, ?_⟩
        · simp [verifyCampaignFields, hf]
        · simp [verifyCampaignFields, hf, hcast]
        · intro r hr hne
          simp [verifyCampaignFields, hf, hr, truthy, hne]
      refine ⟨h1, _, h2, ?_, ?_, ?_, ?_, hactive, hrejected⟩
      · unfold verifyCampaignFields
        split <;> rfl
      · unfold verifyCampaignFields
        split <;> rfl
      · intro ht
        have htruthy : b.isVerified.truthy = true := by rw [ht]; rfl
        refine ⟨hactive htruthy, ?_⟩
        simp [verifyCampaignFields, ht, BoolField.truthy, BoolField.withDefault]
      · intro hf
        have hfalsy : b.isVerified.truthy = false := by rw [hf]; rfl
        exact hrejected hfalsy

/-- C16 amended, at the pending campaign of the examples with isVerified sent as
the string "false": the request passes validation, the string is truthy, and the
campaign becomes active while isVerified is stored as false. -/
theorem verifyCampaign_effect_witness :
    verifyErrors { isVerified := BoolField.text "false" } = [] ∧
      (verifyCampaign demoEnv demoModeration demoAdmin demoCampaignId
        { isVerified := BoolField.text "false" }).response.status = 200 ∧
      ∃ c1, (verifyCampaign demoEnv demoModeration demoAdmin demoCampaignId
          { isVerified := BoolField.text "false" }).db.campaigns demoCampaignId = some c1 ∧
        c1.status = "active" ∧ c1.isVerified = false ∧ c1.verifiedBy = some demoAdmin._id := by
  have hv : verifyErrors { isVerified := BoolField.text "false" } = [] := by decide
  have hc : demoModeration.campaigns demoCampaignId = some demoPending := by
    simp [demoModeration]
  obtain ⟨hstatus, c1, hstored, hby, hcast, _, _, hactive, _⟩ :=
    ((verifyCampaign_effect demoEnv demoModeration demoAdmin demoCampaignId
      { isVerified := BoolField.text "false" }).2.2 hv).2 demoPending hc
  exact ⟨hv, hstatus, c1, hstored, hactive rfl, by rw [hcast]; rfl, hby⟩

/-- C17, as stated, fails: a PUT /admin/complaints/:id with status "pending" on
a resolved complaint is accepted and moves the complaint back to pending, which
is none of the three transitions. -/
theorem updateComplaint_reopen_counterexample :
    demoModeration.complaints demoComplaintId = some demoResolved ∧
      demoResolved.status = "resolved" ∧
      (updateComplaint demoEnv demoModeration demoAdmin demoComplaintId
        { status := "pending" }).response.status = 200 ∧
      (updateComplaint demoEnv demoModeration demoAdmin demoComplaintId
        { status := "pending" }).db.complaints demoComplaintId =
        some { demoResolved with status := "pending", updatedAt := demoEnv.now } ∧
      allowedComplaintTransition "resolved" "pending" = false := by
  have hc : demoModeration.complaints demoComplaintId = some demoResolved := by
    simp [demoModeration]
  have hv : complaintErrors { status := "pending" } = [] := by
    simp [complaintErrors, complaintStatuses]
  obtain ⟨h1, h2⟩ := updateComplaint_found demoEnv demoModeration demoAdmin demoComplaintId
    { status := "pending" } demoResolved hv hc
  refine ⟨hc, rfl, h1, ?_, by decide⟩
  rw [h2]
  simp [complaintFields, truthy]

/-- C17, amended: an accepted PUT /admin/complaints/:id sets the status of the
complaint to the status supplied, which is one of pending, in_review, resolved
and dismissed, whatever the status before; a status outside these four is
answered 400 and changes nothing. -/
theorem updateComplaint_sets_status (env : Env) (db : Db) (reqUser : ReqUser) (id : ObjectId)
    (b : ComplaintBody) (c : Complaint) (hc : db.complaints id = some c) :
    (complaintErrors b = [] →
      (updateComplaint env db reqUser id b).response.status = 200 ∧
      b.status ∈ complaintStatuses ∧
      ∃ c1, (updateComplaint env db reqUser id b).db.complaints id = some c1 ∧
        c1.status = b.status) ∧
    (b.status ∉ complaintStatuses →
      (updateComplaint env db reqUser id b).response =
        { status := 400, message := "Validation errors" } ∧
      (updateComplaint env db reqUser id b).db = db) := by
  constructor
  · intro hv
    obtain ⟨h1, h2⟩ := updateComplaint_found env db reqUser id b c hv hc
    refine ⟨h1, ?_, _, h2, rfl⟩
    by_contra hmem
    simp [complaintErrors, hmem] at hv
  · intro hmem
    have hv : complaintErrors b ≠ [] := by simp [complaintErrors, hmem]
    simp [updateComplaint, hv]

/-- C17 amended, at the resolved complaint of the examples, dismissed. -/
theorem updateComplaint_sets_status_witness :
    (complaintErrors { status := "dismissed" } = [] →
      (updateComplaint demoEnv demoModeration demoAdmin demoComplaintId
        { status := "dismissed" }).response.status = 200 ∧
      "dismissed" ∈ complaintStatuses ∧
      ∃ c1, (updateComplaint demoEnv demoModeration demoAdmin demoComplaintId
          { status := "dismissed" }).db.complaints demoComplaintId = some c1 ∧
        c1.status = "dismissed") ∧
    ("dismissed" ∉ complaintStatuses →
      (updateComplaint demoEnv demoModeration demoAdmin demoComplaintId
        { status := "dismissed" }).response =
        { status := 400, message := "Validation errors" } ∧
      (updateComplaint demoEnv demoModeration demoAdmin demoComplaintId
        { status := "dismissed" }).db = demoModeration) :=
  updateComplaint_sets_status demoEnv demoModeration demoAdmin demoComplaintId
    { status := "dismissed" } demoResolved (by simp [demoModeration])

/-- C18: on an accepted PUT /admin/complaints/:id, resolvedBy becomes the acting
admin when the new status is resolved or dismissed and keeps its previous value
when it is pending or in_review (and only then); adminNotes becomes the notes
supplied when they are not empty and keeps its previous value otherwise. -/
theorem updateComplaint_resolvedBy (env : Env) (db : Db) (reqUser : ReqUser) (id : ObjectId)
    (b : ComplaintBody) (c : Complaint) (hv : complaintErrors b = [])
    (hc : db.complaints id = some c) :
    ∃ c1, (updateComplaint env db reqUser id b).db.complaints id = some c1 ∧
      (b.status = "resolved" ∨ b.status = "dismissed" → c1.resolvedBy = some reqUser._id) ∧
      (b.status = "pending" ∨ b.status = "in_review" → c1.resolvedBy = c.resolvedBy) ∧
      (b.status = "resolved" ∨ b.status = "dismissed" ∨ b.status = "pending" ∨
        b.status = "in_review") ∧
      (∀ notes, b.adminNotes = some notes → notes ≠ "" → c1.adminNotes = some notes) ∧
      (b.adminNotes = none ∨ b.adminNotes = some "" → c1.adminNotes = c.adminNotes) := by
  obtain ⟨_, h2⟩ := updateComplaint_found env db reqUser id b c hv hc
  have hmem : b.status ∈ complaintStatuses := by
    by_contra hmem
    simp [complaintErrors, hmem] at hv
  refine ⟨_, h2, ?_, ?_, ?_, ?_, ?_⟩
  · intro hs
    simp [complaintFields, hs]
  · intro hs
    have hne : ¬ (b.status = "resolved" ∨ b.status = "dismissed") := by
      rcases hs with hs | hs <;> rw [hs] <;> decide
    simp [complaintFields, hne]
  · simp [complaintStatuses] at hmem
    tauto
  · intro notes hn hne
    simp [complaintFields, hn, truthy, hne]
  · intro hn
    rcases hn with hn | hn <;> simp [complaintFields, hn, truthy]

/-- C18, at the resolved complaint of the examples, put back in review with new
notes. -/
theorem updateComplaint_resolvedBy_witness :
    ∃ c1, (updateComplaint demoEnv demoModeration demoAdmin2 demoComplaintId
        { status := "in_review", adminNotes := some "Reopened" }).db.complaints demoComplaintId =
        some c1 ∧
      ("in_review" = "resolved" ∨ "in_review" = "dismissed" →
        c1.resolvedBy = some demoAdmin2._id) ∧
      ("in_review" = "pending" ∨ "in_review" = "in_review" →
        c1.resolvedBy = demoResolved.resolvedBy) ∧
      ("in_review" = "resolved" ∨ "in_review" = "dismissed" ∨ "in_review" = "pending" ∨
        "in_review" = "in_review") ∧
      (∀ notes, some "Reopened" = some notes → notes ≠ "" → c1.adminNotes = some notes) ∧
      (some "Reopened" = none ∨ some "Reopened" = some "" →
        c1.adminNotes = demoResolved.adminNotes) :=
  updateComplaint_resolvedBy demoEnv demoModeration demoAdmin2 demoComplaintId
    { status := "in_review", adminNotes := some "Reopened" } demoResolved
    (by
      have hlen : ("Reopened" : String).length ≤ 500 := by decide
      simp [complaintErrors, complaintStatuses, hlen])
    (by simp [demoModeration])

/-! ## The claims on the middleware -/

theorem protect_missing (env : AuthEnv) (db : Db) (req : Request)
    (h : extractToken req = none ∨ extractToken req = some "") :
    protect env db req = MiddlewareResult.responded
      { status := 401
        message := "Not authorized - missing token. Provide Authorization: Bearer <token>" } := by
  unfold protect
  rcases h with h | h <;> simp [h]

theorem protect_expired (env : AuthEnv) (db : Db) (req : Request) (token : String)
    (ht : extractToken req = some token) (he : token ≠ "")
    (hj : env.jwtVerify token env.JWT_SECRET = JwtOutcome.tokenExpired) :
    protect env db req = MiddlewareResult.responded
      { status := 401, message := "Token expired. Please login again." } := by
  simp [protect, ht, he, hj]

theorem protect_invalid (env : AuthEnv) (db : Db) (req : Request) (token : String)
    (ht : extractToken req = some token) (he : token ≠ "")
    (hj : env.jwtVerify token env.JWT_SECRET = JwtOutcome.otherError) :
    protect env db req = MiddlewareResult.responded
      { status := 401, message := "Invalid token." } := by
  simp [protect, ht, he, hj]

theorem protect_gone (env : AuthEnv) (db : Db) (req : Request) (token : String)
    (id : Option ObjectId) (ht : extractToken req = some token) (he : token ≠ "")
    (hj : env.jwtVerify token env.JWT_SECRET = JwtOutcome.decoded id)
    (hu : id.bind db.users = none) :
    protect env db req = MiddlewareResult.responded
      { status := 401, message := "User linked to token no longer exists." } := by
  cases id with
  | none => simp [protect, ht, he, hj]
  | some i =>
    have hu : db.users i = none := hu
    simp [protect, ht, he, hj, hu]

theorem protect_ok (env : AuthEnv) (db : Db) (req : Request) (token : String)
    (id : ObjectId) (user : User) (ht : extractToken req = some token) (he : token ≠ "")
    (hj : env.jwtVerify token env.JWT_SECRET = JwtOutcome.decoded (some id))
    (hu : db.users id = some user) :
    protect env db req =
      MiddlewareResult.next { req with user := some { _id := id, doc := user } } := by
  simp [protect, ht, he, hj, hu]

/-- Every run of `protect` ends in one of five ways. -/
theorem protect_cases (env : AuthEnv) (db : Db) (req : Request) :
    (∃ res, protect env db req = MiddlewareResult.responded res ∧ res.status = 401) ∨
    (∃ token id user, extractToken req = some token ∧ token ≠ "" ∧
      env.jwtVerify token env.JWT_SECRET = JwtOutcome.decoded (some id) ∧
      db.users id = some user ∧
      protect env db req =
        MiddlewareResult.next { req with user := some { _id := id, doc := user } }) := by
  cases ht : extractToken req with
  | none => exact Or.inl ⟨_, protect_missing env db req (Or.inl ht), rfl⟩
  | some token =>
    by_cases he : token = ""
    · exact Or.inl ⟨_, protect_missing env db req (Or.inr (by rw [ht, he])), rfl⟩
    · cases hj : env.jwtVerify token env.JWT_SECRET with
      | tokenExpired => exact Or.inl ⟨_, protect_expired env db req token ht he hj, rfl⟩
      | otherError => exact Or.inl ⟨_, protect_invalid env db req token ht he hj, rfl⟩
      | decoded id =>
        cases hu : id.bind db.users with
        | none => exact Or.inl ⟨_, protect_gone env db req token id ht he hj hu, rfl⟩
        | some user =>
          cases id with
          | none => simp at hu
          | some i =>
            exact Or.inr ⟨token, i, user, rfl, he, hj, hu,
              protect_ok env db req token i user ht he hj hu⟩

/-- C19: `protect` calls next exactly when a non-empty token is found, the token
verifies under the server secret to a payload with an id, and that id is the id
of a stored user; the request handed on is the request with `req.user` set to
that user. In every other case it responds 401: with the missing-token message
when no token is found, the expiry message when the token has expired, the
invalid-token message when verification fails otherwise, and the
user-no-longer-exists message when the id finds no user; the four messages are
pairwise different. -/
theorem protect_next_iff (env : AuthEnv) (db : Db) (req : Request) :
    (∀ req1, protect env db req = MiddlewareResult.next req1 ↔
      ∃ token id user, extractToken req = some token ∧ token ≠ "" ∧
        env.jwtVerify token env.JWT_SECRET = JwtOutcome.decoded (some id) ∧
        db.users id = some user ∧
        req1 = { req with user := some { _id := id, doc := user } }) ∧
    ((∀ req1, protect env db req ≠ MiddlewareResult.next req1) →
      ∃ res, protect env db req = MiddlewareResult.responded res ∧ res.status = 401) ∧
    (extractToken req = none ∨ extractToken req = some "" →
      protect env db req = MiddlewareResult.responded
        { status := 401
          message := "Not authorized - missing token. Provide Authorization: Bearer <token>" }) ∧
    (∀ token, extractToken req = some token → token ≠ "" →
      (env.jwtVerify token env.JWT_SECRET = JwtOutcome.tokenExpired →
        protect env db req = MiddlewareResult.responded
          { status := 401, message := "Token expired. Please login again." }) ∧
      (env.jwtVerify token env.JWT_SECRET = JwtOutcome.otherError →
        protect env db req = MiddlewareResult.responded
          { status := 401, message := "Invalid token." }) ∧
      (∀ id, env.jwtVerify token env.JWT_SECRET = JwtOutcome.decoded id →
        id.bind db.users = none →
        protect env db req = MiddlewareResult.responded
          { status := 401, message := "User linked to token no longer exists." })) ∧
    ["Not authorized - missing token. Provide Authorization: Bearer <token>",
      "Token expired. Please login again.", "Invalid token.",
      "User linked to token no longer exists."].Nodup := by
  refine ⟨?_, ?_, protect_missing env db req, ?_, by decide⟩
  · intro req1
    constructor
    · intro h
      rcases protect_cases env db req with ⟨res, hres, _⟩ | ⟨token, id, user, h1, h2, h3, h4, h5⟩
      · rw [hres] at h
        cases h
      · rw [h5] at h
        exact ⟨token, id, user, h1, h2, h3, h4, (MiddlewareResult.next.inj h).symm⟩
    · rintro ⟨token, id, user, h1, h2, h3, h4, h5⟩
      rw [h5]
      exact protect_ok env db req token id user h1 h2 h3 h4
  · intro hno
    rcases protect_cases env db req with hres | ⟨_, _, _, _, _, _, _, h5⟩
    · exact hres
    · exact absurd h5 (hno _)
  · intro token ht he
    exact ⟨protect_expired env db req token ht he, protect_invalid env db req token ht he,
      fun id => protect_gone env db req token id ht he⟩

/-- C19, at a request that carries the good token of the examples in its
Authorization header. -/
theorem protect_next_iff_witness :
    protect demoAuthEnv (demoDb 900) { authorization := some "Bearer good" } =
      MiddlewareResult.next
        { authorization := some "Bearer good"
          user := some { _id := demoUserId
                         doc := { name := "Asha", email := "asha@example.org" } } } :=
  (protect_next_iff demoAuthEnv (demoDb 900) { authorization := some "Bearer good" }).1
    { authorization := some "Bearer good"
      user := some { _id := demoUserId, doc := { name := "Asha", email := "asha@example.org" } } }
    |>.mpr ⟨"good", demoUserId, { name := "Asha", email := "asha@example.org" }, by decide,
      by decide, by simp [demoAuthEnv], by simp [demoDb], rfl⟩

/-- The chain of every admin route: `protect`, then `authorize('admin')`. -/
theorem adminRoutes_guards (r : Route) (h : r ∈ adminRoutes) :
    r.guards = [Guard.protect, Guard.authorize ["admin"]] := by
  simp only [adminRoutes, List.mem_cons, List.mem_singleton, List.not_mem_nil, or_false] at h
  rcases h with h | h | h | h | h | h | h | h | h | h | h | h | h <;> rw [h]

/-- C20: the middleware returned by `authorize(...roles)` calls next, handing on
the request unchanged, exactly when `req.user` is set and its role is one of
the roles listed; it responds 401 when `req.user` is missing and 403 when the
role is not listed; and on every route of the admin router, whose chain is
`protect` then `authorize('admin')`, the handler is reached only with a
`req.user` of role admin. -/
theorem authorize_next_iff (roles : List String) (req : Request) :
    (∀ req1, authorize roles req = MiddlewareResult.next req1 ↔
      req1 = req ∧ ∃ u, req.user = some u ∧ u.doc.role ∈ roles) ∧
    (req.user = none →
      authorize roles req = MiddlewareResult.responded
        { status := 401, message := "Not authorized - user context missing." }) ∧
    (∀ u, req.user = some u → u.doc.role ∉ roles →
      authorize roles req = MiddlewareResult.responded
        { status := 403
          message := "Access denied: role \x27" ++ u.doc.role ++ "\x27 not permitted." }) ∧
    (∀ r, r ∈ adminRoutes → r.guards = [Guard.protect, Guard.authorize ["admin"]]) ∧
    (∀ (env : AuthEnv) (db : Db) (r : Route) (req0 req1 : Request), r ∈ adminRoutes →
      runGuards env db r.guards req0 = MiddlewareResult.next req1 →
      ∃ u, req1.user = some u ∧ u.doc.role = "admin") := by
  have hauth : ∀ (rs : List String) (q q1 : Request),
      authorize rs q = MiddlewareResult.next q1 ↔
        q1 = q ∧ ∃ u, q.user = some u ∧ u.doc.role ∈ rs := by
    intro rs q q1
    unfold authorize
    cases hu : q.user with
    | none => simp
    | some u =>
      by_cases hr : u.doc.role ∈ rs
      · simp [hr, eq_comm]
      · simp [hr]
  refine ⟨hauth roles req, ?_, ?_, adminRoutes_guards, ?_⟩
  · intro hu
    simp [authorize, hu]
  · intro u hu hr
    simp [authorize, hu, hr]
  · intro env db r req0 req1 hr hrun
    rw [adminRoutes_guards r hr] at hrun
    simp only [runGuards] at hrun
    cases hp : protect env db req0 with
    | responded res => simp [hp] at hrun
    | next q =>
      simp only [hp] at hrun
      cases ha : authorize ["admin"] q with
      | responded res => simp [ha] at hrun
      | next q1 =>
        simp only [ha, MiddlewareResult.next.injEq] at hrun
        obtain ⟨hq, u, hu, hrole⟩ := (hauth ["admin"] q q1).mp ha
        subst hrun
        rw [hq]
        exact ⟨u, hu, by simpa using hrole⟩

/-- C20, at a request of the second user of the examples, who is a donor, on a
route for admins. -/
theorem authorize_next_iff_witness :
    authorize ["admin"] { user := some demoOther } = MiddlewareResult.responded
      { status := 403
        message := "Access denied: role \x27" ++ demoOther.doc.role ++ "\x27 not permitted." } :=
  (authorize_next_iff ["admin"] { user := some demoOther }).2.2.1 demoOther rfl (by decide)

/-! ## The claims on likes, deletion and editing -/

/-- The comment stored by a like request on a live comment. -/
theorem likeComment_stored (env : Env) (db : Db) (u id : ObjectId) (c : Comment)
    (hc : db.comments id = some c) (hdel : c.isDeleted = false) :
    ∃ c1, (likeComment env db u id).db.comments id = some c1 ∧
      c1.likes =
        (match c.likes.find? (fun like => decide (like.user = u)) with
          | some _ => c.likes.filter fun like => decide (like.user ≠ u)
          | none => c.likes ++ [{ user := u, likedAt := env.now }]) := by
  cases hf : c.likes.find? (fun like => decide (like.user = u)) with
  | none =>
    rw [likeComment_like env db u id c hc hdel hf]
    obtain ⟨c1, h1, h2, _⟩ := saveComment_self_fields env db id
      { c with likes := c.likes ++ [{ user := u, likedAt := env.now }] }
    exact ⟨c1, h1, h2⟩
  | some l =>
    rw [likeComment_unlike env db u id c l hc hdel hf]
    obtain ⟨c1, h1, h2, _⟩ := saveComment_self_fields env db id
      { c with likes := c.likes.filter fun like => decide (like.user ≠ u) }
    exact ⟨c1, h1, h2⟩

/-- C30: a like request by u on a live comment keeps the entries of every other
user, in their order; it preserves "at most one entry per user"; likeCount
grows by exactly 1 when u had no entry, and, when u had an entry and the list
held at most one entry per user, it drops by exactly 1. -/
theorem likeComment_invariant (env : Env) (db : Db) (u id : ObjectId) (c : Comment)
    (hc : db.comments id = some c) (hdel : c.isDeleted = false) :
    ∃ c1, (likeComment env db u id).db.comments id = some c1 ∧
      (c1.likes.filter fun l => decide (l.user ≠ u)) =
        (c.likes.filter fun l => decide (l.user ≠ u)) ∧
      (OneLikePerUser c.likes → OneLikePerUser c1.likes) ∧
      ((∀ l ∈ c.likes, l.user ≠ u) → likeCount c1 = likeCount c + 1) ∧
      ((∃ l ∈ c.likes, l.user = u) → OneLikePerUser c.likes →
        likeCount c1 + 1 = likeCount c) := by
  obtain ⟨c1, hc1, hlikes⟩ := likeComment_stored env db u id c hc hdel
  refine ⟨c1, hc1, ?_, ?_, ?_, ?_⟩
  · rw [hlikes]
    split
    · simp [List.filter_filter]
    · simp [List.filter_append]
  · intro hone v
    rw [hlikes]
    split
    · exact le_trans ((List.filter_sublist _).filter _).length_le (hone v)
    · next hnone =>
      rw [List.find?_eq_none] at hnone
      by_cases hv : u = v
      · subst hv
        have hempty : c.likes.filter (fun l => decide (l.user = u)) = [] := by
          rw [List.filter_eq_nil_iff]
          intro l hl
          exact hnone l hl
        simp [List.filter_append, hempty]
      · have := hone v
        simpa [List.filter_append, hv] using this
  · intro hnew
    have hnone : c.likes.find? (fun like => decide (like.user = u)) = none := by
      rw [List.find?_eq_none]
      intro l hl
      simpa using hnew l hl
    rw [hnone] at hlikes
    simp [likeCount, hlikes]
  · rintro ⟨l, hl, hlu⟩ hone
    have hsome : ∃ l1, c.likes.find? (fun like => decide (like.user = u)) = some l1 := by
      cases hf : c.likes.find? (fun like => decide (like.user = u)) with
      | some l1 => exact ⟨l1, rfl⟩
      | none =>
        rw [List.find?_eq_none] at hf
        have := hf l hl
        simp [hlu] at this
    obtain ⟨l1, hl1⟩ := hsome
    rw [hl1] at hlikes
    have hsplit := List.length_eq_length_filter_add (l := c.likes)
      (fun like => decide (like.user = u))
    have hpos : 0 < (c.likes.filter fun like => decide (like.user = u)).length := by
      apply List.length_pos_of_mem (a := l)
      simp [hl, hlu]
    have hle := hone u
    have hneg : (c.likes.filter fun x => !decide (x.user = u)) =
        (c.likes.filter fun like => decide (like.user ≠ u)) := by
      congr 1
      funext x
      simp
    rw [hneg] at hsplit
    simp only [likeCount, hlikes]
    omega

/-- C30, at the top-level comment of the examples, liked by the second user,
who likes it already. -/
theorem likeComment_invariant_witness :
    ∃ c1, (likeComment demoEnv demoThread demoOther._id demoParentId).db.comments demoParentId =
        some c1 ∧
      (c1.likes.filter fun l => decide (l.user ≠ demoOther._id)) =
        (demoParent.likes.filter fun l => decide (l.user ≠ demoOther._id)) ∧
      (OneLikePerUser demoParent.likes → OneLikePerUser c1.likes) ∧
      ((∀ l ∈ demoParent.likes, l.user ≠ demoOther._id) →
        likeCount c1 = likeCount demoParent + 1) ∧
      ((∃ l ∈ demoParent.likes, l.user = demoOther._id) → OneLikePerUser demoParent.likes →
        likeCount c1 + 1 = likeCount demoParent) :=
  likeComment_invariant demoEnv demoThread demoOther._id demoParentId demoParent
    demoThread_parent rfl

/-- A DELETE for a comment that is missing or already soft-deleted. -/
theorem deleteComment_missing (env : Env) (db : Db) (reqUser : ReqUser) (id : ObjectId)
    (h : db.comments id = none ∨ ∃ c, db.comments id = some c ∧ c.isDeleted = true) :
    deleteComment env db reqUser id =
      { response := { status := 404, message := "Comment not found" }, db := db, emails := [] } := by
  rcases h with h | ⟨c, h, hdel⟩
  · simp [deleteComment, h]
  · simp [deleteComment, h, hdel]

/-- A DELETE by a caller who is neither the author nor an admin. -/
theorem deleteComment_forbidden (env : Env) (db : Db) (reqUser : ReqUser) (id : ObjectId)
    (c : Comment) (hc : db.comments id = some c) (hdel : c.isDeleted = false)
    (hauthor : c.author ≠ reqUser._id) (hrole : reqUser.doc.role ≠ "admin") :
    deleteComment env db reqUser id =
      { response := { status := 403, message := "Not authorized to delete this comment" }
        db := db, emails := [] } := by
  simp [deleteComment, hc, hdel, hauthor, hrole]

/-- A PUT by a caller who is not the author, on a live comment, with valid
content. -/
theorem editComment_forbidden (env : Env) (db : Db) (reqUser : ReqUser) (id : ObjectId)
    (content : String) (c : Comment)
    (hv : 1 ≤ (trim content).length ∧ (trim content).length ≤ 1000)
    (hc : db.comments id = some c) (hdel : c.isDeleted = false)
    (hauthor : c.author ≠ reqUser._id) :
    editComment env db reqUser id content =
      { response := { status := 403, message := "Not authorized to edit this comment" }
        db := db, emails := [] } := by
  simp [editComment, hv, hc, hdel, hauthor]

/-- A PUT that is answered 200 comes from the author of a live comment. -/
theorem editComment_ok (env : Env) (db : Db) (reqUser : ReqUser) (id : ObjectId)
    (content : String) (h : (editComment env db reqUser id content).response.status = 200) :
    ∃ c, db.comments id = some c ∧ c.isDeleted = false ∧ c.author = reqUser._id := by
  unfold editComment at h
  by_cases hv : 1 ≤ (trim content).length ∧ (trim content).length ≤ 1000
  · cases hc : db.comments id with
    | none => simp [hv, hc] at h
    | some c =>
      by_cases hdel : c.isDeleted = true
      · simp [hv, hc, hdel] at h
      · by_cases hauthor : c.author = reqUser._id
        · exact ⟨c, rfl, by simpa using hdel, hauthor⟩
        · simp [hv, hc, hdel, hauthor] at h
  · simp [hv] at h

/-- C26: DELETE /comments/:id is answered 200, and then soft-deletes the comment,
exactly when the comment is stored, not yet soft-deleted, and the caller is its
author or an admin; a missing or already deleted comment gives 404 whoever
asks, so a second DELETE gives 404; any other caller gets 403 and the database
is unchanged. PUT /comments/:id is answered 200 only for the author: whoever is
not the author, an admin included, gets 403 on a live comment (for content that
passes validation) and in every case the database, hence content, isEdited and
editedAt, is unchanged. -/
theorem deleteComment_iff_and_edit (env env2 : Env) (db : Db) (reqUser reqUser2 : ReqUser)
    (id : ObjectId) (content : String) :
    ((deleteComment env db reqUser id).response.status = 200 ↔
      ∃ c, db.comments id = some c ∧ c.isDeleted = false ∧
        (c.author = reqUser._id ∨ reqUser.doc.role = "admin")) ∧
    ((deleteComment env db reqUser id).response.status = 200 →
      (∃ c1, (deleteComment env db reqUser id).db.comments id = some c1 ∧ c1.isDeleted = true) ∧
      deleteComment env2 (deleteComment env db reqUser id).db reqUser2 id =
        { response := { status := 404, message := "Comment not found" }
          db := (deleteComment env db reqUser id).db, emails := [] }) ∧
    (db.comments id = none ∨ (∃ c, db.comments id = some c ∧ c.isDeleted = true) →
      deleteComment env db reqUser id =
        { response := { status := 404, message := "Comment not found" }
          db := db, emails := [] }) ∧
    (∀ c, db.comments id = some c → c.isDeleted = false → c.author ≠ reqUser._id →
      (reqUser.doc.role ≠ "admin" →
        deleteComment env db reqUser id =
          { response := { status := 403, message := "Not authorized to delete this comment" }
            db := db, emails := [] }) ∧
      (1 ≤ (trim content).length ∧ (trim content).length ≤ 1000 →
        editComment env db reqUser id content =
          { response := { status := 403, message := "Not authorized to edit this comment" }
            db := db, emails := [] }) ∧
      (editComment env db reqUser id content).db = db) ∧
    ((editComment env db reqUser id content).response.status = 200 →
      ∃ c, db.comments id = some c ∧ c.author = reqUser._id) := by
  refine ⟨?_, ?_, deleteComment_missing env db reqUser id, ?_, ?_⟩
  · constructor
    · intro h
      obtain ⟨c, hc, hdel, hauth, _⟩ := deleteComment_ok env db reqUser id h
      exact ⟨c, hc, hdel, hauth⟩
    · rintro ⟨c, hc, hdel, hauth⟩
      rcases hauth with hauth | hauth <;> simp [deleteComment, hc, hdel, hauth]
  · intro h
    obtain ⟨c, hc, _, _, hdb⟩ := deleteComment_ok env db reqUser id h
    have hstored : (deleteComment env db reqUser id).db.comments id =
        some { c with isDeleted := true, deletedAt := some env.now, updatedAt := env.now } := by
      rw [hdb]
      simp [saveDoc]
    exact ⟨⟨_, hstored, rfl⟩,
      deleteComment_missing env2 _ reqUser2 id (Or.inr ⟨_, hstored, rfl⟩)⟩
  · intro c hc hdel hauthor
    refine ⟨deleteComment_forbidden env db reqUser id c hc hdel hauthor, ?_, ?_⟩
    · intro hv
      exact editComment_forbidden env db reqUser id content c hv hc hdel hauthor
    · by_cases hv : 1 ≤ (trim content).length ∧ (trim content).length ≤ 1000
      · rw [editComment_forbidden env db reqUser id content c hv hc hdel hauthor]
      · simp [editComment, hv]
  · intro h
    obtain ⟨c, hc, _, hauthor⟩ := editComment_ok env db reqUser id content h
    exact ⟨c, hc, hauthor⟩

/-- C26, at the reply of the examples: the admin, who is not its author, may
delete it but not edit it. -/
theorem deleteComment_iff_and_edit_witness :
    (deleteComment demoEnv demoThread demoAdmin demoReplyId).response.status = 200 ∧
      editComment demoEnv demoThread demoAdmin demoReplyId "Edited by the admin" =
        { response := { status := 403, message := "Not authorized to edit this comment" }
          db := demoThread, emails := [] } :=
  ⟨(deleteComment_iff_and_edit demoEnv demoEnv demoThread demoAdmin demoAdmin demoReplyId
      "Edited by the admin").1.mpr ⟨demoReply, demoThread_reply, rfl, Or.inr rfl⟩,
    ((deleteComment_iff_and_edit demoEnv demoEnv demoThread demoAdmin demoAdmin demoReplyId
      "Edited by the admin").2.2.2.1 demoReply demoThread_reply rfl (by decide)).2.1
      (by decide)⟩

/-! ## The claims on status, deadline and milestones -/

/-- C27: verify-payment reads neither the status nor the deadline of the
campaign: whatever they are, a valid request with a matching signature and an
unused payment id for an existing campaign is answered 201 and the campaign is
credited with the amount; when the updated currentAmount is at least the
goalAmount the stored status is "completed"; and the same request on the same
database with the campaign given any other status and deadline gets the same
response, the same donations and the same credited amount and donors. -/
theorem verifyPayment_ignores_status (env : Env) (svc : EmailService) (db : Db)
    (userId : ObjectId) (b : VerifyPaymentBody) (a : ℚ) (c : Campaign) (status2 : String)
    (deadline2 : Nat)
    (hv : verifyPaymentErrors b = []) (ha : b.amount = some a)
    (hs : expectedSignature env b = b.razorpay_signature)
    (hd : findDonationByPaymentId db b.razorpay_payment_id = none)
    (hc : db.campaigns b.campaignId = some c) :
    (verifyPayment env svc db userId b).response.status = 201 ∧
      (∃ c1, (verifyPayment env svc db userId b).db.campaigns b.campaignId = some c1 ∧
        c1.currentAmount = c.currentAmount + a ∧ c1.deadline = c.deadline ∧
        (c1.currentAmount ≥ c1.goalAmount → c1.status = "completed") ∧
        (¬ c1.currentAmount ≥ c1.goalAmount → c1.status = c.status)) ∧
      (verifyPayment env svc
          { db with
            campaigns := saveDoc db.campaigns b.campaignId
              { c with status := status2, deadline := deadline2 } }
          userId b).response = (verifyPayment env svc db userId b).response ∧
      (verifyPayment env svc
          { db with
            campaigns := saveDoc db.campaigns b.campaignId
              { c with status := status2, deadline := deadline2 } }
          userId b).db.donations = (verifyPayment env svc db userId b).db.donations ∧
      (∃ c2, (verifyPayment env svc
          { db with
            campaigns := saveDoc db.campaigns b.campaignId
              { c with status := status2, deadline := deadline2 } }
          userId b).db.campaigns b.campaignId = some c2 ∧
        c2.currentAmount = c.currentAmount + a ∧
        c2.donors = c.donors ++
          [{ user := userId, amount := a, isAnonymous := b.isAnonymous.withDefault false
             donatedAt := env.now }] ∧
        (c2.currentAmount ≥ c2.goalAmount → c2.status = "completed")) := by
  have hc2 : ({ db with
      campaigns := saveDoc db.campaigns b.campaignId
        { c with status := status2, deadline := deadline2 } } : Db).campaigns b.campaignId =
      some { c with status := status2, deadline := deadline2 } := by
    simp [saveDoc]
  have hacc2 := verifyPayment_accepted env svc
    { db with
      campaigns := saveDoc db.campaigns b.campaignId
        { c with status := status2, deadline := deadline2 } }
    userId b a { c with status := status2, deadline := deadline2 } hv ha hs hd hc2
  rw [hacc2, verifyPayment_accepted env svc db userId b a c hv ha hs hd hc]
  refine ⟨rfl, ⟨_, if_pos rfl, ?_, ?_, ?_, ?_⟩, rfl, rfl, ⟨_, if_pos rfl, ?_, ?_, ?_⟩⟩
  · rw [goalCheck_currentAmount]
    rfl
  · unfold goalCheck
    split <;> rfl
  · intro hge
    rw [goalCheck_currentAmount, goalCheck_goalAmount] at hge
    simp [goalCheck, hge]
  · intro hlt
    rw [goalCheck_currentAmount, goalCheck_goalAmount] at hlt
    unfold goalCheck
    rw [if_neg hlt]
    rfl
  · rw [goalCheck_currentAmount]
    rfl
  · rw [goalCheck_donors]
    rfl
  · intro hge
    rw [goalCheck_currentAmount, goalCheck_goalAmount] at hge
    simp [goalCheck, hge]

/-- C27, at the confirmation of the examples, with the campaign cancelled and
its deadline long past. -/
theorem verifyPayment_ignores_status_witness :
    (verifyPayment demoEnv demoSvc (demoDb 900) demoUserId (demoBody 150)).response.status
        = 201 ∧
      (∃ c1, (verifyPayment demoEnv demoSvc (demoDb 900) demoUserId (demoBody 150)).db.campaigns
          (demoBody 150).campaignId = some c1 ∧
        c1.currentAmount = (900 : ℚ) + 150 ∧ c1.deadline = 0 ∧
        (c1.currentAmount ≥ c1.goalAmount → c1.status = "completed") ∧
        (¬ c1.currentAmount ≥ c1.goalAmount → c1.status = "active")) ∧
      (verifyPayment demoEnv demoSvc
          { demoDb 900 with
            campaigns := saveDoc (demoDb 900).campaigns (demoBody 150).campaignId
              { title := "Village well", goalAmount := 1000, currentAmount := 900
                donors := [{ user := demoUserId, amount := 900, isAnonymous := false
                             donatedAt := 10 }]
                status := "cancelled", deadline := 1 } }
          demoUserId (demoBody 150)).response =
        (verifyPayment demoEnv demoSvc (demoDb 900) demoUserId (demoBody 150)).response ∧
      (verifyPayment demoEnv demoSvc
          { demoDb 900 with
            campaigns := saveDoc (demoDb 900).campaigns (demoBody 150).campaignId
              { title := "Village well", goalAmount := 1000, currentAmount := 900
                donors := [{ user := demoUserId, amount := 900, isAnonymous := false
                             donatedAt := 10 }]
                status := "cancelled", deadline := 1 } }
          demoUserId (demoBody 150)).db.donations =
        (verifyPayment demoEnv demoSvc (demoDb 900) demoUserId (demoBody 150)).db.donations ∧
      (∃ c2, (verifyPayment demoEnv demoSvc
          { demoDb 900 with
            campaigns := saveDoc (demoDb 900).campaigns (demoBody 150).campaignId
              { title := "Village well", goalAmount := 1000, currentAmount := 900
                donors := [{ user := demoUserId, amount := 900, isAnonymous := false
                             donatedAt := 10 }]
                status := "cancelled", deadline := 1 } }
          demoUserId (demoBody 150)).db.campaigns (demoBody 150).campaignId = some c2 ∧
        c2.currentAmount = (900 : ℚ) + 150 ∧
        c2.donors = [{ user := demoUserId, amount := 900, isAnonymous := false
                       donatedAt := 10 }] ++
          [{ user := demoUserId, amount := 150
             isAnonymous := (demoBody 150).isAnonymous.withDefault false
             donatedAt := demoEnv.now }] ∧
        (c2.currentAmount ≥ c2.goalAmount → c2.status = "completed")) :=
  verifyPayment_ignores_status demoEnv demoSvc (demoDb 900) demoUserId (demoBody 150) 150
    { title := "Village well", goalAmount := 1000, currentAmount := 900, status := "active"
      donors := [{ user := demoUserId, amount := 900, isAnonymous := false, donatedAt := 10 }] }
    "cancelled" 1 (demoBody_valid 150 (by norm_num)) rfl (demoBody_signed 150)
    (demoBody_fresh 150 900) (demoBody_campaign 150 900)

/-- The thresholds between two rounded percentages, for fixed values. -/
theorem milestones_filter_all (pn pp : JsRounded) (p n : ℤ) (hpp : pp = JsRounded.finite p)
    (hpn : pn = JsRounded.finite n) (hp : p < 25) (hn : 100 ≤ n) :
    (milestones.filter fun (m : ℕ) => pn.ge m && pp.lt m) = [25, 50, 75, 100] := by
  subst hpp hpn
  have h1 : ((25 : ℕ) : ℤ) ≤ n := by push_cast; omega
  have h2 : ((50 : ℕ) : ℤ) ≤ n := by push_cast; omega
  have h3 : ((75 : ℕ) : ℤ) ≤ n := by push_cast; omega
  have h4 : ((100 : ℕ) : ℤ) ≤ n := by push_cast; omega
  have g1 : p < ((25 : ℕ) : ℤ) := by push_cast; omega
  have g2 : p < ((50 : ℕ) : ℤ) := by push_cast; omega
  have g3 : p < ((75 : ℕ) : ℤ) := by push_cast; omega
  have g4 : p < ((100 : ℕ) : ℤ) := by push_cast; omega
  simp only [milestones, List.filter_cons, List.filter_nil, JsRounded.ge, JsRounded.lt, h1, h2,
    h3, h4, g1, g2, g3, g4, decide_True, Bool.and_self, if_true]

theorem milestones_filter_reached (pn pp : JsRounded)
    (hpn : pn = JsRounded.posInfinity ∨ ∃ n, pn = JsRounded.finite n ∧ 100 ≤ n)
    (hpp : pp = JsRounded.finite 0) :
    (milestones.filter fun (m : ℕ) => pn.ge m && pp.lt m) = [25, 50, 75, 100] := by
  rcases hpn with hinf | ⟨n, hn, hn100⟩
  · subst hinf hpp
    decide
  · exact milestones_filter_all pn pp 0 n hpp hn (by norm_num) hn100

theorem milestones_filter_none (pn pp : JsRounded) (p : ℤ) (hpp : pp = JsRounded.finite p)
    (hp : 100 ≤ p) :
    (milestones.filter fun (m : ℕ) => pn.ge m && pp.lt m) = [] := by
  subst hpp
  rw [List.filter_eq_nil_iff]
  intro m hm
  simp only [milestones, List.mem_cons, List.mem_singleton, List.not_mem_nil, or_false] at hm
  simp only [Bool.and_eq_true, JsRounded.lt, decide_eq_true_eq, not_and, not_lt]
  intro _
  rcases hm with rfl | rfl | rfl | rfl <;> push_cast <;> omega

theorem toDouble_1029_100 :
    toDouble (1029 / 100) = JsNumber.finite (1448188755176325 / 140737488355328) :=
  toDouble_eval (1029 / 100) (1448188755176325 / 140737488355328) (3) 5792755020705300
      (by norm_num) (roundHalfEven_eq _ 5792755020705300 (by norm_num) (by norm_num))

theorem toDouble_nearly2079 : toDouble nearly2079 = JsNumber.finite nearly2079 := by
  unfold nearly2079
  exact toDouble_eval (2925932382907269 / 140737488355328) (2925932382907269 / 140737488355328) (4) 5851864765814538
      (by norm_num) (roundHalfEven_eq _ 5851864765814538 (by norm_num) (by norm_num))

/-- The computed percentage of the double nearest to 10.29, of 42, rounds to 24. -/
theorem percentage_1029_of_42 :
    roundedPercentage (JsNumber.finite (1448188755176325 / 140737488355328)) 42 =
        JsRounded.finite 24 := by
  have hg : toDouble 42 = JsNumber.finite 42 := toDouble_eval 42 42 (5) 5910974510923776
      (by norm_num) (roundHalfEven_eq _ 5910974510923776 (by norm_num) (by norm_num))
  have hq : toDouble ((1448188755176325 / 140737488355328) / 42) =
      JsNumber.finite (8827055269646171 / 36028797018963968) := by
    have hx : ((1448188755176325 / 140737488355328) / 42 : ℚ) =
        (482729585058775 / 1970324836974592) := by norm_num
    rw [hx]
    exact toDouble_eval (482729585058775 / 1970324836974592) (8827055269646171 / 36028797018963968) (-3) 8827055269646171
      (by norm_num) (roundHalfEven_eq _ 8827055269646171 (by norm_num) (by norm_num))
  have hp : toDouble ((8827055269646171 / 36028797018963968) * 100) =
      JsNumber.finite (6896136929411071 / 281474976710656) := by
    have hx : ((8827055269646171 / 36028797018963968) * 100 : ℚ) =
        (220676381741154275 / 9007199254740992) := by norm_num
    rw [hx]
    exact toDouble_eval (220676381741154275 / 9007199254740992) (6896136929411071 / 281474976710656) (4) 6896136929411071
      (by norm_num) (roundHalfEven_eq _ 6896136929411071 (by norm_num) (by norm_num))
  rw [roundedPercentage_finite (1448188755176325 / 140737488355328) 42 42 (8827055269646171 / 36028797018963968) (6896136929411071 / 281474976710656) hg (by norm_num) hq hp]
  have hr : mathRound (6896136929411071 / 281474976710656) = 24 := by
    unfold mathRound
    norm_num [Int.floor_eq_iff]
  rw [hr]

/-- The computed percentage of the double nearest to 20.79, of 42, rounds to 50. -/
theorem percentage_2079_of_42 :
    roundedPercentage (JsNumber.finite (2925932382907269 / 140737488355328)) 42 =
        JsRounded.finite 50 := by
  have hg : toDouble 42 = JsNumber.finite 42 := toDouble_eval 42 42 (5) 5910974510923776
      (by norm_num) (roundHalfEven_eq _ 5910974510923776 (by norm_num) (by norm_num))
  have hq : toDouble ((2925932382907269 / 140737488355328) / 42) =
      JsNumber.finite (4458563631096791 / 9007199254740992) := by
    have hx : ((2925932382907269 / 140737488355328) / 42 : ℚ) =
        (975310794302423 / 1970324836974592) := by norm_num
    rw [hx]
    exact toDouble_eval (975310794302423 / 1970324836974592) (4458563631096791 / 9007199254740992) (-2) 8917127262193582
      (by norm_num) (roundHalfEven_eq _ 8917127262193582 (by norm_num) (by norm_num))
  have hp : toDouble ((4458563631096791 / 9007199254740992) * 100) = JsNumber.finite (99 / 2) := by
    have hx : ((4458563631096791 / 9007199254740992) * 100 : ℚ) =
        (111464090777419775 / 2251799813685248) := by norm_num
    rw [hx]
    exact toDouble_eval (111464090777419775 / 2251799813685248) (99 / 2) (5) 6966505673588736
      (by norm_num) (roundHalfEven_eq _ 6966505673588736 (by norm_num) (by norm_num))
  rw [roundedPercentage_finite (2925932382907269 / 140737488355328) 42 42 (4458563631096791 / 9007199254740992) (99 / 2) hg (by norm_num) hq hp]
  have hr : mathRound (99 / 2) = 50 := by
    unfold mathRound
    norm_num [Int.floor_eq_iff]
  rw [hr]

/-- The computed percentage of nothing of 42. -/
theorem percentage_0_of_42 :
    roundedPercentage (JsNumber.finite 0) 42 = JsRounded.finite 0 := by
  have hg : toDouble 42 = JsNumber.finite 42 := toDouble_eval 42 42 (5) 5910974510923776
      (by norm_num) (roundHalfEven_eq _ 5910974510923776 (by norm_num) (by norm_num))
  have hq : toDouble (0 / 42) = JsNumber.finite 0 := by
    rw [zero_div]
    exact toDouble_zero
  have hp : toDouble (0 * 100) = JsNumber.finite 0 := by
    rw [zero_mul]
    exact toDouble_zero
  rw [roundedPercentage_finite 0 42 42 0 0 hg (by norm_num) hq hp]
  have hr : mathRound 0 = 0 := by
    unfold mathRound
    norm_num [Int.floor_eq_iff]
  rw [hr]

theorem demoSmallDb_fresh (a : ℚ) :
    findDonationByPaymentId demoSmallDb (demoBody a).razorpay_payment_id = none := rfl

theorem demoSmallDb_campaign (a : ℚ) :
    demoSmallDb.campaigns (demoBody a).campaignId =
      some { title := "Seed library", goalAmount := 42, currentAmount := 0
             status := "active" } := by
  simp [demoSmallDb, demoBody]

/-- C28, as stated, fails. A donation of 10.29 to a campaign with a goal of 42
that has received nothing takes it to exactly 24.5 per cent, so by the claim
the milestone 25 is fired (round(0) < 25 ≤ round(24.5) = 25); the handler
computes (10.29 / 42) * 100 in doubles, which is below 24.5 and rounds to 24,
and fires nothing. A donation of the double nearest to 20.79, which is just
below it, takes the campaign to just under 49.5 per cent, which rounds to 49, so
by the claim only 25 is fired; the handler computes 49.5 and fires 25 and 50. -/
theorem milestone_half_percent_counterexample :
    exactPercentage (0 + 1029 / 100) 42 = 49 / 2 ∧
      mathRound (exactPercentage (0 + 1029 / 100 - 1029 / 100) 42) < 25 ∧
      25 ≤ mathRound (exactPercentage (0 + 1029 / 100) 42) ∧
      firedMilestones
        (verifyPayment demoEnv demoSvc demoSmallDb demoUserId (demoBody (1029 / 100))).emails =
        [] ∧
      mathRound (exactPercentage (0 + nearly2079) 42) = 49 ∧
      firedMilestones
        (verifyPayment demoEnv demoSvc demoSmallDb demoUserId (demoBody nearly2079)).emails =
        [25, 50] := by
  have hzero : roundedPercentage (JsNumber.finite 0) 42 = JsRounded.finite 0 :=
    percentage_0_of_42
  refine ⟨?_, ?_, ?_, ?_, ?_, ?_⟩
  · unfold exactPercentage
    norm_num
  · unfold exactPercentage mathRound
    norm_num
  · unfold exactPercentage mathRound
    norm_num
  · have hsum : (0 : ℚ) + 1029 / 100 = 1029 / 100 := by norm_num
    have hn : roundedPercentage (toDouble ((0 : ℚ) + 1029 / 100)) 42 = JsRounded.finite 24 := by
      rw [hsum, toDouble_1029_100]
      exact percentage_1029_of_42
    have hp : roundedPercentage (previousAmount ((0 : ℚ) + 1029 / 100) (1029 / 100)) 42 =
        JsRounded.finite 0 := by
      rw [hsum, previousAmount_finite (1029 / 100) (1029 / 100) _ _ 0 toDouble_1029_100
        toDouble_1029_100 (by rw [sub_self]; exact toDouble_zero)]
      exact hzero
    rw [firedMilestones_of_percentages demoEnv demoSvc demoSmallDb demoUserId
      (demoBody (1029 / 100)) (1029 / 100)
      { title := "Seed library", goalAmount := 42, currentAmount := 0, status := "active" }
      (JsRounded.finite 24) (JsRounded.finite 0)
      (demoBody_valid (1029 / 100) (by norm_num)) rfl (demoBody_signed (1029 / 100))
      (demoSmallDb_fresh (1029 / 100)) (demoSmallDb_campaign (1029 / 100))
      (fun d m => emailService_not_threw demoTransport d _) hn hp]
    decide
  · unfold exactPercentage mathRound nearly2079
    norm_num [Int.floor_eq_iff]
  · have hsum : (0 : ℚ) + nearly2079 = nearly2079 := zero_add _
    have hn : roundedPercentage (toDouble ((0 : ℚ) + nearly2079)) 42 = JsRounded.finite 50 := by
      rw [hsum, toDouble_nearly2079]
      unfold nearly2079
      exact percentage_2079_of_42
    have hp : roundedPercentage (previousAmount ((0 : ℚ) + nearly2079) nearly2079) 42 =
        JsRounded.finite 0 := by
      rw [hsum, previousAmount_finite nearly2079 nearly2079 _ _ 0 toDouble_nearly2079
        toDouble_nearly2079 (by rw [sub_self]; exact toDouble_zero)]
      exact hzero
    have hvalid : (1 : ℚ) ≤ nearly2079 := by
      unfold nearly2079
      norm_num
    rw [firedMilestones_of_percentages demoEnv demoSvc demoSmallDb demoUserId
      (demoBody nearly2079) nearly2079
      { title := "Seed library", goalAmount := 42, currentAmount := 0, status := "active" }
      (JsRounded.finite 50) (JsRounded.finite 0)
      (demoBody_valid nearly2079 hvalid) rfl (demoBody_signed nearly2079)
      (demoSmallDb_fresh nearly2079) (demoSmallDb_campaign nearly2079)
      (fun d m => emailService_not_threw demoTransport d _) hn hp]
    decide

/-- C28, amended: on an accepted request, with an email service that does not
throw, the milestones fired are exactly the thresholds t of [25, 50, 75, 100]
with Math.round(((c - a) / g) * 100) < t and t ≤ Math.round((c / g) * 100), in
ascending order, where c is the updated currentAmount, a the amount, g the
goalAmount and every operation is the one of JavaScript numbers, its result
rounded to the nearest double. A donation that takes the rounded percentage from
below 25 to at least 100 fires all four; a donation to a campaign whose rounded
previous percentage is 100 or more fires none; and a single donation, of an
amount that is a double, from nothing raised to at least the goal, the goal
being a positive double, fires all four. -/
theorem verifyPayment_milestones_exact (env : Env) (svc : EmailService) (db : Db)
    (userId : ObjectId) (b : VerifyPaymentBody) (a : ℚ) (c : Campaign)
    (hv : verifyPaymentErrors b = []) (ha : b.amount = some a)
    (hs : expectedSignature env b = b.razorpay_signature)
    (hd : findDonationByPaymentId db b.razorpay_payment_id = none)
    (hc : db.campaigns b.campaignId = some c)
    (hsvc : ∀ d m, svc d (EmailCall.milestoneNotification b.campaignId m) ≠ EmailOutcome.threw) :
    (∃ c1, (verifyPayment env svc db userId b).db.campaigns b.campaignId = some c1 ∧
      c1.goalAmount = c.goalAmount ∧ c1.currentAmount = c.currentAmount + a ∧
      firedMilestones (verifyPayment env svc db userId b).emails =
        ([25, 50, 75, 100] : List ℕ).filter fun (t : ℕ) =>
          (roundedPercentage (toDouble c1.currentAmount) c1.goalAmount).ge t &&
            (roundedPercentage (previousAmount c1.currentAmount a) c1.goalAmount).lt t) ∧
    (firedMilestones (verifyPayment env svc db userId b).emails).Pairwise (fun s t => s < t) ∧
    (∀ p n : ℤ,
      roundedPercentage (previousAmount (c.currentAmount + a) a) c.goalAmount =
        JsRounded.finite p →
      roundedPercentage (toDouble (c.currentAmount + a)) c.goalAmount = JsRounded.finite n →
      (p < 25 → 100 ≤ n →
        firedMilestones (verifyPayment env svc db userId b).emails = [25, 50, 75, 100]) ∧
      (100 ≤ p → firedMilestones (verifyPayment env svc db userId b).emails = [])) ∧
    (c.currentAmount = 0 → 0 < c.goalAmount → c.goalAmount ≤ a →
      toDouble c.goalAmount = JsNumber.finite c.goalAmount → toDouble a = JsNumber.finite a →
      firedMilestones (verifyPayment env svc db userId b).emails = [25, 50, 75, 100]) := by
  have hfired := firedMilestones_accepted env svc db userId b a c hv ha hs hd hc hsvc
  refine ⟨?_, ?_, ?_, ?_⟩
  · have hstored : (verifyPayment env svc db userId b).db.campaigns b.campaignId =
        some (goalCheck (creditCampaign env userId a (b.isAnonymous.withDefault false) c)) := by
      rw [verifyPayment_accepted env svc db userId b a c hv ha hs hd hc]
      exact if_pos rfl
    refine ⟨_, hstored, goalCheck_goalAmount _, goalCheck_currentAmount _, ?_⟩
    rw [hfired, goalCheck_currentAmount, goalCheck_goalAmount]
    rfl
  · rw [hfired]
    apply List.Pairwise.filter
    decide
  · intro p n hp hn
    rw [hfired]
    constructor
    · intro hp25 hn100
      exact milestones_filter_all _ _ p n hp hn hp25 hn100
    · intro hp100
      exact milestones_filter_none _ _ p hp hp100
  · intro h0 hg hga hgd had
    rw [hfired, h0, zero_add, had,
      previousAmount_finite a a a a 0 had had (by rw [sub_self]; exact toDouble_zero)]
    exact milestones_filter_reached _ _ (roundedPercentage_of_goal a c.goalAmount hg hga hgd)
      (roundedPercentage_of_zero c.goalAmount hg hgd)

/-- C28 amended, at a donation of 1000 to the campaign of the examples with
nothing raised: all four milestones are fired. -/
theorem verifyPayment_milestones_exact_witness :
    firedMilestones (verifyPayment demoEnv demoSvc (demoDb 0) demoUserId (demoBody 1000)).emails =
      [25, 50, 75, 100] :=
  (verifyPayment_milestones_exact demoEnv demoSvc (demoDb 0) demoUserId (demoBody 1000) 1000
    { title := "Village well", goalAmount := 1000, currentAmount := 0, status := "active"
      donors := [{ user := demoUserId, amount := 0, isAnonymous := false, donatedAt := 10 }] }
    (demoBody_valid 1000 (by norm_num)) rfl (demoBody_signed 1000) (demoBody_fresh 1000 0)
    (demoBody_campaign 1000 0)
    (fun d m => emailService_not_threw demoTransport d _)).2.2.2 rfl (by norm_num) (by norm_num)
    toDouble_1000 toDouble_1000

/-! ## Lemmas on the email service -/

theorem mapSet_keys (m : List (String × User)) (k : String) (v : User) :
    (mapSet m k v).map Prod.fst =
      if k ∈ m.map Prod.fst then m.map Prod.fst else m.map Prod.fst ++ [k] := by
  unfold mapSet
  by_cases h : k ∈ m.map Prod.fst
  · have hany : m.any (fun e => decide (e.1 = k)) = true := by
      rw [List.any_eq_true]
      obtain ⟨e, he, hk⟩ := List.mem_map.mp h
      exact ⟨e, he, by simp [hk]⟩
    rw [if_pos hany, if_pos h, List.map_map]
    apply List.map_congr_left
    intro e _
    by_cases hek : e.1 = k
    · simp [hek]
    · simp [hek]
  · have hany : ¬ m.any (fun e => decide (e.1 = k)) = true := by
      rw [List.any_eq_true]
      rintro ⟨e, he, hk⟩
      exact h (List.mem_map.mpr ⟨e, he, by simpa using hk⟩)
    rw [if_neg hany, if_neg h]
    simp

theorem mapSet_email (m : List (String × User)) (k : String) (v : User)
    (hm : ∀ e ∈ m, e.2.email = e.1) (hv : v.email = k) :
    ∀ e ∈ mapSet m k v, e.2.email = e.1 := by
  unfold mapSet
  split
  · intro e he
    obtain ⟨e0, he0, rfl⟩ := List.mem_map.mp he
    by_cases hek : e0.1 = k
    · simp [hek, hv]
    · simpa [hek] using hm e0 he0
  · intro e he
    rcases List.mem_append.mp he with he | he
    · exact hm e he
    · simp only [List.mem_singleton] at he
      rw [he]
      exact hv

/-- The fold that builds the map of donors: the keys stay distinct, every value
carries its key as email, and the keys are those of the start together with the
non-empty emails of the stored donors of the donations visited. -/
theorem collectDonors_spec (db : Db) (ds : List Donation) :
    ∀ m0 : List (String × User), (m0.map Prod.fst).Nodup → (∀ e ∈ m0, e.2.email = e.1) →
      ((ds.foldl
          (fun m donation =>
            match db.users donation.donor with
            | some donor => if donor.email ≠ "" then mapSet m donor.email donor else m
            | none => m) m0).map Prod.fst).Nodup ∧
      (∀ e ∈ ds.foldl
          (fun m donation =>
            match db.users donation.donor with
            | some donor => if donor.email ≠ "" then mapSet m donor.email donor else m
            | none => m) m0, e.2.email = e.1) ∧
      ∀ addr, addr ∈ (ds.foldl
          (fun m donation =>
            match db.users donation.donor with
            | some donor => if donor.email ≠ "" then mapSet m donor.email donor else m
            | none => m) m0).map Prod.fst ↔
        addr ∈ m0.map Prod.fst ∨
          ∃ d ∈ ds, ∃ u, db.users d.donor = some u ∧ u.email = addr ∧ addr ≠ "" := by
  induction ds with
  | nil =>
    intro m0 hnd hem
    exact ⟨hnd, hem, fun addr => by simp⟩
  | cons d rest ih =>
    intro m0 hnd hem
    simp only [List.foldl_cons]
    cases hu : db.users d.donor with
    | none =>
      obtain ⟨h1, h2, h3⟩ := ih m0 hnd hem
      refine ⟨h1, h2, fun addr => ?_⟩
      rw [h3 addr]
      constructor
      · rintro (h | ⟨d1, hd1, u, hu1, he1, hne⟩)
        · exact Or.inl h
        · exact Or.inr ⟨d1, List.mem_cons_of_mem _ hd1, u, hu1, he1, hne⟩
      · rintro (h | ⟨d1, hd1, u, hu1, he1, hne⟩)
        · exact Or.inl h
        · rcases List.mem_cons.mp hd1 with hd1 | hd1
          · rw [hd1, hu] at hu1
            cases hu1
          · exact Or.inr ⟨d1, hd1, u, hu1, he1, hne⟩
    | some donor =>
      by_cases hemail : donor.email = ""
      · simp only [hemail, ne_eq, not_true_eq_false, if_false]
        obtain ⟨h1, h2, h3⟩ := ih m0 hnd hem
        refine ⟨h1, h2, fun addr => ?_⟩
        rw [h3 addr]
        constructor
        · rintro (h | ⟨d1, hd1, u, hu1, he1, hne⟩)
          · exact Or.inl h
          · exact Or.inr ⟨d1, List.mem_cons_of_mem _ hd1, u, hu1, he1, hne⟩
        · rintro (h | ⟨d1, hd1, u, hu1, he1, hne⟩)
          · exact Or.inl h
          · rcases List.mem_cons.mp hd1 with hd1 | hd1
            · rw [hd1, hu] at hu1
              have hu1 := Option.some.inj hu1
              rw [← hu1, hemail] at he1
              exact absurd he1.symm hne
            · exact Or.inr ⟨d1, hd1, u, hu1, he1, hne⟩
      · simp only [ne_eq, hemail, not_false_eq_true, if_true]
        have hkeys := mapSet_keys m0 donor.email donor
        have hnd1 : ((mapSet m0 donor.email donor).map Prod.fst).Nodup := by
          rw [hkeys]
          split
          · exact hnd
          · next hnot =>
            exact List.Nodup.append hnd (List.nodup_singleton _)
              (by simpa [List.disjoint_singleton] using hnot)
        have hem1 := mapSet_email m0 donor.email donor hem rfl
        obtain ⟨h1, h2, h3⟩ := ih (mapSet m0 donor.email donor) hnd1 hem1
        refine ⟨h1, h2, fun addr => ?_⟩
        rw [h3 addr]
        have hmem : addr ∈ (mapSet m0 donor.email donor).map Prod.fst ↔
            addr ∈ m0.map Prod.fst ∨ addr = donor.email := by
          rw [hkeys]
          split
          · next hin =>
            constructor
            · exact fun h => Or.inl h
            · rintro (h | h)
              · exact h
              · rw [h]
                exact hin
          · simp
        rw [hmem]
        constructor
        · rintro ((h | h) | ⟨d1, hd1, u, hu1, he1, hne⟩)
          · exact Or.inl h
          · exact Or.inr ⟨d, List.mem_cons_self _ _, donor, hu, h.symm, by rw [h]; exact hemail⟩
          · exact Or.inr ⟨d1, List.mem_cons_of_mem _ hd1, u, hu1, he1, hne⟩
        · rintro (h | ⟨d1, hd1, u, hu1, he1, hne⟩)
          · exact Or.inl (Or.inl h)
          · rcases List.mem_cons.mp hd1 with hd1 | hd1
            · rw [hd1, hu] at hu1
              have hu1 := Option.some.inj hu1
              rw [← hu1] at he1
              exact Or.inl (Or.inr he1.symm)
            · exact Or.inr ⟨d1, hd1, u, hu1, he1, hne⟩

/-- The map of donors of a campaign: distinct addresses, each the email of its
entry, and exactly the non-empty emails of the stored donors of the donations of
the campaign. -/
theorem uniqueDonors_spec (db : Db) (campaignId : ObjectId) :
    ((uniqueDonors db campaignId).map fun e => e.2.email).Nodup ∧
      ∀ addr, addr ∈ ((uniqueDonors db campaignId).map fun e => e.2.email) ↔
        ∃ d ∈ db.donations, d.campaign = campaignId ∧
          ∃ u, db.users d.donor = some u ∧ u.email = addr ∧ addr ≠ "" := by
  obtain ⟨h1, h2, h3⟩ := collectDonors_spec db
    (db.donations.reverse.filter fun d => decide (d.campaign = campaignId)) [] (by simp)
    (by simp)
  have hmap : ((uniqueDonors db campaignId).map fun e => e.2.email) =
      (uniqueDonors db campaignId).map Prod.fst := by
    apply List.map_congr_left
    intro e he
    exact h2 e he
  rw [hmap]
  refine ⟨h1, fun addr => ?_⟩
  unfold uniqueDonors
  rw [h3 addr]
  constructor
  · rintro (h | ⟨d, hd, u, hu, he, hne⟩)
    · simp at h
    · rw [List.mem_filter, List.mem_reverse] at hd
      exact ⟨d, hd.1, by simpa using hd.2, u, hu, he, hne⟩
  · rintro ⟨d, hd, hcamp, u, hu, he, hne⟩
    refine Or.inr ⟨d, ?_, u, hu, he, hne⟩
    rw [List.mem_filter, List.mem_reverse]
    exact ⟨hd, by simpa using hcamp⟩

/-- Every per-donor task fulfils, so every message is counted as sent and none
as failed. -/
theorem countSettled_donorTask (transporter : Transport) (mails : List MailOptions) :
    countSettled (mails.map (donorTask transporter)) =
      { success := true, sent := some mails.length, failed := some 0 } := by
  have hall : ∀ mail, donorTask transporter mail = Settled.fulfilled := by
    intro mail
    unfold donorTask
    split <;> rfl
  have hmap : mails.map (donorTask transporter) = mails.map fun _ => Settled.fulfilled := by
    apply List.map_congr_left
    intro mail _
    exact hall mail
  rw [hmap]
  unfold countSettled
  have h1 : ((mails.map fun _ => Settled.fulfilled).filter
      fun r => decide (r = Settled.fulfilled)).length = mails.length := by
    rw [List.filter_eq_self.mpr]
    · simp
    · intro r hr
      obtain ⟨_, _, rfl⟩ := List.mem_map.mp hr
      simp
  have h2 : ((mails.map fun _ => Settled.fulfilled).filter
      fun r => decide (r = Settled.rejected)).length = 0 := by
    rw [List.filter_eq_nil_iff.mpr]
    · rfl
    · intro r hr
      obtain ⟨_, _, rfl⟩ := List.mem_map.mp hr
      simp
  rw [h1, h2]

theorem donorAddresses_mem (db : Db) (campaignId : ObjectId) (addr : String) :
    addr ∈ donorAddresses db campaignId ↔
      ∃ d ∈ db.donations, d.campaign = campaignId ∧
        ∃ u, db.users d.donor = some u ∧ u.email = addr ∧ addr ≠ "" := by
  unfold donorAddresses
  rw [List.mem_dedup, List.mem_filterMap]
  constructor
  · rintro ⟨d, hd, hsome⟩
    rw [List.mem_filter] at hd
    refine ⟨d, hd.1, by simpa using hd.2, ?_⟩
    cases hu : db.users d.donor with
    | none => simp [hu] at hsome
    | some u =>
      simp only [hu] at hsome
      by_cases he : u.email = ""
      · simp [he] at hsome
      · simp only [ne_eq, he, not_false_eq_true, if_true, Option.some.injEq] at hsome
        exact ⟨u, rfl, hsome, by rw [← hsome]; exact he⟩
  · rintro ⟨d, hd, hcamp, u, hu, he, hne⟩
    refine ⟨d, ?_, ?_⟩
    · rw [List.mem_filter]
      exact ⟨hd, by simpa using hcamp⟩
    · have hne2 : u.email ≠ "" := by rw [he]; exact hne
      simp [hu, hne, he]

/-- The donors that are written to are as many as the distinct donor
addresses. -/
theorem uniqueDonors_length (db : Db) (campaignId : ObjectId) :
    (uniqueDonors db campaignId).length = (donorAddresses db campaignId).length := by
  obtain ⟨hnd, hmem⟩ := uniqueDonors_spec db campaignId
  have hperm : List.Perm ((uniqueDonors db campaignId).map fun e => e.2.email)
      (donorAddresses db campaignId) := by
    have hnd2 : (donorAddresses db campaignId).Nodup := by
      unfold donorAddresses
      exact List.nodup_dedup _
    rw [List.perm_ext_iff_of_nodup hnd hnd2]
    intro addr
    rw [hmem addr, donorAddresses_mem]
  have hlen := hperm.length_eq
  rw [List.length_map] at hlen
  exact hlen

theorem sendCampaignUpdate_ok (transporter : Transport) (db : Db) (campaignId : ObjectId)
    (updateMessage : String) (c : Campaign) (hc : db.campaigns campaignId = some c) :
    sendCampaignUpdate (Except.ok transporter) db campaignId updateMessage =
      ({ success := true, sent := some (uniqueDonors db campaignId).length, failed := some 0 },
        (uniqueDonors db campaignId).map fun e =>
          { recipient := e.2.email
            subject := "Update on " ++ c.title ++ " - Campaign You Supported" }) := by
  unfold sendCampaignUpdate
  simp only [hc]
  rw [countSettled_donorTask, List.length_map]

theorem sendMilestoneNotification_ok (transporter : Transport) (db : Db)
    (campaignId : ObjectId) (milestone : Nat) (c : Campaign)
    (hc : db.campaigns campaignId = some c) (hn : 1 ≤ (uniqueDonors db campaignId).length) :
    sendMilestoneNotification (Except.ok transporter) db campaignId milestone =
      ({ success := true, sent := some (uniqueDonors db campaignId).length, failed := some 0 },
        (uniqueDonors db campaignId).map fun e =>
          { recipient := e.2.email
            subject := "🎉 " ++ c.title ++ " reached " ++ toString milestone ++
              "% funding!" }) := by
  unfold sendMilestoneNotification
  have h0 : ¬ (uniqueDonors db campaignId).length = 0 := by omega
  simp only [hc, h0, if_false]
  rw [countSettled_donorTask, List.length_map]

theorem sendMilestoneNotification_none (createTransporter : Except String Transport) (db : Db)
    (campaignId : ObjectId) (milestone : Nat) (c : Campaign)
    (hc : db.campaigns campaignId = some c) (hn : (uniqueDonors db campaignId).length = 0) :
    sendMilestoneNotification createTransporter db campaignId milestone =
      ({ success := true, sent := some 0 }, []) := by
  unfold sendMilestoneNotification
  simp only [hc, hn, if_true]

theorem demoDonors_uniqueDonors :
    uniqueDonors demoDonors demoCampaignId =
      [("asha@example.org", { name := "Asha", email := "asha@example.org" }),
       ("bela@example.org", { name := "Bela", email := "bela@example.org" })] := by
  decide

/-! ## The claims on the email service -/

/-- C29: when the campaign exists and the transport is constructed,
`sendCampaignUpdate` resolves with success, `sent` equal to the number n of
distinct donor email addresses and `failed` equal to 0, whatever the transport
does with each message; `sendMilestoneNotification` resolves with the same value
when n is at least 1. -/
theorem sendCampaignUpdate_counts (transporter : Transport) (db : Db) (campaignId : ObjectId)
    (updateMessage : String) (milestone : Nat) (c : Campaign)
    (hc : db.campaigns campaignId = some c) :
    (sendCampaignUpdate (Except.ok transporter) db campaignId updateMessage).1 =
        { success := true, sent := some (donorAddresses db campaignId).length
          failed := some 0 } ∧
      (1 ≤ (donorAddresses db campaignId).length →
        (sendMilestoneNotification (Except.ok transporter) db campaignId milestone).1 =
          { success := true, sent := some (donorAddresses db campaignId).length
            failed := some 0 }) := by
  constructor
  · rw [sendCampaignUpdate_ok transporter db campaignId updateMessage c hc,
      uniqueDonors_length]
  · intro hn
    rw [← uniqueDonors_length] at hn ⊢
    rw [sendMilestoneNotification_ok transporter db campaignId milestone c hc hn]

/-- C29, at the campaign of the examples with its two addressable donors, over a
transport whose sends to one of them throw. -/
theorem sendCampaignUpdate_counts_witness :
    (donorAddresses demoDonors demoCampaignId).length = 2 ∧
      flakyTransport.sendMail { recipient := "bela@example.org", subject := "" } =
        Except.error "Mailbox unavailable" ∧
      (sendCampaignUpdate (Except.ok flakyTransport) demoDonors demoCampaignId "News").1 =
        { success := true, sent := some (donorAddresses demoDonors demoCampaignId).length
          failed := some 0 } ∧
      (1 ≤ (donorAddresses demoDonors demoCampaignId).length →
        (sendMilestoneNotification (Except.ok flakyTransport) demoDonors demoCampaignId 50).1 =
          { success := true, sent := some (donorAddresses demoDonors demoCampaignId).length
            failed := some 0 }) :=
  ⟨by decide, rfl,
    sendCampaignUpdate_counts flakyTransport demoDonors demoCampaignId "News" 50
      { title := "Village well", goalAmount := 1000, currentAmount := 150, status := "active"
        deadline := 2000 } rfl⟩

/-- C25, at the failing input: with the nodemailer library as it is, the call
`createTransporter()` throws, and for the campaign of the examples, which has two
distinct donor addresses, `sendCampaignUpdate` and `sendMilestoneNotification`
resolve with a failure and hand no message to a transport. -/
theorem notifications_shipped_send_nothing :
    donorAddresses demoDonors demoCampaignId = ["bela@example.org", "asha@example.org"] ∧
      createTransporter nodemailer =
        Except.error "nodemailer.createTransporter is not a function" ∧
      sendCampaignUpdate (createTransporter nodemailer) demoDonors demoCampaignId "News" =
        ({ success := false, error := some "nodemailer.createTransporter is not a function" },
          []) ∧
      sendMilestoneNotification (createTransporter nodemailer) demoDonors demoCampaignId 50 =
        ({ success := false, error := some "nodemailer.createTransporter is not a function" },
          []) := by
  have hc : demoDonors.campaigns demoCampaignId =
      some { title := "Village well", goalAmount := 1000, currentAmount := 150
             status := "active", deadline := 2000 } := rfl
  have ht : createTransporter nodemailer =
      Except.error "nodemailer.createTransporter is not a function" := rfl
  refine ⟨by decide, ht, ?_, ?_⟩
  · unfold sendCampaignUpdate
    simp only [hc, ht]
  · unfold sendMilestoneNotification
    have hn : ¬ (uniqueDonors demoDonors demoCampaignId).length = 0 := by
      rw [demoDonors_uniqueDonors]
      decide
    simp only [hc, hn, if_false, ht]

/-- What the two functions do once a transport is at hand: when the campaign
exists and the transport is constructed, the recipients of the messages that `sendCampaignUpdate` and
`sendMilestoneNotification` hand to the transport are, up to order, the distinct
donor email addresses of the campaign, each once: an address is written to
exactly when some donation of the campaign has a stored donor with that
non-empty email. With no such address and an existing campaign,
`sendMilestoneNotification` returns success with `sent` 0 and hands over
nothing, whatever the transport. -/
theorem notifications_one_per_address (transporter : Transport) (db : Db)
    (campaignId : ObjectId) (updateMessage : String) (milestone : Nat) (c : Campaign)
    (hc : db.campaigns campaignId = some c) :
    List.Perm
        ((sendCampaignUpdate (Except.ok transporter) db campaignId updateMessage).2.map
          MailOptions.recipient)
        (donorAddresses db campaignId) ∧
      List.Perm
        ((sendMilestoneNotification (Except.ok transporter) db campaignId milestone).2.map
          MailOptions.recipient)
        (donorAddresses db campaignId) ∧
      (donorAddresses db campaignId).Nodup ∧
      (∀ addr, addr ∈ donorAddresses db campaignId ↔
        ∃ d ∈ db.donations, d.campaign = campaignId ∧
          ∃ u, db.users d.donor = some u ∧ u.email = addr ∧ addr ≠ "") ∧
      (donorAddresses db campaignId = [] →
        ∀ createTransporter : Except String Transport,
          sendMilestoneNotification createTransporter db campaignId milestone =
            ({ success := true, sent := some 0 }, [])) := by
  obtain ⟨hnd, hmem⟩ := uniqueDonors_spec db campaignId
  have hnd2 : (donorAddresses db campaignId).Nodup := by
    unfold donorAddresses
    exact List.nodup_dedup _
  have hperm : List.Perm ((uniqueDonors db campaignId).map fun e => e.2.email)
      (donorAddresses db campaignId) := by
    rw [List.perm_ext_iff_of_nodup hnd hnd2]
    intro addr
    rw [hmem addr, donorAddresses_mem]
  refine ⟨?_, ?_, hnd2, donorAddresses_mem db campaignId, ?_⟩
  · rw [sendCampaignUpdate_ok transporter db campaignId updateMessage c hc, List.map_map]
    exact hperm
  · by_cases hn : (uniqueDonors db campaignId).length = 0
    · rw [sendMilestoneNotification_none (Except.ok transporter) db campaignId milestone c hc hn]
      have hnil : uniqueDonors db campaignId = [] := List.length_eq_zero.mp hn
      rw [hnil] at hperm
      exact hperm
    · rw [sendMilestoneNotification_ok transporter db campaignId milestone c hc (by omega),
        List.map_map]
      exact hperm
  · intro hnil createTransporter
    apply sendMilestoneNotification_none createTransporter db campaignId milestone c hc
    rw [uniqueDonors_length, hnil]
    rfl

/-- With a transport at hand, at the campaign of the examples: of its five
donations, two by the same donor, one by a donor without email and one by a
donor that is gone, two addresses are written to. -/
theorem notifications_one_per_address_example :
    donorAddresses demoDonors demoCampaignId = ["bela@example.org", "asha@example.org"] ∧
      (sendCampaignUpdate (Except.ok flakyTransport) demoDonors demoCampaignId "News").2.map
          MailOptions.recipient =
        ["asha@example.org", "bela@example.org"] ∧
      List.Perm
        ((sendMilestoneNotification (Except.ok flakyTransport) demoDonors demoCampaignId
          50).2.map MailOptions.recipient)
        (donorAddresses demoDonors demoCampaignId) := by
  refine ⟨by decide, ?_,
    (notifications_one_per_address flakyTransport demoDonors demoCampaignId "News" 50
      { title := "Village well", goalAmount := 1000, currentAmount := 150, status := "active"
        deadline := 2000 } rfl).2.1⟩
  rw [sendCampaignUpdate_ok flakyTransport demoDonors demoCampaignId "News"
      { title := "Village well", goalAmount := 1000, currentAmount := 150, status := "active"
        deadline := 2000 } rfl, demoDonors_uniqueDonors]
  rfl

/-! ## Lemmas on the donations of a campaign -/

theorem filteredDonations_drop (l : List DonationEntry) (n : Nat) :
    filteredDonations (l.drop n) = (filteredDonations l).drop n := by
  unfold filteredDonations
  rw [List.map_drop]

theorem filteredDonations_take (l : List DonationEntry) (n : Nat) :
    filteredDonations (l.take n) = (filteredDonations l).take n := by
  unfold filteredDonations
  rw [List.map_take]

theorem filteredDonations_reverse (l : List DonationEntry) :
    filteredDonations l.reverse = (filteredDonations l).reverse := by
  unfold filteredDonations
  rw [List.map_reverse]

theorem filteredDonations_cons (e : DonationEntry) (l : List DonationEntry) :
    filteredDonations (e :: l) = filteredDonations [e] ++ filteredDonations l := by
  unfold filteredDonations
  rfl

/-- One donation, populated and filtered, shows the same entry in two runs that
differ only in the donor of an anonymous donation. -/
theorem filteredDonations_populate (db1 db2 : Db) (d1 d2 : Donation)
    (hu : db1.users = db2.users) (h : SameButAnonymousDonor d1 d2) :
    filteredDonations [populateDonor db1 d1] = filteredDonations [populateDonor db2 d2] := by
  obtain ⟨h1, h2, h3, h4, h5, h6, h7, h8, h9, h10⟩ := h
  unfold filteredDonations populateDonor
  simp only [List.map_cons, List.map_nil]
  cases ha : d1.isAnonymous with
  | true =>
    have ha2 : d2.isAnonymous = true := by rw [← h5]; exact ha
    simp only [ha2, if_true, h1, h2, h3, h4, h6, h7, h8, h9]
  | false =>
    have ha2 : d2.isAnonymous = false := by rw [← h5]; exact ha
    have hd : d1.donor = d2.donor := h10 ha
    simp [ha2, h1, h2, h3, h4, h6, h7, h8, h9, hd, hu]

theorem filteredDonations_found (db1 db2 : Db) (p : Donation → Bool)
    (hp : ∀ d1 d2, SameButAnonymousDonor d1 d2 → p d1 = p d2)
    (hu : db1.users = db2.users) (l1 l2 : List Donation)
    (h : List.Forall₂ SameButAnonymousDonor l1 l2) :
    filteredDonations ((l1.filter p).map (populateDonor db1)) =
      filteredDonations ((l2.filter p).map (populateDonor db2)) ∧
    (l1.filter p).length = (l2.filter p).length := by
  induction h with
  | nil => exact ⟨rfl, rfl⟩
  | @cons a b l1 l2 hd _ ih =>
    have hpab := hp a b hd
    cases hb : p b with
    | true =>
      have hpa : p a = true := by rw [hpab]; exact hb
      rw [List.filter_cons_of_pos hpa, List.filter_cons_of_pos hb, List.map_cons,
        List.map_cons, filteredDonations_cons, filteredDonations_cons (populateDonor db2 b),
        filteredDonations_populate db1 db2 a b hu hd, ih.1, List.length_cons, List.length_cons,
        ih.2]
      exact ⟨rfl, rfl⟩
    | false =>
      have hpa : ¬ p a = true := by rw [hpab, hb]; simp
      have hb2 : ¬ p b = true := by rw [hb]; simp
      rw [List.filter_cons_of_neg hpa, List.filter_cons_of_neg hb2]
      exact ih

theorem filteredDonations_stored (db : Db) (campaignId : ObjectId) (skip limit : Nat) :
    filteredDonations (storedCampaignDonations db campaignId skip limit) =
      if limit = 0 then
        ((filteredDonations ((db.donations.filter fun d =>
          decide (d.campaign = campaignId) && decide (d.paymentStatus = "succeeded")).map
            (populateDonor db))).reverse).drop skip
      else
        (((filteredDonations ((db.donations.filter fun d =>
          decide (d.campaign = campaignId) && decide (d.paymentStatus = "succeeded")).map
            (populateDonor db))).reverse).drop skip).take limit := by
  unfold storedCampaignDonations
  simp only
  split
  · rw [filteredDonations_drop, List.map_reverse, filteredDonations_reverse]
  · rw [filteredDonations_take, filteredDonations_drop, List.map_reverse,
      filteredDonations_reverse]

/-! ## The claim on anonymous donations -/

/-- C23: the donations in the response of GET /donations/campaign/:campaignId
are `filteredDonations` of the list the store returned: as many entries, in the
same order, an anonymous entry with its donor replaced by the placeholder
named Anonymous with an empty picture, every other entry as it was. Hence two
lists that agree but for the donors of anonymous entries give the same list,
and two runs that differ only in who the donors of the anonymous donations are
give the same response. -/
theorem filteredDonations_hides_anonymous (donations : List DonationEntry) (db db2 : Db)
    (campaignId : ObjectId) (page limit : Nat) :
    (filteredDonations donations).length = donations.length ∧
      (∀ (i : Nat) (e : DonationEntry), donations[i]? = some e →
        (filteredDonations donations)[i]? =
          some (if e.isAnonymous = true then
            { e with donor := some { _id := none, name := "Anonymous", profilePicture := "" } }
          else e)) ∧
      (¬ (page = 0 ∧ 0 < limit) →
        (getCampaignDonations db campaignId page limit).status = 200 ∧
        (getCampaignDonations db campaignId page limit).donations =
          filteredDonations
            (storedCampaignDonations db campaignId ((page - 1) * limit) limit)) ∧
      (∀ others : List DonationEntry,
        List.Forall₂
          (fun e1 e2 => e1 = e2 ∨ (e1.isAnonymous = true ∧ e2 = { e1 with donor := e2.donor }))
          donations others →
        filteredDonations donations = filteredDonations others) ∧
      (DifferOnlyInAnonymousDonors db db2 →
        getCampaignDonations db campaignId page limit =
          getCampaignDonations db2 campaignId page limit) := by
  refine ⟨?_, ?_, ?_, ?_, ?_⟩
  · unfold filteredDonations
    rw [List.length_map]
  · intro i e he
    unfold filteredDonations
    rw [List.getElem?_map, he]
    rfl
  · intro hpage
    unfold getCampaignDonations
    rw [if_neg hpage]
    exact ⟨rfl, rfl⟩
  · intro others h
    induction h with
    | nil => rfl
    | @cons a b l1 l2 hd _ ih =>
      rw [filteredDonations_cons, filteredDonations_cons b, ih]
      congr 1
      rcases hd with hd | ⟨ha, hb⟩
      · rw [hd]
      · rw [hb]
        unfold filteredDonations
        simp [ha]
  · rintro ⟨hu, hd⟩
    have hfound := filteredDonations_found db db2
      (fun d => decide (d.campaign = campaignId) && decide (d.paymentStatus = "succeeded"))
      (by
        intro d1 d2 h
        obtain ⟨_, h2, _, _, _, _, h7, _⟩ := h
        show (decide (d1.campaign = campaignId) && decide (d1.paymentStatus = "succeeded")) =
          (decide (d2.campaign = campaignId) && decide (d2.paymentStatus = "succeeded"))
        rw [h2, h7])
      hu db.donations db2.donations hd
    unfold getCampaignDonations
    split
    · rfl
    · simp only
      rw [filteredDonations_stored, filteredDonations_stored, hfound.1, hfound.2]

/-! ## Lemmas on create-order -/

theorem createOrderErrors_nil_amount {b : CreateOrderBody}
    (h : createOrderErrors b = []) : ∃ a, b.amount = some a := by
  unfold createOrderErrors at h
  simp only [List.append_eq_nil] at h
  obtain ⟨⟨_, h2⟩, _⟩ := h
  cases ha : b.amount with
  | none => simp [ha] at h2
  | some a => exact ⟨a, rfl⟩

theorem createOrder_missing (env : Env) (gw : GatewayEnv) (db : Db) (userId : ObjectId)
    (b : CreateOrderBody) (hv : createOrderErrors b = [])
    (hc : db.campaigns b.campaignId = none) :
    createOrder env gw db userId b =
      { response := { status := 404, message := "Campaign not found" }, order := none
        requested := [] } := by
  obtain ⟨a, ha⟩ := createOrderErrors_nil_amount hv
  unfold createOrder
  simp only [hv, ne_eq, not_true_eq_false, if_false, ha, hc]

theorem createOrder_closed (env : Env) (gw : GatewayEnv) (db : Db) (userId : ObjectId)
    (b : CreateOrderBody) (c : Campaign) (hv : createOrderErrors b = [])
    (hc : db.campaigns b.campaignId = some c)
    (hs : ["active", "pending"].contains c.status = false) :
    createOrder env gw db userId b =
      { response := { status := 400, message := "Campaign is not accepting donations" }
        order := none, requested := [] } := by
  obtain ⟨a, ha⟩ := createOrderErrors_nil_amount hv
  unfold createOrder
  simp only [hv, ne_eq, not_true_eq_false, if_false, ha, hc, hs, Bool.not_false, if_true]

theorem createOrder_late (env : Env) (gw : GatewayEnv) (db : Db) (userId : ObjectId)
    (b : CreateOrderBody) (c : Campaign) (hv : createOrderErrors b = [])
    (hc : db.campaigns b.campaignId = some c)
    (hs : ["active", "pending"].contains c.status = true) (hd : env.now > c.deadline) :
    createOrder env gw db userId b =
      { response := { status := 400, message := "Campaign deadline has passed" }
        order := none, requested := [] } := by
  obtain ⟨a, ha⟩ := createOrderErrors_nil_amount hv
  unfold createOrder
  simp only [hv, ne_eq, not_true_eq_false, if_false, ha, hc, hs, Bool.not_true, hd, if_true]
  rfl

theorem createOrder_invalid (env : Env) (gw : GatewayEnv) (db : Db) (userId : ObjectId)
    (b : CreateOrderBody) (hv : createOrderErrors b ≠ []) :
    createOrder env gw db userId b =
      { response := { status := 400, message := "Validation errors" }, order := none
        requested := [] } := by
  unfold createOrder
  rw [if_pos hv]

theorem contains_active_pending (status : String) :
    ["active", "pending"].contains status = true ↔ status = "active" ∨ status = "pending" := by
  simp only [List.contains, List.elem_iff, List.mem_cons, List.mem_singleton, List.not_mem_nil,
    or_false]

/-- The run of create-order that reaches the gateway and gets an order. -/
theorem createOrder_ok (env : Env) (gw : GatewayEnv) (db : Db) (userId : ObjectId)
    (b : CreateOrderBody) (a : ℚ) (c : Campaign) (keyId : String)
    (create : OrderOptions → Except RazorpayError Order) (order : Order)
    (hv : createOrderErrors b = []) (ha : b.amount = some a)
    (hc : db.campaigns b.campaignId = some c)
    (hs : ["active", "pending"].contains c.status = true) (hd : ¬ env.now > c.deadline)
    (hk : gw.RAZORPAY_KEY_ID = some keyId) (hk1 : truthy (some keyId) = true)
    (hk2 : truthy env.RAZORPAY_KEY_SECRET = true)
    (hp1 : keyId ≠ "rzp_test_your_key_id_here")
    (hp2 : env.RAZORPAY_KEY_SECRET ≠ some "your_razorpay_secret_key_here")
    (hg : gw.razorpay = some create)
    (ho : create
      { amount := paise a
        currency := "INR"
        receipt := "don_" ++ lastChars 8 (toString env.now) ++ "_" ++ lastChars 8 b.campaignId
        campaignId := b.campaignId
        userId := userId
        isAnonymous := b.isAnonymous.jsToString } = Except.ok order) :
    createOrder env gw db userId b =
      { response := { status := 200, message := "" }
        order := some
          { orderId := order.id, amount := order.amount, currency := order.currency
            keyId := keyId }
        requested :=
          [{ amount := paise a
             currency := "INR"
             receipt := "don_" ++ lastChars 8 (toString env.now) ++ "_" ++
               lastChars 8 b.campaignId
             campaignId := b.campaignId
             userId := userId
             isAnonymous := b.isAnonymous.jsToString }] } := by
  unfold createOrder
  have hp : ¬ (gw.RAZORPAY_KEY_ID = some "rzp_test_your_key_id_here" ∨
      env.RAZORPAY_KEY_SECRET = some "your_razorpay_secret_key_here") := by
    rw [hk]
    rintro (h | h)
    · exact hp1 (Option.some.inj h)
    · exact hp2 h
  simp only [hv, ne_eq, not_true_eq_false, if_false, ha, hc, hs, Bool.not_true, hd, hp, hg, ho]
  simp only [hk, hk1, hk2, Bool.not_true, Bool.or_self, Bool.false_eq_true, if_false,
    Option.getD_some]

/-! ## The claim on create-order -/

/-- The amount of 150 in paise. -/
theorem paise_150 : paise 150 = JsRounded.finite 15000 := by
  unfold paise
  rw [toDouble_150]
  simp only [JsNumber.mul]
  have hx : (150 * 100 : ℚ) = 15000 := by norm_num
  rw [hx, toDouble_eval 15000 15000 (13) 8246337208320000
      (by norm_num) (roundHalfEven_eq _ 8246337208320000 (by norm_num) (by norm_num))]
  simp only [JsNumber.round]
  have hr : mathRound 15000 = 15000 := by
    unfold mathRound
    norm_num
  rw [hr]

theorem demoOrdersCreate_ok (o : OrderOptions) (n : ℤ) (h : o.amount = JsRounded.finite n) :
    demoOrdersCreate o = Except.ok { id := "order_9", amount := n, currency := o.currency } := by
  unfold demoOrdersCreate
  simp only [h]

/-- C24, at the failing input: a valid request for a campaign whose status is
"pending", with its deadline ahead and the gateway configured, is answered 200
with an order, and one order was requested from the gateway. -/
theorem createOrder_pending_gets_order :
    demoUnverifiedDb.campaigns demoOrderBody.campaignId = some demoUnverified ∧
      demoUnverified.status = "pending" ∧
      createOrderErrors demoOrderBody = [] ∧
      (createOrder demoEnv demoGateway demoUnverifiedDb demoUserId demoOrderBody).response.status =
        200 ∧
      (createOrder demoEnv demoGateway demoUnverifiedDb demoUserId demoOrderBody).order =
        some { orderId := "order_9", amount := 15000, currency := "INR"
               keyId := "rzp_test_abc" } ∧
      (createOrder demoEnv demoGateway demoUnverifiedDb demoUserId demoOrderBody).requested.length =
        1 := by
  have hc : demoUnverifiedDb.campaigns demoOrderBody.campaignId = some demoUnverified := rfl
  have hv : createOrderErrors demoOrderBody = [] := by decide
  have hrun := createOrder_ok demoEnv demoGateway demoUnverifiedDb demoUserId demoOrderBody 150
    demoUnverified "rzp_test_abc" demoOrdersCreate
    { id := "order_9", amount := 15000, currency := "INR" } hv rfl hc (by decide)
    (by decide) rfl (by decide) (by decide) (by decide) (by decide) rfl
    (demoOrdersCreate_ok _ 15000 paise_150)
  rw [hrun]
  exact ⟨hc, rfl, hv, rfl, rfl, rfl⟩

/-- What the handler of create-order does check: on a request that passes
validation it answers 404 with no order when the campaign id names no campaign,
and 400 "Campaign is not accepting donations" with no order when the status of
the campaign is neither "active" nor "pending"; and whenever an order is
returned or requested from the gateway, on any request, the campaign exists, its
status is "active" or "pending" and its deadline has not passed. -/
theorem createOrder_campaign_gate (env : Env) (gw : GatewayEnv) (db : Db) (userId : ObjectId)
    (b : CreateOrderBody) (hv : createOrderErrors b = []) :
    (db.campaigns b.campaignId = none →
      createOrder env gw db userId b =
        { response := { status := 404, message := "Campaign not found" }, order := none
          requested := [] }) ∧
    (∀ c, db.campaigns b.campaignId = some c → c.status ≠ "active" → c.status ≠ "pending" →
      createOrder env gw db userId b =
        { response := { status := 400, message := "Campaign is not accepting donations" }
          order := none, requested := [] }) ∧
    ((createOrder env gw db userId b).order ≠ none ∨
        (createOrder env gw db userId b).requested ≠ [] →
      ∃ c, db.campaigns b.campaignId = some c ∧ (c.status = "active" ∨ c.status = "pending") ∧
        ¬ env.now > c.deadline) := by
  refine ⟨createOrder_missing env gw db userId b hv, ?_, ?_⟩
  · intro c hc h1 h2
    apply createOrder_closed env gw db userId b c hv hc
    cases hs : ["active", "pending"].contains c.status with
    | false => rfl
    | true =>
      rcases (contains_active_pending c.status).mp hs with h | h
      · exact absurd h h1
      · exact absurd h h2
  · intro hmade
    cases hc : db.campaigns b.campaignId with
    | none =>
      rw [createOrder_missing env gw db userId b hv hc] at hmade
      simp at hmade
    | some c =>
      cases hs : ["active", "pending"].contains c.status with
      | false =>
        rw [createOrder_closed env gw db userId b c hv hc hs] at hmade
        simp at hmade
      | true =>
        by_cases hd : env.now > c.deadline
        · rw [createOrder_late env gw db userId b c hv hc hs hd] at hmade
          simp at hmade
        · exact ⟨c, rfl, (contains_active_pending c.status).mp hs, hd⟩

/-- The check of create-order at the request of the examples for the campaign
that awaits verification. -/
theorem createOrder_campaign_gate_example :
    createOrderErrors demoOrderBody = [] ∧
      ((createOrder demoEnv demoGateway demoUnverifiedDb demoUserId demoOrderBody).order ≠ none ∨
          (createOrder demoEnv demoGateway demoUnverifiedDb demoUserId
            demoOrderBody).requested ≠ [] →
        ∃ c, demoUnverifiedDb.campaigns demoOrderBody.campaignId = some c ∧
          (c.status = "active" ∨ c.status = "pending") ∧ ¬ demoEnv.now > c.deadline) :=
  ⟨by decide,
    (createOrder_campaign_gate demoEnv demoGateway demoUnverifiedDb demoUserId demoOrderBody
      (by decide)).2.2⟩

/-! ## The claim on the milestone route -/

/-- With a transport at hand, a caller whose role is donor triggers the
notification to both donor addresses of the campaign of the examples. -/
theorem postMilestone_donor_sends :
    demoOther.doc.role = "donor" ∧
      (postMilestone demoTransport demoDonors demoOther
        { campaignId := demoCampaignId, milestone := some 50 }).response.status = 200 ∧
      (postMilestone demoTransport demoDonors demoOther
        { campaignId := demoCampaignId, milestone := some 50 }).response.sent = some 2 ∧
      (postMilestone demoTransport demoDonors demoOther
        { campaignId := demoCampaignId, milestone := some 50 }).mails.map MailOptions.recipient =
        ["asha@example.org", "bela@example.org"] := by
  have hv : milestoneErrors { campaignId := demoCampaignId, milestone := some 50 } = [] := by
    decide
  have hc : demoDonors.campaigns demoCampaignId =
      some { title := "Village well", goalAmount := 1000, currentAmount := 150
             status := "active", deadline := 2000 } := rfl
  have hn : 1 ≤ (uniqueDonors demoDonors demoCampaignId).length := by
    rw [demoDonors_uniqueDonors]
    decide
  have hsend := sendMilestoneNotification_ok
    { sendMail := fun m => Except.ok ("<" ++ m.recipient ++ ">") } demoDonors demoCampaignId 50
    _ hc hn
  have hrun : postMilestone demoTransport demoDonors demoOther
      { campaignId := demoCampaignId, milestone := some 50 } =
      { response :=
          { status := 200
            message := "Milestone notification (" ++ toString 50 ++ "%) sent successfully"
            sent := some 2
            failed := some 0 }
        mails := (uniqueDonors demoDonors demoCampaignId).map fun e =>
          { recipient := e.2.email
            subject := "🎉 " ++ "Village well" ++ " reached " ++ toString 50 ++
              "% funding!" } } := by
    unfold postMilestone
    simp only [hv, ne_eq, not_true_eq_false, if_false, hc, demoTransport, hsend, if_true]
    rw [demoDonors_uniqueDonors]
    rfl
  refine ⟨rfl, ?_, ?_, ?_⟩
  · rw [hrun]
  · rw [hrun]
  · rw [hrun, demoDonors_uniqueDonors]
    rfl

/-- The run of the handler on a valid request for an existing campaign. -/
theorem postMilestone_found (createTransporter : Except String Transport) (db : Db)
    (reqUser : ReqUser) (b : MilestoneBody) (m : Nat) (c : Campaign)
    (hv : milestoneErrors b = []) (hm : b.milestone = some m)
    (hc : db.campaigns b.campaignId = some c) :
    postMilestone createTransporter db reqUser b =
      if (sendMilestoneNotification createTransporter db b.campaignId m).1.success then
        { response :=
            { status := 200
              message := "Milestone notification (" ++ toString m ++ "%) sent successfully"
              sent := (sendMilestoneNotification createTransporter db b.campaignId m).1.sent
              failed := some
                ((sendMilestoneNotification createTransporter db b.campaignId m).1.failed.getD
                  0) }
          mails := (sendMilestoneNotification createTransporter db b.campaignId m).2 }
      else
        { response :=
            { status := 500, message := "Failed to send milestone notification"
              error := (sendMilestoneNotification createTransporter db b.campaignId m).1.error }
          mails := (sendMilestoneNotification createTransporter db b.campaignId m).2 } := by
  unfold postMilestone
  simp only [hv, ne_eq, not_true_eq_false, if_false, hm, hc]

/-- C22, as stated, fails: a caller whose role is donor is not refused. For a
campaign without donors POST /notifications/milestone answers that caller 200
"sent successfully" with sent 0; for the campaign of the examples, which has
donors, the handler runs the notification for that caller as it does for an
admin and both get the same answer, the 500 that follows from the transport that
cannot be constructed. -/
theorem postMilestone_donor_counterexample :
    demoOther.doc.role = "donor" ∧
      (postMilestone (createTransporter nodemailer) demoUnverifiedDb demoOther
        { campaignId := demoCampaignId, milestone := some 50 }).response =
        { status := 200, message := "Milestone notification (50%) sent successfully"
          sent := some 0, failed := some 0 } ∧
      (postMilestone (createTransporter nodemailer) demoDonors demoOther
        { campaignId := demoCampaignId, milestone := some 50 }).response.status = 500 ∧
      postMilestone (createTransporter nodemailer) demoDonors demoOther
          { campaignId := demoCampaignId, milestone := some 50 } =
        postMilestone (createTransporter nodemailer) demoDonors demoAdmin
          { campaignId := demoCampaignId, milestone := some 50 } := by
  have hv : milestoneErrors { campaignId := demoCampaignId, milestone := some 50 } = [] := by
    decide
  refine ⟨rfl, ?_, ?_, rfl⟩
  · have hc : demoUnverifiedDb.campaigns demoCampaignId = some demoUnverified := rfl
    have hnone : sendMilestoneNotification (createTransporter nodemailer) demoUnverifiedDb
        demoCampaignId 50 = ({ success := true, sent := some 0 }, []) :=
      sendMilestoneNotification_none _ _ _ _ demoUnverified hc rfl
    rw [postMilestone_found (createTransporter nodemailer) demoUnverifiedDb demoOther
      { campaignId := demoCampaignId, milestone := some 50 } 50 demoUnverified hv rfl hc]
    simp only [hnone, if_true, Option.getD_none]
    decide
  · have hc : demoDonors.campaigns demoCampaignId =
        some { title := "Village well", goalAmount := 1000, currentAmount := 150
               status := "active", deadline := 2000 } := rfl
    have hn : ¬ (uniqueDonors demoDonors demoCampaignId).length = 0 := by
      rw [demoDonors_uniqueDonors]
      decide
    have hfail : sendMilestoneNotification (createTransporter nodemailer) demoDonors
        demoCampaignId 50 =
        ({ success := false, error := some "nodemailer.createTransporter is not a function" },
          []) := by
      have ht : createTransporter nodemailer =
          Except.error "nodemailer.createTransporter is not a function" := rfl
      unfold sendMilestoneNotification
      simp only [hc, hn, if_false, ht]
    rw [postMilestone_found (createTransporter nodemailer) demoDonors demoOther
      { campaignId := demoCampaignId, milestone := some 50 } 50 _ hv rfl hc]
    simp only [hfail, Bool.false_eq_true, if_false]

/-- C22, amended: POST /notifications/milestone serves every authenticated caller
alike. The handler does not read the caller, so two callers, whatever their
roles, get the same response and cause the same messages; the response is never
a 403; and for a request that passes validation and names an existing campaign
the handler calls `sendMilestoneNotification`, hands on the messages of that
call, and answers 200 when the call reports success and 500 when it reports
failure. -/
theorem postMilestone_ignores_role (createTransporter : Except String Transport) (db : Db)
    (reqUser reqUser2 : ReqUser) (b : MilestoneBody) :
    postMilestone createTransporter db reqUser b =
        postMilestone createTransporter db reqUser2 b ∧
      (postMilestone createTransporter db reqUser b).response.status ≠ 403 ∧
      (milestoneErrors b = [] → ∀ m c, b.milestone = some m →
        db.campaigns b.campaignId = some c →
        (postMilestone createTransporter db reqUser b).mails =
          (sendMilestoneNotification createTransporter db b.campaignId m).2 ∧
        ((sendMilestoneNotification createTransporter db b.campaignId m).1.success = true →
          (postMilestone createTransporter db reqUser b).response.status = 200) ∧
        ((sendMilestoneNotification createTransporter db b.campaignId m).1.success = false →
          (postMilestone createTransporter db reqUser b).response.status = 500)) := by
  refine ⟨rfl, ?_, ?_⟩
  · unfold postMilestone
    split
    · decide
    · split
      · decide
      · split
        · decide
        · simp only
          split
          · show (200 : Nat) ≠ 403
            decide
          · show (500 : Nat) ≠ 403
            decide
  · intro hv m c hm hc
    rw [postMilestone_found createTransporter db reqUser b m c hv hm hc]
    refine ⟨?_, ?_, ?_⟩
    · split <;> rfl
    · intro hs
      rw [if_pos hs]
    · intro hs
      rw [if_neg (by rw [hs]; decide)]

/-! ## Lemmas on the route tables -/

theorem allRoutes_mutating_protect (r : Route) (hr : r ∈ allRoutes)
    (hm : isMutating r = true) : ∃ rest, r.guards = Guard.protect :: rest := by
  have hall : allRoutes.all
      (fun r => !isMutating r || decide (r.guards.head? = some Guard.protect)) = true := by
    decide
  have h := List.all_eq_true.mp hall r hr
  rw [hm] at h
  simp only [Bool.not_true, Bool.false_or, decide_eq_true_eq] at h
  cases hg : r.guards with
  | nil => rw [hg] at h; cases h
  | cons g rest =>
    rw [hg] at h
    simp only [List.head?_cons, Option.some.injEq] at h
    exact ⟨rest, by rw [h]⟩

/-- Where no cookies are parsed, a token that `extractToken` finds is the bearer
token of the Authorization header. -/
theorem bearer_of_valid (env : AuthEnv) (db : Db) (req : Request)
    (hcookie : req.cookieToken = none) (h : HasValidToken env db req) :
    HasValidBearerToken env db req := by
  obtain ⟨token, id, user, ht, hne, hj, hu⟩ := h
  unfold extractToken at ht
  simp only [hcookie, truthy, Bool.false_eq_true, if_false] at ht
  cases ha : req.authorization with
  | none =>
    rw [ha] at ht
    cases ht
  | some authHeader =>
    rw [ha] at ht
    simp only at ht
    split at ht
    · next hpre =>
      have ht2 := Option.some.inj ht
      refine ⟨authHeader, id, user, ha, hpre.2, ?_, ?_, hu⟩
      · rw [ht2]
        exact hne
      · rw [ht2]
        exact hj
    · cases ht

/-- A route that starts with `protect`, asked without a valid token: the answer
is the 401 of the middleware and the handler does not run. -/
theorem serve_unauthorized (env : AuthEnv) (db : Db) (r : Route) (rest : List Guard)
    (handler : Request → Db → Outcome) (req : Request)
    (hg : r.guards = Guard.protect :: rest) (hbad : ¬ HasValidToken env db req) :
    ∃ res, res.status = 401 ∧
      serve env db r handler req = { response := res, db := db, emails := [] } := by
  rcases protect_cases env db req with ⟨res, hres, hstatus⟩ | ⟨token, id, user, ht, hne, hj, hu, _⟩
  · refine ⟨res, hstatus, ?_⟩
    unfold serve
    rw [hg]
    unfold runGuards
    rw [hres]
  · exact absurd ⟨token, id, user, ht, hne, hj, hu⟩ hbad

/-! ## The claim on mutating routes -/

/-- C21: every POST, PUT and DELETE route of the donations, comments,
complaints, admin and notifications routers has `protect` as the first
middleware ahead of its handler; so a request to such a route that carries no
valid token is answered 401, whatever the handler, with the database as it was
and no email sent. Where no cookies are parsed, as under `server.js`, a request
without a valid bearer token is such a request. -/
theorem mutating_routes_protected (env : AuthEnv) (db : Db) (r : Route)
    (handler : Request → Db → Outcome) (req : Request)
    (hr : r ∈ allRoutes) (hm : isMutating r = true) :
    (∃ rest, r.guards = Guard.protect :: rest) ∧
      (¬ HasValidToken env db req →
        (serve env db r handler req).response.status = 401 ∧
        (serve env db r handler req).db = db ∧
        (serve env db r handler req).emails = []) ∧
      (req.cookieToken = none → ¬ HasValidBearerToken env db req →
        (serve env db r handler req).response.status = 401 ∧
        (serve env db r handler req).db = db ∧
        (serve env db r handler req).emails = []) := by
  obtain ⟨rest, hg⟩ := allRoutes_mutating_protect r hr hm
  have hmain : ¬ HasValidToken env db req →
      (serve env db r handler req).response.status = 401 ∧
      (serve env db r handler req).db = db ∧
      (serve env db r handler req).emails = [] := by
    intro hbad
    obtain ⟨res, hstatus, hrun⟩ := serve_unauthorized env db r rest handler req hg hbad
    rw [hrun]
    exact ⟨hstatus, rfl, rfl⟩
  refine ⟨⟨rest, hg⟩, hmain, ?_⟩
  intro hcookie hbearer
  exact hmain fun h => hbearer (bearer_of_valid env db req hcookie h)

/-- C21, at POST /verify-payment with the valid confirmation of the examples and
no Authorization header: the answer is 401 and the donation is not recorded. -/
theorem mutating_routes_protected_witness :
    ({ method := "POST", path := "/verify-payment", guards := [Guard.protect] } : Route) ∈
        allRoutes ∧
      (serve demoAuthEnv (demoDb 900)
        { method := "POST", path := "/verify-payment", guards := [Guard.protect] }
        (fun _ d => verifyPayment demoEnv demoSvc d demoUserId (demoBody 150))
        { }).response.status = 401 ∧
      (serve demoAuthEnv (demoDb 900)
        { method := "POST", path := "/verify-payment", guards := [Guard.protect] }
        (fun _ d => verifyPayment demoEnv demoSvc d demoUserId (demoBody 150))
        { }).db = demoDb 900 ∧
      (serve demoAuthEnv (demoDb 900)
        { method := "POST", path := "/verify-payment", guards := [Guard.protect] }
        (fun _ d => verifyPayment demoEnv demoSvc d demoUserId (demoBody 150))
        { }).emails = [] :=
  ⟨by decide,
    (mutating_routes_protected demoAuthEnv (demoDb 900)
      { method := "POST", path := "/verify-payment", guards := [Guard.protect] }
      (fun _ d => verifyPayment demoEnv demoSvc d demoUserId (demoBody 150)) { }
      (by decide) (by decide)).2.2 rfl
      (by
        rintro ⟨authHeader, _, _, h, _⟩
        cases h)⟩

/-- C23, at the campaign of the examples: with the anonymous donation made by
another donor the first page of donations is the same. -/
theorem filteredDonations_hides_anonymous_witness :
    demoDonors.donations ≠ demoDonorsSwapped.donations ∧
      getCampaignDonations demoDonors demoCampaignId 1 10 =
        getCampaignDonations demoDonorsSwapped demoCampaignId 1 10 :=
  ⟨by decide,
    (filteredDonations_hides_anonymous [] demoDonors demoDonorsSwapped demoCampaignId 1
      10).2.2.2.2
      ⟨rfl, by
        unfold demoDonorsSwapped demoDonors
        simp [SameButAnonymousDonor]⟩⟩

end CrowdFunding
